import Mathlib

/-!
MythTV recording coordinator (`TVRec`) — shallow embedding

Source: `mythtv/libs/libmythtv/tv_rec.cpp` (and `mpegrecorder.h` for the
one recorder method defined in a header of this tree).

Conventions of the embedding.

* A C++ pointer member is an `Option`; dereferencing `NULL` is the fault
  `Fault.nullDeref`.
* Busy-wait loops are run with explicit fuel or against an explicit schedule of
  event-loop iterations; running out is the fault `Fault.outOfFuel`.
* Calls on collaborators whose results the coordinator reads (ring buffer
  opening, recording profile lookup, recorder start-up) take their results from
  a `Collab` record.  Collaborator calls whose only effect is inside the
  collaborator (tuner open/close/tune calls, picture controls, DB writes made
  by `ProgramInfo`) are recorded in the ghost field `events` when a property
  talks about them and are otherwise left out.
* `frameRate` and the file length sent with `DONE_RECORDING` are floating
  point values and are not represented.
-/

namespace MythTV

/-- Values of `TVState` that `tv_rec.cpp` names (the enum itself is declared in
`tv.h`, which is not part of this tree). -/
inductive TVState
  | kState_Error
  | kState_None
  | kState_WatchingLiveTV
  | kState_WatchingPreRecorded
  | kState_RecordingOnly
  | kState_ChangingState
  deriving DecidableEq, Repr

open TVState

/-- Ways in which the embedded code fails to return. -/
inductive Fault
  | nullDeref
  | outOfFuel
  deriving DecidableEq, Repr

/-- The fields of `ProgramInfo` that `tv_rec.cpp` reads.  `profileName` is the
result of `GetScheduledRecording()->getProfileName()` (`none` for a null
`QString`), `autoRunJobs` the result of `GetAutoRunJobs()`, and `basename` the
file-name part that `GetRecordFilename` appends to the recording directory. -/
structure ProgramInfo where
  title : String
  chanid : String
  chanstr : String
  category : String
  recendts : Int
  chancommfree : Int
  profileName : Option String
  autoRunJobs : Nat
  basename : String
  deriving DecidableEq, Repr

/-- Method `ProgramInfo::GetRecordFilename(prefix)` (programinfo.cpp is not part of
this tree): the recording directory followed by the file name. -/
def ProgramInfo.GetRecordFilename (p : ProgramInfo) (dir : String) : String :=
  dir ++ "/" ++ p.basename

/-- A `RingBuffer` as the coordinator sees it: the file it was created on and
whether `IsOpen()` holds. -/
structure RingBuffer where
  filename : String
  isOpen : Bool
  deriving DecidableEq, Repr

/-- The recorder classes `SetupRecorder` can allocate. -/
inductive RecorderKind
  | MpegRecorder
  | HDTVRecorder
  | FirewireRecorder
  | DVBRecorder
  | NuppelVideoRecorder
  deriving DecidableEq, Repr

/-- What a recorder reports at one instant. -/
structure RecStatus where
  recording : Bool
  errored : Bool
  deriving DecidableEq, Repr

/-- A `RecorderBase` object: its class, the ring buffer handed to
`SetRingBuffer`, the recording handed to `SetRecording`, and the status flags
last read from it. -/
structure RecorderBase where
  kind : RecorderKind
  ringBuffer : Option RingBuffer
  recording : Option ProgramInfo
  status : RecStatus
  deriving DecidableEq, Repr

/-- Method `RecorderBase::IsRecording()`. -/
def RecorderBase.IsRecording (r : RecorderBase) : Bool := r.status.recording

/-- Method `RecorderBase::IsErrored()`; `MpegRecorder` overrides it in
`mpegrecorder.h` with `return false`. -/
def RecorderBase.IsErrored (r : RecorderBase) : Bool :=
  match r.kind with
  | .MpegRecorder => false
  | _ => r.status.errored

/-- A `SignalMonitor` object as the coordinator sees it: whether it is a
`DTVSignalMonitor`, the values last handed to `SetUpdateRate` and
`SetNotifyFrontend` (or set by its constructor), and whether `Start()` has been
called. -/
structure SignalMonitor where
  isDTV : Bool
  updateRate : Int
  notifyFrontend : Bool
  running : Bool
  deriving DecidableEq, Repr

/-- Observable effects on collaborators, in the order they happen. -/
inductive Event
  | dispatch_QUIT_LIVETV (cardnum : Int)
  | dispatch_DONE_RECORDING (cardnum : Int)
  | dispatch_RECORDING_LIST_CHANGE
  | dispatch_ASK_RECORDING (cardnum : Int) (timeuntil : Int) (title : String)
  | channel_StoreInputChannels
  | curRecording_StartedRecording
  | curRecording_FinishedRecording (prematurestop : Bool)
  | pthread_create_RecorderThread
  | pthread_join_recorder_thread
  | recorder_StopRecording
  | unlink (path : String)
  | JobQueue_QueueJob_COMMFLAG
  | JobQueue_QueueJobs (mask : Nat)
  | SignalMonitor_Init (created : Bool)
  | signalMonitor_Start
  | delete_signalMonitor
  | dispatch_SIGNAL (cardnum : Int) (errorNoChannel : Bool)
  | recorder_Close
  | recorder_Open
  deriving DecidableEq, Repr

/-- Compile-time switches tested by `#ifdef` in `tv_rec.cpp`. -/
structure Build where
  USING_IVTV : Bool
  USING_V4L : Bool
  USING_FIREWIRE : Bool
  USING_DVB : Bool
  deriving DecidableEq, Repr

/-- Job-type mask values of `jobqueue.h` (not part of this tree). -/
def JOB_NONE : Nat := 0

/-- Job-type bit of the transcoder (`jobqueue.h`, not part of this tree). -/
def JOB_TRANSCODE : Nat := 1

/-- Job-type bit of the commercial flagger (`jobqueue.h`, not part of this
tree). -/
def JOB_COMMFLAG : Nat := 2

/-- Method `JobQueue::AddJobsToMask(jobs, mask)`: `mask |= jobs`. -/
def AddJobsToMask (jobs mask : Nat) : Nat := mask ||| jobs

/-- Method `JobQueue::RemoveJobsFromMask(jobs, mask)`: `mask &= ~jobs`. -/
def RemoveJobsFromMask (jobs mask : Nat) : Nat := mask ^^^ (mask &&& jobs)

/-- Method `JobQueue::JobIsInMask(job, mask)`: `mask & job`. -/
def JobIsInMask (job mask : Nat) : Bool := (mask &&& job) != 0

/-- Method `JobQueue::JobIsNotInMask(job, mask)`. -/
def JobIsNotInMask (job mask : Nat) : Bool := !(JobIsInMask job mask)

/-- The members of `TVRec` that the embedded functions read or write, under
their source names (`recprefixDir` is the member `recprefix`, `channel` says
whether the `channel` pointer is non-null, `recorder_thread` whether the thread
id is non-zero).  Times are seconds.  `events` is a ghost field. -/
structure TVRec where
  rbuffer : Option RingBuffer := none
  recorder : Option RecorderBase := none
  channel : Bool := false
  signalMonitor : Option SignalMonitor := none
  transcodeFirst : Bool := false
  earlyCommFlag : Bool := false
  runJobOnHostOnly : Bool := false
  overRecordSecNrml : Int := 0
  overRecordSecCat : Int := 0
  overRecordCategory : String := ""
  recprefixDir : String := ""
  m_capturecardnum : Int
  ispip : Bool := false
  internalState : TVState := kState_None
  desiredNextState : TVState := kState_None
  changeState : Bool := false
  frontendReady : Bool := false
  runMainLoop : Bool := false
  exitPlayer : Bool := false
  finishRecording : Bool := false
  paused : Bool := false
  prematurelystopped : Bool := false
  inoverrecord : Bool := false
  errored : Bool := false
  overrecordseconds : Int := 0
  curRecording : Option ProgramInfo := none
  profileName : String := ""
  askAllowRecording : Bool := false
  autoRunJobs : Nat := JOB_NONE
  pendingRecording : Option ProgramInfo := none
  recordPending : Bool := false
  cancelNextRecording : Bool := false
  recordPendingStart : Int := 0
  recordEndTime : Int := 0
  outputFilename : String := ""
  readthreadlive : Bool := false
  cardtype : String := ""
  recorder_thread : Bool := false
  events : List Event := []
  deriving DecidableEq, Repr

/-- The constructor `TVRec::TVRec(int capturecardnum)`. -/
def TVRec.new (capturecardnum : Int) : TVRec := { m_capturecardnum := capturecardnum }

/-- Append one observable effect. -/
def TVRec.emit (s : TVRec) (e : Event) : TVRec := { s with events := s.events ++ [e] }

/-- Method `TVRec::IsErrored()` (inline in `tv_rec.h`, which is not part of this
tree; `SetupRecorder` documents that errors set `errored` and refers to it). -/
def IsErrored (s : TVRec) : Bool := s.errored

/-- Method `TVRec::GetState()`. -/
def GetState (s : TVRec) : TVState :=
  if s.changeState then kState_ChangingState else s.internalState

/-- Method `TVRec::ChangeState(TVState nextState)`. -/
def ChangeState (nextState : TVState) (s : TVRec) : TVRec :=
  { s with desiredNextState := nextState, changeState := true }

/-- Method `TVRec::StateIsRecording(TVState)`. -/
def StateIsRecording (state : TVState) : Bool := state == kState_RecordingOnly

/-- Method `TVRec::StateIsPlaying(TVState)`. -/
def StateIsPlaying (state : TVState) : Bool := state == kState_WatchingPreRecorded

/-- Method `TVRec::RemoveRecording(TVState)`. -/
def RemoveRecording (state : TVState) : TVState :=
  if StateIsRecording state then kState_None else kState_Error

/-- Method `TVRec::RemovePlaying(TVState)`. -/
def RemovePlaying (state : TVState) : TVState :=
  if StateIsPlaying state then
    if state = kState_WatchingPreRecorded then kState_None else kState_RecordingOnly
  else kState_Error

/-- Method `TVRec::StartedRecording()`. -/
def StartedRecording (s : TVRec) : TVRec :=
  match s.curRecording with
  | none => s
  | some _ => (s.emit .curRecording_StartedRecording).emit .dispatch_RECORDING_LIST_CHANGE

/-- Method `TVRec::FinishedRecording()`. -/
def FinishedRecording (s : TVRec) : TVRec :=
  match s.curRecording with
  | none => s
  | some _ => s.emit (.curRecording_FinishedRecording s.prematurelystopped)

/-- Results of the collaborator calls made by one `HandleStateChange`:
`sinkOpens` is `rbuffer->IsOpen()` for the ring buffer created on
`outputFilename`, `foundProf` the result of `profile.loadByCard`,
`profileAutoTranscode` whether the profile has a non-zero `autotranscode`
setting, `initErrored` the error flag of the freshly initialised recorder, and
`report i` what the recorder thread reports at the `i`-th poll of the start-up
wait loop. -/
structure Collab where
  sinkOpens : Bool
  foundProf : Bool
  profileAutoTranscode : Bool
  initErrored : Bool
  report : Nat → RecStatus

/-- Method `TVRec::SetChannel()`: it reads `curRecording->chanid` and the other ids
without a null check; its remaining work is on the tuner and the database. -/
def SetChannel (s : TVRec) : Except Fault TVRec :=
  match s.curRecording with
  | none => .error .nullDeref
  | some _ => .ok s

/-- The statements common to every branch of `SetupRecorder`:
`recorder = new ...; recorder->SetRingBuffer(rbuffer); ...; Initialize()`. -/
def newRecorder (kind : RecorderKind) (env : Collab) (s : TVRec) : TVRec :=
  { s with recorder := some { kind := kind, ringBuffer := s.rbuffer, recording := none,
                              status := { recording := false, errored := env.initErrored } } }

/-- Method `TVRec::SetupRecorder(RecordingProfile&)`. -/
def SetupRecorder (b : Build) (env : Collab) (s : TVRec) : Except Fault TVRec := do
  let s ←
    if s.cardtype = "MPEG" then
      if b.USING_IVTV then pure (newRecorder .MpegRecorder env s)
      else pure { s with errored := true }
    else if s.cardtype = "HDTV" then
      if b.USING_V4L then
        -- rbuffer->SetWriteBufferSize(4*1024*1024)
        match s.rbuffer with
        | none => .error .nullDeref
        | some _ => pure (newRecorder .HDTVRecorder env s)
      else pure { s with errored := true }
    else if s.cardtype = "FIREWIRE" then
      if b.USING_FIREWIRE then pure (newRecorder .FirewireRecorder env s)
      else pure { s with errored := true }
    else if s.cardtype = "DVB" then
      if b.USING_DVB then pure (newRecorder .DVBRecorder env s)
      else pure { s with errored := true }
    else
      if b.USING_V4L then pure (newRecorder .NuppelVideoRecorder env s)
      else pure { s with errored := true }
  -- if (recorder->IsErrored()) errored = true;
  match s.recorder with
  | none => .error .nullDeref
  | some r => pure (if r.IsErrored then { s with errored := true } else s)

/-- Method `TVRec::TeardownRecorder(bool killFile)`. -/
def TeardownRecorder (killFile : Bool) (s : TVRec) : TVRec :=
  let s := { s with ispip := false }
  let s :=
    match s.recorder with
    | none => s
    | some _ =>
      let s := s.emit (.dispatch_DONE_RECORDING s.m_capturecardnum)
      let s := s.emit .recorder_StopRecording
      let s := { s with profileName := "" }
      let s := if s.recorder_thread then s.emit .pthread_join_recorder_thread else s
      { s with recorder_thread := false, recorder := none }
  let s :=
    match s.rbuffer with
    | none => s
    | some _ => { s with readthreadlive := false, rbuffer := none }
  let s :=
    if killFile then { (s.emit (.unlink s.outputFilename)) with outputFilename := "" } else s
  let s :=
    match s.curRecording with
    | none => s
    | some _ =>
      let s :=
        if s.autoRunJobs != 0 && !killFile && !s.prematurelystopped then
          s.emit (.JobQueue_QueueJobs s.autoRunJobs)
        else s
      { s with curRecording := none }
  s.emit .dispatch_RECORDING_LIST_CHANGE

/-- The local variables of `HandleStateChange`. -/
structure Locals where
  nextState : TVState
  changed : Bool := false
  startRecorder : Bool := false
  closeRecorder : Bool := false
  killRecordingFile : Bool := false
  deriving DecidableEq, Repr

/-- The macro `TRANSITION(ASTATE,BSTATE)`. -/
def TRANSITION (s : TVRec) (ASTATE BSTATE : TVState) : Bool :=
  s.internalState == ASTATE && s.desiredNextState == BSTATE

/-- The macro `SET_NEXT()`. -/
def SET_NEXT (s : TVRec) (l : Locals) : Locals :=
  { l with nextState := s.desiredNextState, changed := true }

/-- The macro `SET_LAST()`. -/
def SET_LAST (s : TVRec) (l : Locals) : Locals :=
  { l with nextState := s.internalState, changed := true }

/-- From `HandleStateChange`: the chain of `if (TRANSITION(...))` (source lines
561-602). -/
def handleTransitions (env : Collab) (s : TVRec) (l : Locals) : Except Fault (TVRec × Locals) :=
  if TRANSITION s kState_None kState_WatchingLiveTV then
    pure (s, SET_NEXT s { l with startRecorder := true })
  else if TRANSITION s kState_WatchingLiveTV kState_None then
    let s := if s.channel then s.emit .channel_StoreInputChannels else s
    pure (s, SET_NEXT s { l with closeRecorder := true, killRecordingFile := true })
  else if TRANSITION s kState_None kState_RecordingOnly then
    match SetChannel s with
    | .error f => .error f
    | .ok s =>
      let rb : RingBuffer := { filename := s.outputFilename, isOpen := env.sinkOpens }
      let s := { s with rbuffer := some rb }
      if rb.isOpen then
        let s := StartedRecording s
        pure (s, SET_NEXT s { l with startRecorder := true })
      else
        pure ({ s with rbuffer := none }, SET_LAST s l)
  else if TRANSITION s kState_RecordingOnly kState_None then
    let s := FinishedRecording s
    pure ({ s with inoverrecord := false }, SET_NEXT s { l with closeRecorder := true })
  else
    pure (s, l)

/-- The wait loop `while (!recorder->IsRecording() && !recorder->IsErrored())
usleep(50);`: poll `i` reads `report i`; the recorder object keeps the status
that ended the loop, which is what the reads after the loop see. -/
def waitRecorder (report : Nat → RecStatus) (r : RecorderBase) :
    Nat → Nat → Except Fault RecorderBase
  | 0, _ => .error .outOfFuel
  | fuel + 1, i =>
    let r1 := { r with status := report i }
    if !r1.IsRecording && !r1.IsErrored then waitRecorder report r fuel (i + 1)
    else .ok r1

/-- From `HandleStateChange`: the profile selection at the start of the
`if (startRecorder)` block (source lines 615-634). -/
def selectProfile (env : Collab) (s : TVRec) : TVRec :=
  match s.curRecording with
  | some rec =>
    match rec.profileName with
    | some name =>
      if env.foundProf then { s with profileName := name }
      else { s with profileName := "Default" }
    | none => { s with profileName := "Default" }
  | none => { s with profileName := "Live TV" }

/-- From `HandleStateChange`: the job mask set-up (source lines 639-654). -/
def setupJobMask (env : Collab) (livetv : Bool) (s : TVRec) : TVRec :=
  let s := { s with autoRunJobs := JOB_NONE }
  match s.curRecording with
  | some rec =>
    if !livetv then
      let s := { s with autoRunJobs := AddJobsToMask rec.autoRunJobs s.autoRunJobs }
      let s :=
        if !env.profileAutoTranscode then
          { s with autoRunJobs := RemoveJobsFromMask JOB_TRANSCODE s.autoRunJobs }
        else s
      if rec.chancommfree != 0 then
        { s with autoRunJobs := RemoveJobsFromMask JOB_COMMFLAG s.autoRunJobs }
      else s
    else s
  | none => s

/-- From `HandleStateChange`: the `if (!error)` block that starts the recorder
thread and waits for it (source lines 662-690). -/
def launchRecorder (fuel : Nat) (env : Collab) (s : TVRec) : Except Fault TVRec :=
  match s.recorder with
  | none => .error .nullDeref
  | some r =>
    let r := { r with recording := s.curRecording }
    let s := { s with recorder := some r, recorder_thread := true }
    let s := s.emit .pthread_create_RecorderThread
    match waitRecorder env.report r fuel 0 with
    | .error f => .error f
    | .ok r => .ok { s with recorder := some r }

/-- From `HandleStateChange`: the start of the block `if (startRecorder) ...`
up to the call of `SetupRecorder` (source lines 613-654). -/
def prepareStart (env : Collab) (livetv : Bool) (s : TVRec) : TVRec :=
  setupJobMask env livetv (selectProfile env { s with prematurelystopped := false })

/-- From `HandleStateChange`: the branch taken when `!error &&
recorder->IsRecording()` holds (source lines 696-714). -/
def recorderStarted (livetv : Bool) (s : TVRec) (l : Locals) : TVRec × Locals :=
  if !livetv && s.curRecording.isSome && JobIsInMask JOB_COMMFLAG s.autoRunJobs &&
      s.earlyCommFlag && (JobIsNotInMask JOB_TRANSCODE s.autoRunJobs || !s.transcodeFirst) then
    let s := s.emit .JobQueue_QueueJob_COMMFLAG
    ({ s with autoRunJobs := RemoveJobsFromMask JOB_COMMFLAG s.autoRunJobs }, l)
  else (s, l)

/-- From `HandleStateChange`: the `else` branch of that test (source lines
718-731); `errorOrErrored` is the value of `error || recorder->IsErrored()`. -/
def recorderNotStarted (errorOrErrored : Bool) (s : TVRec) (l : Locals) : TVRec × Locals :=
  let s :=
    if errorOrErrored then
      { (s.emit (.dispatch_QUIT_LIVETV s.m_capturecardnum)) with prematurelystopped := true }
    else s
  let s := FinishedRecording s
  (s, SET_LAST s { l with killRecordingFile := true, closeRecorder := true })

/-- From `HandleStateChange`: the block `if (startRecorder) ...` (source lines
609-733); `livetv` is computed before it, at line 608.  The two tests on
`error` are merged: with `error` set the recorder is neither started nor asked
for its status. -/
def handleStartRecorder (b : Build) (fuel : Nat) (env : Collab) (s : TVRec) (l : Locals) :
    Except Fault (TVRec × Locals) :=
  let livetv := l.nextState == kState_WatchingLiveTV
  match SetupRecorder b env (prepareStart env livetv s) with
  | .error f => .error f
  | .ok s =>
    if IsErrored s then
      .ok (recorderNotStarted true s l)
    else
      match launchRecorder fuel env s with
      | .error f => .error f
      | .ok s =>
        match s.recorder with
        | none => .error .nullDeref
        | some r =>
          if r.IsRecording then .ok (recorderStarted livetv s l)
          else .ok (recorderNotStarted r.IsErrored s l)

/-- Method `TVRec::HandleStateChange()`. -/
def HandleStateChange (b : Build) (fuel : Nat) (env : Collab) (s : TVRec) :
    Except Fault TVRec :=
  let l : Locals := { nextState := s.internalState }
  let s := { s with frontendReady := false, askAllowRecording := true,
                    cancelNextRecording := false }
  if s.desiredNextState = s.internalState then
    pure s
  else if s.desiredNextState = kState_Error then
    pure { s with errored := true }
  else do
    let (s, l) ← handleTransitions env s l
    let (s, l) ← if l.startRecorder then handleStartRecorder b fuel env s l else pure (s, l)
    let s := if l.closeRecorder then TeardownRecorder l.killRecordingFile s else s
    pure { s with internalState := l.nextState, changeState := false }

/-- One iteration of the event loop as the environment schedules it: the wall
clock `now` read by `QDateTime::currentDateTime()`, the time `ms` the iteration
takes (in milliseconds), and the collaborator results and wait-loop fuel for a
`HandleStateChange` made in it. -/
structure Tick where
  now : Int
  ms : Nat
  fuel : Nat
  collab : Collab

/-- From `RunTV`: the block that asks the frontend about a pending recording
(source lines 1143-1161); it reads `pendingRecording->title` without a null
check. -/
def askPendingRecording (t : Tick) (s : TVRec) : Except Fault TVRec :=
  if s.recordPending && s.askAllowRecording && s.frontendReady then
    let s := { s with askAllowRecording := false }
    match s.pendingRecording with
    | none => .error .nullDeref
    | some p =>
      .ok (s.emit (.dispatch_ASK_RECORDING s.m_capturecardnum
                     (s.recordPendingStart - t.now) p.title))
  else .ok s

/-- From `RunTV`: the block `if (StateIsRecording(internalState)) ...` that ends or
extends a recording (source lines 1163-1181). -/
def checkRecordingEnd (t : Tick) (s : TVRec) : TVRec :=
  if StateIsRecording s.internalState then
    if decide (t.now > s.recordEndTime) || s.finishRecording then
      let s :=
        if !s.inoverrecord && decide (s.overrecordseconds > 0) then
          { s with recordEndTime := s.recordEndTime + s.overrecordseconds,
                   inoverrecord := true }
        else ChangeState (RemoveRecording s.internalState) s
      { s with finishRecording := false }
    else s
  else s

/-- From `RunTV`: the block `if (exitPlayer) ...` (source lines 1183-1194). -/
def checkExitPlayer (s : TVRec) : TVRec :=
  if s.exitPlayer then
    let s :=
      if s.internalState = kState_WatchingLiveTV then ChangeState kState_None s
      else if StateIsPlaying s.internalState then
        ChangeState (RemovePlaying s.internalState) s
      else s
    { s with exitPlayer := false }
  else s

/-- The body of the loop `while (runMainLoop)` of `TVRec::RunTV()` (source
lines 1131-1194).  The boolean result is `true` when the body executed the
`return` of the fatal-error check. -/
def RunTV_iteration (b : Build) (t : Tick) (s : TVRec) : Except Fault (TVRec × Bool) :=
  match (if s.changeState then HandleStateChange b t.fuel t.collab s else .ok s) with
  | .error f => .error f
  | .ok s =>
    if IsErrored s then
      .ok ({ s with runMainLoop := false }, true)
    else
      match askPendingRecording t s with
      | .error f => .error f
      | .ok s => .ok (checkExitPlayer (checkRecordingEnd t s), false)

/-- The loop `while (runMainLoop)` of `RunTV` over the iterations the
environment schedules; when the schedule is used up the owner clears
`runMainLoop` (as the destructor does).  The boolean result is `true` when the
loop was left through the `return` of the fatal-error check. -/
def RunTV_loop (b : Build) : List Tick → TVRec → Except Fault (TVRec × Bool)
  | [], s => pure ({ s with runMainLoop := false }, false)
  | t :: rest, s =>
    if s.runMainLoop then do
      let (s, returned) ← RunTV_iteration b t s
      if returned then pure (s, true) else RunTV_loop b rest s
    else pure (s, false)

/-- Method `TVRec::RunTV()`; `last` supplies the collaborator results for the
`HandleStateChange` made after the loop. -/
def RunTV (b : Build) (sched : List Tick) (last : Tick) (s : TVRec) : Except Fault TVRec := do
  let s := { s with paused := false, runMainLoop := true, exitPlayer := false,
                    finishRecording := false }
  let (s, returned) ← RunTV_loop b sched s
  if returned then pure s
  else if GetState s != kState_None then
    HandleStateChange b last.fuel last.collab (ChangeState kState_None s)
  else pure s

/-- What the event thread does to the coordinator during one scheduled
iteration: one pass of the loop body if the loop is still running, nothing
otherwise. -/
def eventThreadStep (b : Build) (t : Tick) (s : TVRec) : Except Fault TVRec :=
  if s.runMainLoop then
    match RunTV_iteration b t s with
    | .error f => .error f
    | .ok (s, _) => .ok s
  else .ok s

/-- The loop `while (changeState) usleep(50);` run by a caller's thread while
the event thread makes the scheduled iterations: the caller looks at
`changeState` between iterations.  The remaining schedule is returned. -/
def waitChangeState (b : Build) : List Tick → TVRec → Except Fault (TVRec × List Tick)
  | [], s => if s.changeState then .error .outOfFuel else .ok (s, [])
  | t :: rest, s =>
    if s.changeState then
      match eventThreadStep b t s with
      | .error f => .error f
      | .ok s => waitChangeState b rest s
    else .ok (s, t :: rest)

/-- The loop `while (internalState != kState_None && timer.elapsed() < limit)
usleep(100);` run by a caller's thread while the event thread makes the
scheduled iterations.  The caller looks at `internalState` between iterations;
an iteration that would end after the limit is still in progress when the timer
runs out, and so is left in the schedule.  With no iteration scheduled the
timer simply runs out. -/
def waitForNone (b : Build) (limit : Nat) :
    List Tick → Nat → TVRec → Except Fault (TVRec × List Tick)
  | [], _, s => .ok (s, [])
  | t :: rest, elapsed, s =>
    if s.internalState != kState_None && decide (elapsed < limit) then
      if elapsed + t.ms ≤ limit then
        match eventThreadStep b t s with
        | .error f => .error f
        | .ok s => waitForNone b limit rest (elapsed + t.ms) s
      else .ok (s, t :: rest)
    else .ok (s, t :: rest)

/-- From `StartRecording`: the second request to the live viewer and the second
wait (source lines 352-360). -/
def evictSecondWindow (b : Build) (r : TVRec × List Tick) : Except Fault (TVRec × List Tick) :=
  if r.1.internalState != kState_None then
    waitForNone b 10000 r.2 0 (r.1.emit (.dispatch_QUIT_LIVETV r.1.m_capturecardnum))
  else .ok r

/-- From `StartRecording`: setting `exitPlayer` and the third wait (source lines
362-368). -/
def evictThirdWindow (b : Build) (r : TVRec × List Tick) : Except Fault (TVRec × List Tick) :=
  if r.1.internalState != kState_None then
    waitForNone b 5000 r.2 0 { r.1 with exitPlayer := true }
  else .ok r

/-- From `StartRecording`: the block that asks the live viewer to quit (source
lines 341-368). -/
def evictLiveTV (b : Build) (sched : List Tick) (s : TVRec) :
    Except Fault (TVRec × List Tick) :=
  ((waitForNone b 10000 sched 0 (s.emit (.dispatch_QUIT_LIVETV s.m_capturecardnum))).bind
    (evictSecondWindow b)).bind (evictThirdWindow b)

/-- From `StartRecording`: the part after the waits (source lines 371-411). -/
def beginRecording (rcinfo : ProgramInfo) (s : TVRec) : Int × TVRec :=
  let (retval, s) : Int × TVRec :=
    if s.internalState = kState_None then
      let s := { s with outputFilename := rcinfo.GetRecordFilename s.recprefixDir,
                        recordEndTime := rcinfo.recendts,
                        curRecording := some rcinfo }
      let s := { s with overrecordseconds := s.overRecordSecNrml }
      let s :=
        if rcinfo.category = s.overRecordCategory then
          { s with overrecordseconds := s.overRecordSecCat }
        else s
      (1, ChangeState kState_RecordingOnly s)
    else if !s.cancelNextRecording then (-1, s)
    else (0, s)
  let s := if s.cancelNextRecording then { s with cancelNextRecording := false } else s
  (retval, s)

/-- From `StartRecording`: the block `if (inoverrecord) ...` (source lines
323-329). -/
def waitOverrecordEnd (b : Build) (r : TVRec × List Tick) : Except Fault (TVRec × List Tick) :=
  if r.1.inoverrecord then waitChangeState b r.2 (ChangeState kState_None r.1)
  else .ok r

/-- From `StartRecording`: the block `if (changeState) ...` (source lines
331-337). -/
def waitPendingChange (b : Build) (r : TVRec × List Tick) : Except Fault (TVRec × List Tick) :=
  if r.1.changeState then waitChangeState b r.2 r.1
  else .ok r

/-- From `StartRecording`: the block `if (internalState == kState_WatchingLiveTV &&
!cancelNextRecording) ...` (source lines 339-369). -/
def evictIfLive (b : Build) (r : TVRec × List Tick) : Except Fault (TVRec × List Tick) :=
  if r.1.internalState == kState_WatchingLiveTV && !r.1.cancelNextRecording then
    evictLiveTV b r.2 r.1
  else .ok r

/-- Method `TVRec::StartRecording(const ProgramInfo *rcinfo)`, run by the caller's
thread against the schedule `sched` of event-loop iterations; the result is the
return value, the coordinator on return and the iterations not yet made. -/
def StartRecording (b : Build) (sched : List Tick) (rcinfo : ProgramInfo) (s : TVRec) :
    Except Fault (Int × TVRec × List Tick) :=
  let s := { s with recordPending := false, askAllowRecording := false }
  (((waitOverrecordEnd b (s, sched)).bind (waitPendingChange b)).bind (evictIfLive b)).bind
    (fun r => .ok ((beginRecording rcinfo r.1).1, (beginRecording rcinfo r.1).2, r.2))

/-- What `TVRec::Init()` reads from the capture-card row and the settings. -/
structure DeviceConfig where
  cardtype : String
  videodev : String
  transcodeFirst : Bool
  earlyCommFlag : Bool
  runJobOnHostOnly : Bool
  recordOverTime : Int
  categoryOverTime : Int
  overTimeCategory : String
  recordFileDir : String
  deriving DecidableEq, Repr

/-- Method `TVRec::Init()`: the channel object is created according to card type and
build, the settings are read, and the event thread is started (`Init` waits
until `RunTV` has set `runMainLoop`, so the four writes that open `RunTV` have
been made when it returns).  The boolean is the return value. -/
def Init (b : Build) (cfg : DeviceConfig) (s : TVRec) : TVRec × Bool :=
  let s := { s with cardtype := cfg.cardtype }
  let r : TVRec × Bool :=
    if s.cardtype = "DVB" then
      if b.USING_DVB then ({ s with channel := true }, true)
      else ({ s with errored := true }, false)
    else if s.cardtype = "FIREWIRE" then
      if b.USING_FIREWIRE then ({ s with channel := true }, true)
      else ({ s with errored := true }, false)
    else if s.cardtype = "MPEG" ∧ (cfg.videodev.toLower.take 5) = "file:" then
      (s, true)
    else
      if b.USING_V4L then ({ s with channel := true }, true)
      else ({ s with errored := true }, false)
  if r.2 then
    let s := r.1
    let s := { s with transcodeFirst := cfg.transcodeFirst, earlyCommFlag := cfg.earlyCommFlag,
                      runJobOnHostOnly := cfg.runJobOnHostOnly,
                      overRecordSecNrml := cfg.recordOverTime,
                      overRecordSecCat := cfg.categoryOverTime * 60,
                      overRecordCategory := cfg.overTimeCategory,
                      recprefixDir := cfg.recordFileDir }
    ({ s with paused := false, runMainLoop := true, exitPlayer := false,
              finishRecording := false }, true)
  else r

/-- Method `TVRec::SetupRingBuffer(path, filesize, fillamount, pip)`; `path` stands
for the live-TV buffer file name built from `LiveBufferDir` and the card
number, and `opens` is the result of `rbuffer->IsOpen()`.  The boolean is the
return value. -/
def SetupRingBuffer (path : String) (pip : Bool) (opens : Bool) (s : TVRec) : TVRec × Bool :=
  match s.rbuffer with
  | some _ => (s, false)
  | none =>
    let s := { s with ispip := pip, outputFilename := path }
    if opens then ({ s with rbuffer := some { filename := path, isOpen := true } }, true)
    else ({ s with rbuffer := none }, false)

/-- Results of the collaborator calls made by one `SetupSignalMonitor`:
`isSupported` is `SignalMonitor::IsSupported(cardtype)`, `channelOpens` is
`channel->Open()`, and `monitor` is what `SignalMonitor::Init` returns (`none`
for a null pointer). -/
structure MonitorEnv where
  isSupported : Bool
  channelOpens : Bool
  monitor : Option SignalMonitor

/-- Whether `dynamic_cast<DVBChannel*>(channel)` is non-null: the channel object
is allocated by `Init`, as a `DVBChannel` exactly for the card type DVB. -/
def isDVBChannel (s : TVRec) : Bool := s.channel && s.cardtype == "DVB"

/-- Method `TVRec::SetupSignalMonitor()`.  The table monitoring set up for a
digital monitor acts inside the monitor and is not represented. -/
def SetupSignalMonitor (b : Build) (env : MonitorEnv) (s : TVRec) : TVRec :=
  match s.signalMonitor with
  | some _ => s
  | none =>
    if !s.channel then s
    else
      let s :=
        if env.isSupported && env.channelOpens then
          let s :=
            if b.USING_DVB then
              match s.recorder with
              | some r => if r.kind = .DVBRecorder then s.emit .recorder_Close else s
              | none => s
            else s
          { s.emit (.SignalMonitor_Init env.monitor.isSome) with signalMonitor := env.monitor }
        else s
      match s.signalMonitor with
      | some m =>
        { s.emit .signalMonitor_Start with signalMonitor := some { m with running := true } }
      | none => s

/-- Method `TVRec::TeardownSignalMonitor()`.  Saving the cached pids, stopping the
digital monitor and `CloseChannel()` act on the channel and inside the monitor
and are not represented; the last block calls `Open()` on `recorder` without a
null check. -/
def TeardownSignalMonitor (b : Build) (s : TVRec) : Except Fault TVRec :=
  let s :=
    match s.signalMonitor with
    | some _ => { s.emit .delete_signalMonitor with signalMonitor := none }
    | none => s
  if b.USING_DVB && GetState s == kState_WatchingLiveTV && isDVBChannel s then
    match s.recorder with
    | none => .error .nullDeref
    | some _ => .ok (s.emit .recorder_Open)
  else .ok s

/-- Method `TVRec::SetSignalMonitoringRate(int rate, int notifyFrontend)`; the
integer of the result is the return value (the previous update rate). -/
def SetSignalMonitoringRate (b : Build) (env : MonitorEnv) (rate notifyFrontend : Int)
    (s : TVRec) : Except Fault (Int × TVRec) :=
  let oldrate : Int :=
    match s.signalMonitor with
    | some m => m.updateRate
    | none => 0
  if rate = 0 then
    match TeardownSignalMonitor b s with
    | .error f => .error f
    | .ok s => .ok (oldrate, s)
  else if rate < 0 then
    match s.signalMonitor with
    | some m =>
      if notifyFrontend ≥ 0 then
        .ok (oldrate,
          { s with signalMonitor := some { m with notifyFrontend := notifyFrontend != 0 } })
      else .ok (oldrate, s)
    | none => .ok (oldrate, s)
  else
    let s := SetupSignalMonitor b env s
    match s.signalMonitor with
    | some m =>
      let m := { m with updateRate := rate }
      let m :=
        if notifyFrontend ≥ 0 then { m with notifyFrontend := notifyFrontend != 0 }
        else if oldrate = 0 then { m with notifyFrontend := false }
        else m
      .ok (oldrate, { s with signalMonitor := some m })
    | none =>
      let useMonitor : Bool := s.cardtype == "DVB" || s.cardtype == "HDTV"
      .ok (oldrate, s.emit (.dispatch_SIGNAL s.m_capturecardnum useMonitor))

/-! ## Vocabulary used to state the properties -/

/-- The four transitions `HandleStateChange` implements. -/
def supportedTransition (a b : TVState) : Bool :=
  (a == kState_None && b == kState_WatchingLiveTV) ||
  (a == kState_WatchingLiveTV && b == kState_None) ||
  (a == kState_None && b == kState_RecordingOnly) ||
  (a == kState_RecordingOnly && b == kState_None)

/-- The coordinator after the three writes every call of `HandleStateChange`
makes before it looks at the request (source lines 533-535). -/
def hscEntry (s : TVRec) : TVRec :=
  { s with frontendReady := false, askAllowRecording := true, cancelNextRecording := false }

/-- The recorder class `SetupRecorder` chooses for a card type. -/
def recorderKindOf (cardtype : String) : RecorderKind :=
  if cardtype = "MPEG" then .MpegRecorder
  else if cardtype = "HDTV" then .HDTVRecorder
  else if cardtype = "FIREWIRE" then .FirewireRecorder
  else if cardtype = "DVB" then .DVBRecorder
  else .NuppelVideoRecorder

/-- Whether the recorder class for a card type is compiled into the build, so
that `SetupRecorder` allocates a recorder. -/
def backendBuilt (b : Build) (cardtype : String) : Bool :=
  if cardtype = "MPEG" then b.USING_IVTV
  else if cardtype = "HDTV" then b.USING_V4L
  else if cardtype = "FIREWIRE" then b.USING_FIREWIRE
  else if cardtype = "DVB" then b.USING_DVB
  else b.USING_V4L

/-- Whether a recorder of class `kind` with status `st` makes `IsErrored()`
true. -/
def reportsError (kind : RecorderKind) (st : RecStatus) : Bool :=
  kind != .MpegRecorder && st.errored

/-- Poll `n` is the first one at which a recorder of class `kind` reports that
it is recording or that it has failed. -/
def FirstReport (kind : RecorderKind) (report : Nat → RecStatus) (n : Nat) : Prop :=
  (∀ j, j < n → (report j).recording = false ∧ reportsError kind (report j) = false) ∧
  ((report n).recording = true ∨ reportsError kind (report n) = true)

/-- The coordinators that can be reached from a freshly constructed and
initialised one: by a `ChangeState` request followed by a completed
`HandleStateChange`, and by the calls that put such requests in place for the
event loop (`StartRecording`, during whose waits the event loop runs, and
`SetupRingBuffer`, which provides the live-TV sink). -/
inductive Reachable (b : Build) : TVRec → Prop
  | init (capturecardnum : Int) (cfg : DeviceConfig) :
      Reachable b (Init b cfg (TVRec.new capturecardnum)).1
  | request {s s' : TVRec} (target : TVState) (fuel : Nat) (env : Collab) :
      Reachable b s → HandleStateChange b fuel env (ChangeState target s) = .ok s' →
      Reachable b s'
  | startRecording {s s' : TVRec} (sched rest : List Tick) (rcinfo : ProgramInfo) (r : Int) :
      Reachable b s → StartRecording b sched rcinfo s = .ok (r, s', rest) → Reachable b s'
  | setupRingBuffer {s : TVRec} (path : String) (pip opens : Bool) :
      Reachable b s → Reachable b (SetupRingBuffer path pip opens s).1

/-- The coordinators after each scheduled iteration made while one recording
lasts: the run ends with the first coordinator whose `internalState` is no
longer `kState_RecordingOnly` (or at a fault of the event thread). -/
def recordingRun (b : Build) : List Tick → TVRec → List TVRec
  | [], _ => []
  | t :: rest, s =>
    if s.internalState = kState_RecordingOnly then
      match eventThreadStep b t s with
      | .ok s' => s' :: recordingRun b rest s'
      | .error _ => []
    else []

/-- The number of steps of a run, started at `s`, that changed
`recordEndTime`. -/
def extensions : TVRec → List TVRec → Nat
  | _, [] => 0
  | s, s' :: rest => (if s'.recordEndTime = s.recordEndTime then 0 else 1) + extensions s' rest

/-- Only tear-down work is pending: no question about a pending recording is
armed, and the posted request, if there is one, asks for `kState_None` or
`kState_Error` (the targets the event loop posts by itself). -/
def TeardownOnly (s : TVRec) : Prop :=
  s.recordPending = false ∧
  (s.changeState = true →
    s.desiredNextState = kState_None ∨ s.desiredNextState = kState_Error)

/-- The time, in milliseconds, that a list of event-loop iterations takes. -/
def duration (ticks : List Tick) : Nat := (ticks.map Tick.ms).sum

/-- What a transition out of `kState_None` needs in order to return: the
coordinator is not already in its fatal error state, a recording has been set
when one is to be recorded, the recorder class of the card is compiled in, an
HDTV live view has its ring buffer, and the recorder reports for the first time
at poll `n`, within the fuel. -/
structure CanStart (b : Build) (fuel : Nat) (env : Collab) (s : TVRec) (n : Nat) : Prop where
  notErrored : s.errored = false
  hasRecording : s.desiredNextState = kState_RecordingOnly → s.curRecording ≠ none
  built : backendBuilt b s.cardtype = true
  liveSink : s.desiredNextState = kState_WatchingLiveTV → s.cardtype = "HDTV" → s.rbuffer ≠ none
  firstReport : FirstReport (recorderKindOf s.cardtype) env.report n
  enoughFuel : n < fuel

/-- The sink the transition needs, if it needs one, opened: only the
transition to `kState_RecordingOnly` opens a sink. -/
def sinkOpened (env : Collab) (s : TVRec) : Bool :=
  s.desiredNextState != kState_RecordingOnly || env.sinkOpens

/-- The recorder came out of `Initialize()` without error and its first report,
at poll `n`, is that it is recording. -/
def recorderReportsRecording (env : Collab) (s : TVRec) (n : Nat) : Bool :=
  !reportsError (recorderKindOf s.cardtype) { recording := false, errored := env.initErrored } &&
    (env.report n).recording

/-! ## Sample values -/

/-- A build with every recorder class compiled in. -/
def sampleBuild : Build :=
  { USING_IVTV := true, USING_V4L := true, USING_FIREWIRE := true, USING_DVB := true }

/-- A scheduled programme. -/
def sampleProgram : ProgramInfo :=
  { title := "News", chanid := "1001", chanstr := "1", category := "news", recendts := 1000,
    chancommfree := 0, profileName := none, autoRunJobs := 3, basename := "1001.nuv" }

/-- Collaborators that all succeed; the recorder reports that it is recording
at its third poll. -/
def sampleCollab : Collab :=
  { sinkOpens := true, foundProf := true, profileAutoTranscode := false, initErrored := false,
    report := fun i => { recording := decide (2 ≤ i), errored := false } }

/-- Collaborators where the recorder reports an error at its third poll. -/
def sampleCollabRecorderError : Collab :=
  { sampleCollab with report := fun i => { recording := false, errored := decide (2 ≤ i) } }

/-- Collaborators where the sink does not open. -/
def sampleCollabNoSink : Collab := { sampleCollab with sinkOpens := false }

/-- An idle coordinator whose event loop is running. -/
def sampleIdle : TVRec := { TVRec.new 1 with runMainLoop := true }

/-- The idle coordinator after `StartRecording sampleProgram` has posted its
request. -/
def sampleRequested : TVRec :=
  { sampleIdle with outputFilename := "/1001.nuv", recordEndTime := 1000,
                    curRecording := some sampleProgram,
                    desiredNextState := kState_RecordingOnly, changeState := true }

/-- A coordinator showing live TV. -/
def sampleLive : TVRec :=
  { sampleIdle with
      internalState := kState_WatchingLiveTV, desiredNextState := kState_WatchingLiveTV,
      rbuffer := some { filename := "/ringbuf1.nuv", isOpen := true },
      outputFilename := "/ringbuf1.nuv",
      recorder := some { kind := .NuppelVideoRecorder,
                         ringBuffer := some { filename := "/ringbuf1.nuv", isOpen := true },
                         recording := none, status := { recording := true, errored := false } },
      recorder_thread := true, profileName := "Live TV", askAllowRecording := true }

/-- A coordinator in the middle of a scheduled recording. -/
def sampleRecording : TVRec :=
  { sampleIdle with
      internalState := kState_RecordingOnly, desiredNextState := kState_RecordingOnly,
      rbuffer := some { filename := "/1001.nuv", isOpen := true },
      outputFilename := "/1001.nuv", recordEndTime := 1000,
      curRecording := some sampleProgram,
      recorder := some { kind := .NuppelVideoRecorder,
                         ringBuffer := some { filename := "/1001.nuv", isOpen := true },
                         recording := some sampleProgram,
                         status := { recording := true, errored := false } },
      recorder_thread := true, profileName := "Default", askAllowRecording := true }

/-- An event-loop iteration at wall-clock time `now` that takes `ms`
milliseconds. -/
def sampleTick (now : Int) (ms : Nat) : Tick :=
  { now := now, ms := ms, fuel := 5, collab := sampleCollab }

/-- A V4L card row with a one-minute overrun for every programme. -/
def sampleConfig : DeviceConfig :=
  { cardtype := "V4L", videodev := "/dev/video0", transcodeFirst := false,
    earlyCommFlag := false, runJobOnHostOnly := false, recordOverTime := 60,
    categoryOverTime := 0, overTimeCategory := "", recordFileDir := "" }

/-- A constructed and initialised coordinator. -/
def sampleInit : TVRec := (Init sampleBuild sampleConfig (TVRec.new 1)).1

/-- The initialised coordinator with its live-TV ring buffer set up and a
request for live TV posted. -/
def sampleLiveRequested : TVRec :=
  ChangeState kState_WatchingLiveTV (SetupRingBuffer "/ringbuf1.nuv" false true sampleInit).1

/-- The coordinator after the event loop has handled that request. -/
def sampleWatching : TVRec :=
  match HandleStateChange sampleBuild 5 sampleCollab sampleLiveRequested with
  | .ok s => s
  | .error _ => sampleLiveRequested

/-- A scheduled recording with one minute of overrun allowed, not yet
extended. -/
def sampleRecordingOverrun : TVRec := { sampleRecording with overrecordseconds := 60 }

/-- A scheduled recording that has already been extended by its minute of
overrun. -/
def sampleOverrecording : TVRec :=
  { sampleRecording with overrecordseconds := 60, recordEndTime := 1060, inoverrecord := true }

/-- A coordinator for a DVB card, initialised and idle. -/
def sampleDVB : TVRec :=
  (Init sampleBuild { sampleConfig with cardtype := "DVB" } (TVRec.new 2)).1

/-- Collaborators of `SetupSignalMonitor` that all succeed: the factory returns
a digital monitor. -/
def sampleMonitorEnv : MonitorEnv :=
  { isSupported := true, channelOpens := true,
    monitor := some { isDTV := true, updateRate := 25, notifyFrontend := true,
                      running := false } }

/-! ## Process supervision: `mythtv/libs/libmythdb/mythsystem.cpp`

Conventions of this part of the embedding.

* `MythSystem` objects live in a heap indexed by their address (a `Nat`); the
  supervisor's table `m_pMap` and the reaper's local lists hold addresses.
* Results of system calls (`access`, `pipe`, `fork`, `waitpid`, `time`,
  `select`, `read`) are supplied by the environment; the calls the program
  makes on other processes, on descriptors and on the GUI object are recorded
  in the ghost field `calls`.
* The threads (callers of `Run`, the reaper thread) are interleaved at the
  granularity of whole calls and whole reaper iterations; the reaper holds
  `m_mapLock` for the part of an iteration that reads the table.
* The model follows the parent process: `fork()` returning 0 is the child,
  which replaces itself with the command or exits and never returns from
  `Fork`.
-/

/-- Values of the exit-code macros of `exitcodes.h` (not part of this tree)
that `mythsystem.cpp` stores in `m_status`. -/
structure ExitCodes where
  GENERIC_EXIT_START : Nat
  GENERIC_EXIT_RUNNING : Nat
  GENERIC_EXIT_NOT_OK : Nat
  GENERIC_EXIT_CMD_NOT_FOUND : Nat
  GENERIC_EXIT_TIMEOUT : Nat
  GENERIC_EXIT_ABORTED : Nat
  GENERIC_EXIT_TERMINATED : Nat
  GENERIC_EXIT_SIGNALLED : Nat
  deriving DecidableEq, Repr

/-- Flag value `kMSNone` of `MythSystemMask` (`mythsystem.h`). -/
def kMSNone : Nat := 0x00000000

/-- Flag value `kMSDontBlockInputDevs` of `MythSystemMask`. -/
def kMSDontBlockInputDevs : Nat := 0x00000001

/-- Flag value `kMSDontDisableDrawing` of `MythSystemMask`. -/
def kMSDontDisableDrawing : Nat := 0x00000002

/-- Flag value `kMSRunBackground` of `MythSystemMask`. -/
def kMSRunBackground : Nat := 0x00000004

/-- Flag value `kMSProcessEvents` of `MythSystemMask`. -/
def kMSProcessEvents : Nat := 0x00000008

/-- Flag value `kMSInUi` of `MythSystemMask`. -/
def kMSInUi : Nat := 0x00000010

/-- Flag value `kMSStdIn` of `MythSystemMask`. -/
def kMSStdIn : Nat := 0x00000011

/-- Flag value `kMSStdOut` of `MythSystemMask`. -/
def kMSStdOut : Nat := 0x00000012

/-- Flag value `kMSStdErr` of `MythSystemMask`. -/
def kMSStdErr : Nat := 0x00000014

/-- Flag value `kMSBuffered` of `MythSystemMask`. -/
def kMSBuffered : Nat := 0x00000018

/-- Flag value `kMSRunShell` of `MythSystemMask`. -/
def kMSRunShell : Nat := 0x00000020

/-- The signals `mythsystem.cpp` sends with `kill()`. -/
inductive Signal
  | SIGTERM
  | SIGKILL
  | SIGSTOP
  | SIGCONT
  | SIGHUP
  | SIGUSR1
  | SIGUSR2
  deriving DecidableEq, Repr

/-- Calls the program makes on the operating system and on the GUI object, in
the order they happen. -/
inductive SysCall
  | pipe (rd wr : Int)
  | close (fd : Int)
  | fork (child : Int)
  | kill (pid : Int) (sig : Signal)
  | manager_start
  | sendEvent_LockInputDevices
  | sendEvent_PushDisableDrawing
  | sendEvent_PopDisableDrawing
  | postEvent_UnlockInputDevices
  deriving DecidableEq, Repr

/-- Ways in which a call of this part does not return to its caller. -/
inductive ProcFault
  | inChild
  | blocked
  | overrun
  deriving DecidableEq, Repr

/-- Macro `WTERMSIG(status)` of `<sys/wait.h>` (Linux encoding of the wait
status). -/
def WTERMSIG (status : Nat) : Nat := status &&& 0x7f

/-- Macro `WEXITSTATUS(status)` of `<sys/wait.h>`. -/
def WEXITSTATUS (status : Nat) : Nat := (status &&& 0xff00) >>> 8

/-- Macro `WIFEXITED(status)` of `<sys/wait.h>`: `WTERMSIG(status) == 0`. -/
def WIFEXITED (status : Nat) : Bool := WTERMSIG status == 0

/-- Macro `WIFSIGNALED(status)` of `<sys/wait.h>`:
`((signed char) ((status & 0x7f) + 1) >> 1) > 0`, which holds exactly for the
termination signals 1 to 126. -/
def WIFSIGNALED (status : Nat) : Bool :=
  decide (2 ≤ (status &&& 0x7f) + 1 ∧ (status &&& 0x7f) + 1 < 128)

/-- The members of a `MythSystem` object, under their source names
(`m_stdpipe0..2` are `m_stdpipe[0..2]`, `m_stdbuff0..1` the bytes held by
`m_stdbuff[0..1]`, `m_pmutex` whether the launch lock is held). -/
structure MythSystem where
  m_status : Nat
  m_pid : Int
  m_pmutex : Bool
  m_timeout : Int
  m_command : String
  m_args : List String
  m_stdpipe0 : Int
  m_stdpipe1 : Int
  m_stdpipe2 : Int
  m_stdbuff0 : List Nat
  m_stdbuff1 : List Nat
  m_runinbackground : Bool
  m_isinui : Bool
  m_blockinputdevs : Bool
  m_disabledrawing : Bool
  m_processevents : Bool
  m_usestdin : Bool
  m_usestdout : Bool
  m_usestderr : Bool
  m_bufferedio : Bool
  m_useshell : Bool
  deriving DecidableEq, Repr

/-- The values found in the members that the constructors do not initialise
(`m_pid`, `m_timeout` and `m_stdpipe` have no initialiser). -/
structure Indeterminate where
  m_pid : Int
  m_timeout : Int
  m_stdpipe0 : Int
  m_stdpipe1 : Int
  m_stdpipe2 : Int
  deriving DecidableEq, Repr

/-- The object after the member initialiser list `m_status(GENERIC_EXIT_START)`
of both constructors: strings, lists, buffers and the lock are default
constructed, and the ten flags are written by `ProcessFlags` before anything
reads them. -/
def MythSystem.initial (c : ExitCodes) (mem : Indeterminate) : MythSystem :=
  { m_status := c.GENERIC_EXIT_START, m_pid := mem.m_pid, m_pmutex := false,
    m_timeout := mem.m_timeout, m_command := "", m_args := [],
    m_stdpipe0 := mem.m_stdpipe0, m_stdpipe1 := mem.m_stdpipe1, m_stdpipe2 := mem.m_stdpipe2,
    m_stdbuff0 := [], m_stdbuff1 := [],
    m_runinbackground := false, m_isinui := false, m_blockinputdevs := false,
    m_disabledrawing := false, m_processevents := false, m_usestdin := false,
    m_usestdout := false, m_usestderr := false, m_bufferedio := false, m_useshell := false }

/-- Method `QString::endsWith(s)`: the characters of `s` are the last characters
of the string. -/
def QString.endsWith (str s : String) : Bool := s.data.isSuffixOf str.data

/-- From `ProcessFlags`: the choice of `m_runinbackground` (source lines
468-475). -/
def backgroundFlags (flags : Nat) (h : MythSystem) : MythSystem :=
  if flags &&& kMSRunBackground ≠ 0 then { h with m_runinbackground := true }
  else if QString.endsWith h.m_command "&" then { h with m_runinbackground := true, m_useshell := true }
  else h

/-- From `ProcessFlags`: the flags that depend on being in the UI thread (source
lines 477-488); `inUI` is `gCoreContext->HasGUI() && gCoreContext->IsUIThread()`. -/
def uiFlags (inUI : Bool) (flags : Nat) (h : MythSystem) : MythSystem :=
  if inUI then
    { h with m_isinui := true,
             m_blockinputdevs := (flags &&& kMSDontBlockInputDevs) == 0,
             m_disabledrawing := (flags &&& kMSDontDisableDrawing) == 0,
             m_processevents := (flags &&& kMSProcessEvents) != 0 }
  else { h with m_isinui := false, m_processevents := false }

/-- From `ProcessFlags`: the five tests on the stdio, buffering and shell flags
(source lines 490-499). -/
def stdioFlags (flags : Nat) (h : MythSystem) : MythSystem :=
  { h with m_usestdin := h.m_usestdin || (flags &&& kMSStdIn) != 0,
           m_usestdout := h.m_usestdout || (flags &&& kMSStdOut) != 0,
           m_usestderr := h.m_usestderr || (flags &&& kMSStdErr) != 0,
           m_bufferedio := h.m_bufferedio || (flags &&& kMSBuffered) != 0,
           m_useshell := h.m_useshell || (flags &&& kMSRunShell) != 0 }

/-- Method `MythSystem::ProcessFlags(uint flags)`. -/
def ProcessFlags (c : ExitCodes) (inUI : Bool) (flags : Nat) (h : MythSystem) : MythSystem :=
  let h := { h with m_runinbackground := false, m_isinui := false, m_blockinputdevs := false,
                    m_disabledrawing := false, m_processevents := false, m_usestdin := false,
                    m_usestdout := false, m_usestderr := false, m_bufferedio := false,
                    m_useshell := false }
  if h.m_status ≠ c.GENERIC_EXIT_START then h
  else stdioFlags flags (uiFlags inUI flags (backgroundFlags flags h))

/-- The constructor `MythSystem::MythSystem(const QString &command, uint flags)`. -/
def MythSystem.fromCommand (c : ExitCodes) (inUI : Bool) (mem : Indeterminate)
    (command : String) (flags : Nat) : MythSystem :=
  let h := ProcessFlags c inUI flags (MythSystem.initial c mem)
  { h with m_useshell := true, m_command := command }

/-- The constructor `MythSystem::MythSystem(const QString &command, const
QStringList &args, uint flags)`; `access` is the value returned by
`access(command, X_OK)`, which is 0 when the caller may execute the file and -1
otherwise. -/
def MythSystem.fromCommandArgs (c : ExitCodes) (inUI : Bool) (access : Int)
    (mem : Indeterminate) (command : String) (args : List String) (flags : Nat) : MythSystem :=
  let h := MythSystem.initial c mem
  if access = 0 then
    ProcessFlags c inUI flags { h with m_status := c.GENERIC_EXIT_CMD_NOT_FOUND }
  else
    let h := ProcessFlags c inUI flags { h with m_command := command }
    if h.m_useshell then { h with m_command := h.m_command ++ String.intercalate " " args }
    else { h with m_args := args }

/-- Results of the system calls made by one `Fork`: each `pipe()` gives its two
descriptors (read end, write end) or `none` when it returns -1, and `child` is
the value `fork()` returns. -/
structure ForkEnv where
  pipeStdin : Option (Int × Int)
  pipeStdout : Option (Int × Int)
  pipeStderr : Option (Int × Int)
  child : Int

/-- The local arrays `p_stdin`, `p_stdout`, `p_stderr` of `Fork`. -/
structure ForkLocals where
  p_stdin : Int × Int
  p_stdout : Int × Int
  p_stderr : Int × Int
  deriving DecidableEq, Repr

/-- The macro `CLOSE(x)`: `if( x >= 0 ) {close(x); x = -1;}`; the result is the
new value of `x` and the calls made. -/
def CLOSE (x : Int) : Int × List SysCall :=
  if x ≥ 0 then (-1, [SysCall.close x]) else (x, [])

/-- From `Fork`: one block `if( pipe(p) == -1 ) { ... m_status =
GENERIC_EXIT_NOT_OK; }`; a failed `pipe()` leaves the array as it was. -/
def openPipe (c : ExitCodes) (result : Option (Int × Int)) (h : MythSystem) :
    (Int × Int) × MythSystem × List SysCall :=
  match result with
  | some fds => (fds, h, [SysCall.pipe fds.1 fds.2])
  | none => ((-1, -1), { h with m_status := c.GENERIC_EXIT_NOT_OK }, [])

/-- From `Fork`: the three blocks that set up the pipes (source lines 597-621). -/
def Fork_pipes (c : ExitCodes) (env : ForkEnv) (h : MythSystem) :
    ForkLocals × MythSystem × List SysCall :=
  let r1 := if h.m_usestdin then openPipe c env.pipeStdin h else ((-1, -1), h, [])
  let r2 := if r1.2.1.m_usestdout then openPipe c env.pipeStdout r1.2.1
            else ((-1, -1), r1.2.1, [])
  let r3 := if r2.2.1.m_usestderr then openPipe c env.pipeStderr r2.2.1
            else ((-1, -1), r2.2.1, [])
  ({ p_stdin := r1.1, p_stdout := r2.1, p_stderr := r3.1 }, r3.2.1,
    r1.2.2 ++ r2.2.2 ++ r3.2.2)

/-- From `Fork`: the branch `else if( child > 0 )` (source lines 656-671). -/
def Fork_parent (c : ExitCodes) (child : Int) (l : ForkLocals) (h : MythSystem) :
    ForkLocals × MythSystem × List SysCall :=
  ({ p_stdin := ((CLOSE l.p_stdin.1).1, l.p_stdin.2),
     p_stdout := (l.p_stdout.1, (CLOSE l.p_stdout.2).1),
     p_stderr := (l.p_stderr.1, (CLOSE l.p_stderr.2).1) },
   { h with m_pid := child, m_status := c.GENERIC_EXIT_RUNNING,
            m_stdpipe0 := l.p_stdin.2, m_stdpipe1 := l.p_stdout.1,
            m_stdpipe2 := l.p_stderr.1 },
   (CLOSE l.p_stdin.1).2 ++ (CLOSE l.p_stdout.2).2 ++ (CLOSE l.p_stderr.2).2)

/-- From `Fork`: the final block `if( m_status != GENERIC_EXIT_RUNNING ) { CLOSE
... }` (source lines 758-766). -/
def Fork_cleanup (c : ExitCodes) (l : ForkLocals) (h : MythSystem) : List SysCall :=
  if h.m_status ≠ c.GENERIC_EXIT_RUNNING then
    (CLOSE l.p_stdin.1).2 ++ (CLOSE l.p_stdin.2).2 ++ (CLOSE l.p_stdout.1).2 ++
      (CLOSE l.p_stdout.2).2 ++ (CLOSE l.p_stderr.1).2 ++ (CLOSE l.p_stderr.2).2
  else []

/-- Method `MythSystem::Fork()` in the parent process: the object on return and
the calls made.  Building the argument vector has no effect on the object and
is not represented. -/
def MythSystem.Fork (c : ExitCodes) (env : ForkEnv) (h : MythSystem) :
    Except ProcFault (MythSystem × List SysCall) :=
  let r := Fork_pipes c env h
  if env.child < 0 then
    let h1 : MythSystem := { r.2.1 with m_status := c.GENERIC_EXIT_NOT_OK }
    .ok (h1, r.2.2 ++ [SysCall.fork env.child] ++ Fork_cleanup c r.1 h1)
  else if env.child > 0 then
    let q := Fork_parent c env.child r.1 r.2.1
    .ok (q.2.1, r.2.2 ++ [SysCall.fork env.child] ++ q.2.2 ++ Fork_cleanup c q.1 q.2.1)
  else .error .inChild

/-- Method `MythSystem::HandlePreRun()`: the events sent to the GUI object. -/
def HandlePreRun (h : MythSystem) : List SysCall :=
  (if h.m_blockinputdevs then [SysCall.sendEvent_LockInputDevices] else []) ++
  (if h.m_disabledrawing then [SysCall.sendEvent_PushDisableDrawing] else [])

/-- Method `MythSystem::HandlePostRun()`: the events sent and posted to the GUI
object. -/
def HandlePostRun (h : MythSystem) : List SysCall :=
  (if h.m_disabledrawing then [SysCall.sendEvent_PopDisableDrawing] else []) ++
  (if h.m_blockinputdevs then [SysCall.postEvent_UnlockInputDevices] else [])

/-- Method `QMap::insert(key, value)` on a map kept as a list in key order: an
entry with the same key has its value replaced. -/
def QMap.insert {α : Type} (k : Int) (v : α) : List (Int × α) → List (Int × α)
  | [] => [(k, v)]
  | e :: rest =>
    if k < e.1 then (k, v) :: e :: rest
    else if k = e.1 then (k, v) :: rest
    else e :: QMap.insert k v rest

/-- Method `QMap::value(key)` where the key may be absent; `QMap::contains(key)`
holds exactly when the result is not `none`. -/
def QMap.value {α : Type} (k : Int) : List (Int × α) → Option α
  | [] => none
  | e :: rest => if e.1 = k then some e.2 else QMap.value k rest

/-- The map left by `QMap::take(key)`: the entries with another key. -/
def QMap.remove {α : Type} (k : Int) (m : List (Int × α)) : List (Int × α) :=
  m.filter (fun e => e.1 ≠ k)

/-- The process as `mythsystem.cpp` sees it: the `MythSystem` objects by
address, whether the static `manager` pointer is set (the reaper thread has
been started), the supervisor's table `m_pMap` (process id to address), and the
ghost trace of calls. -/
structure Proc where
  heap : Nat → MythSystem
  manager : Bool
  m_pMap : List (Int × Nat)
  calls : List SysCall

/-- Store an object at an address. -/
def Proc.store (s : Proc) (p : Nat) (h : MythSystem) : Proc :=
  { s with heap := fun q => if q = p then h else s.heap q }

/-- Append calls to the trace. -/
def Proc.call (s : Proc) (cs : List SysCall) : Proc := { s with calls := s.calls ++ cs }

/-- Method `MythSystemManager::append(MythSystem *ms)`. -/
def MythSystemManager.append (p : Nat) (s : Proc) : Proc :=
  { s with m_pMap := QMap.insert (s.heap p).m_pid p s.m_pMap }

/-- From `Run`: everything up to the launch lock (source lines 320-330):
`HandlePreRun()`, `Fork()`, the start of the reaper thread on first use, and
`m_timeout`; `now` is the value of `time(NULL)`. -/
def Run_launch (c : ExitCodes) (env : ForkEnv) (now timeout : Int) (p : Nat) (s : Proc) :
    Except ProcFault Proc :=
  match (s.heap p).Fork c env with
  | .error f => .error f
  | .ok r =>
    .ok { heap := fun q =>
            if q = p then
              (if timeout ≠ 0 then { r.1 with m_timeout := now + timeout } else r.1)
            else s.heap q,
          manager := true,
          m_pMap := s.m_pMap,
          calls := s.calls ++ HandlePreRun (s.heap p) ++ r.2 ++
            (if s.manager then [] else [SysCall.manager_start]) }

/-- From `Run`: `m_pmutex.lock(); manager->append(this);` (source lines 331-333).
A lock that is already held keeps the caller waiting. -/
def Run_register (p : Nat) (s : Proc) : Except ProcFault Proc :=
  if (s.heap p).m_pmutex then .error .blocked
  else .ok (MythSystemManager.append p (s.store p { s.heap p with m_pmutex := true }))

/-- Method `MythSystem::Run(time_t timeout)` on the object at address `p`. -/
def MythSystem.Run (c : ExitCodes) (env : ForkEnv) (now timeout : Int) (p : Nat) (s : Proc) :
    Except ProcFault Proc :=
  (Run_launch c env now timeout p s).bind (Run_register p)

/-- A buffer the reaper appends to: `&(ms->m_stdbuff[0].buffer())` or
`&(ms->m_stdbuff[1].buffer())` for the object at address `ms`. -/
inductive BufRef
  | stdbuff0 (ms : Nat)
  | stdbuff1 (ms : Nat)
  deriving DecidableEq, Repr

/-- The state of one iteration of the reaper loop: the process and the locals
`msList` (exited processes, for delayed cleanup) and `pMap` (descriptor to
buffer). -/
structure Reaper where
  proc : Proc
  msList : List Nat
  pMap : List (Int × BufRef)

/-- From `run`: the block `if( ms->m_bufferedio ) { ... pMap.insert ... }` (source
lines 137-144 and 179-186). -/
def registerBuffers (h : MythSystem) (ms : Nat) (pMap : List (Int × BufRef)) :
    List (Int × BufRef) :=
  if h.m_bufferedio then
    let pMap := if h.m_usestdout then QMap.insert h.m_stdpipe1 (BufRef.stdbuff0 ms) pMap else pMap
    if h.m_usestderr then QMap.insert h.m_stdpipe2 (BufRef.stdbuff1 ms) pMap else pMap
  else pMap

/-- From `run`: the value stored in `ms->m_status` for a wait status (source
lines 102-135). -/
def classify (c : ExitCodes) (status : Nat) : Nat :=
  if WIFEXITED status then WEXITSTATUS status
  else if WIFSIGNALED status then
    if WTERMSIG status = 9 then c.GENERIC_EXIT_ABORTED
    else if WTERMSIG status = 11 then c.GENERIC_EXIT_TERMINATED
    else c.GENERIC_EXIT_SIGNALLED
  else c.GENERIC_EXIT_NOT_OK

/-- From `run`: the body of the loop `while( (pid = waitpid(-1, &status, WNOHANG))
> 0 )` (source lines 88-145) for one child reported by `waitpid`. -/
def reapChild (c : ExitCodes) (pid : Int) (status : Nat) (r : Reaper) : Reaper :=
  match QMap.value pid r.proc.m_pMap with
  | none => r
  | some ms =>
    { proc := { (r.proc.store ms { r.proc.heap ms with m_status := classify c status }) with
                  m_pMap := QMap.remove pid r.proc.m_pMap },
      msList := r.msList ++ [ms],
      pMap := registerBuffers { r.proc.heap ms with m_status := classify c status } ms r.pMap }

/-- From `run`: the loop `while( (pid = waitpid(-1, &status, WNOHANG)) > 0 )` over
the values `waitpid` returns; it ends at the first one that is not positive. -/
def drain (c : ExitCodes) : List (Int × Nat) → Reaper → Reaper
  | [], r => r
  | e :: rest, r => if e.1 > 0 then drain c rest (reapChild c e.1 e.2 r) else r

/-- From `run`: the body of the loop over the table (source lines 151-187): the
test on the timeout of one tracked process and the registration of its
buffers; `e` is the table entry and `now` the value of `time(NULL)`. -/
def checkTimeout (c : ExitCodes) (now : Int) (r : Reaper) (e : Int × Nat) : Reaper :=
  let proc : Proc :=
    if (r.proc.heap e.2).m_timeout > 0 ∧ (r.proc.heap e.2).m_timeout < now then
      if (r.proc.heap e.2).m_status = c.GENERIC_EXIT_TIMEOUT then
        r.proc.call [SysCall.kill e.1 Signal.SIGKILL]
      else
        (r.proc.store e.2
          { r.proc.heap e.2 with m_status := c.GENERIC_EXIT_TIMEOUT,
                                 m_timeout := (r.proc.heap e.2).m_timeout + 1 }).call
          [SysCall.kill e.1 Signal.SIGTERM]
    else r.proc
  { r with proc := proc, pMap := registerBuffers (proc.heap e.2) e.2 r.pMap }

/-- Results of the `select()` and `read()` calls of one reaper iteration:
whether `select()` fails, which descriptors have something to read, and the
bytes `read(fd, &buf, 65536)` gives (`none` when it returns a negative
value). -/
structure IoEnv where
  selectFails : Bool
  readable : Int → Bool
  read : Int → Option (List Nat)

/-- The object a buffer reference points into. -/
def BufRef.ms : BufRef → Nat
  | .stdbuff0 ms => ms
  | .stdbuff1 ms => ms

/-- Method `QByteArray::append(const char *)` applied to the reaper's `buf` after
a read of `data` into the zeroed array: the bytes before the first zero
byte. -/
def appendCString (buffer data : List Nat) : List Nat :=
  buffer ++ data.takeWhile (fun x => x ≠ 0)

/-- From `run`: the body of the loop over the returned descriptors (source lines
212-222).  `select()` was given `nfds` and so reports only descriptors below
it; a chunk that fills `buf` without a zero byte is read past the end of the
array. -/
def readReady (io : IoEnv) (nfds : Nat) (s : Proc) (e : Int × BufRef) : Except ProcFault Proc :=
  if 0 ≤ e.1 ∧ e.1 < nfds ∧ io.readable e.1 = true then
    match io.read e.1 with
    | none => .ok s
    | some data =>
      if 65536 ≤ data.length ∧ 0 ∉ data then .error .overrun
      else
        match e.2 with
        | .stdbuff0 ms =>
          .ok (s.store ms { s.heap ms with
                  m_stdbuff0 := appendCString (s.heap ms).m_stdbuff0 data })
        | .stdbuff1 ms =>
          .ok (s.store ms { s.heap ms with
                  m_stdbuff1 := appendCString (s.heap ms).m_stdbuff1 data })
  else .ok s

/-- The loop of `readReady` over the descriptor map. -/
def readAll (io : IoEnv) (nfds : Nat) : List (Int × BufRef) → Proc → Except ProcFault Proc
  | [], s => .ok s
  | e :: rest, s =>
    match readReady io nfds s e with
    | .error f => .error f
    | .ok s => readAll io nfds rest s

/-- From `run`: the block `if( pMap.size() ) { ... select ... }` (source lines
191-224); `select` is called with `pMap.size()` as its first argument. -/
def bufferOutput (io : IoEnv) (pMap : List (Int × BufRef)) (s : Proc) : Except ProcFault Proc :=
  if pMap.length ≠ 0 then
    if io.selectFails then .ok s
    else readAll io pMap.length pMap s
  else .ok s

/-- From `run`: the body of the cleanup loop over `msList` (source lines 230-237):
`HandlePostRun()`, the three `CLOSE`s and the release of the launch lock. -/
def postRun (s : Proc) (ms : Nat) : Proc :=
  { heap := fun q =>
      if q = ms then
        { s.heap ms with m_stdpipe0 := (CLOSE (s.heap ms).m_stdpipe0).1,
                         m_stdpipe1 := (CLOSE (s.heap ms).m_stdpipe1).1,
                         m_stdpipe2 := (CLOSE (s.heap ms).m_stdpipe2).1,
                         m_pmutex := false }
      else s.heap q,
    manager := s.manager,
    m_pMap := s.m_pMap,
    calls := s.calls ++ HandlePostRun (s.heap ms) ++ (CLOSE (s.heap ms).m_stdpipe0).2 ++
      (CLOSE (s.heap ms).m_stdpipe1).2 ++ (CLOSE (s.heap ms).m_stdpipe2).2 }

/-- What the environment supplies to one iteration of the reaper loop: the
values returned by the successive `waitpid` calls (process id and wait status),
the value of `time(NULL)`, and the results of `select` and `read`. -/
structure IterEnv where
  reports : List (Int × Nat)
  now : Int
  io : IoEnv

/-- From `run`: the two loops made while `m_mapLock` is held (source lines
80-187): the children reported by `waitpid`, then the tracked processes. -/
def reapAndCheck (c : ExitCodes) (env : IterEnv) (s : Proc) : Reaper :=
  let r := drain c env.reports { proc := s, msList := [], pMap := [] }
  r.proc.m_pMap.foldl (checkTimeout c env.now) r

/-- From `run`: the part of an iteration after the test on the table size (source
lines 80-240). -/
def reap (c : ExitCodes) (env : IterEnv) (s : Proc) : Except ProcFault Proc :=
  let r := reapAndCheck c env s
  match bufferOutput env.io r.pMap r.proc with
  | .error f => .error f
  | .ok proc => .ok (r.msList.foldl postRun proc)

/-- The body of the loop `while( gCoreContext )` of `MythSystemManager::run()`
(source lines 68-240): after the sleep, `count = m_pMap.size(); if( count ) {
m_mapLock.unlock(); continue; }`, then the rest of the iteration. -/
def MythSystemManager.run_iteration (c : ExitCodes) (env : IterEnv) (s : Proc) :
    Except ProcFault Proc :=
  if s.m_pMap.length ≠ 0 then .ok s
  else reap c env s

/-- Method `MythSystemManager::run()` over the iterations made while
`gCoreContext` is set. -/
def MythSystemManager.run (c : ExitCodes) : List IterEnv → Proc → Except ProcFault Proc
  | [], s => .ok s
  | e :: rest, s =>
    match MythSystemManager.run_iteration c e s with
    | .error f => .error f
    | .ok s => MythSystemManager.run c rest s

/-! ## Vocabulary for signal monitoring -/

/-- The number of signal monitors created so far: the calls of
`SignalMonitor::Init` that returned an object. -/
def monitorsCreated (s : TVRec) : Nat := s.events.count (Event.SignalMonitor_Init true)

/-- The number of signal monitors deleted so far. -/
def monitorsDeleted (s : TVRec) : Nat := s.events.count Event.delete_signalMonitor

/-! ## Vocabulary and sample values for process supervision -/

/-- The signals sent by a list of calls, with the process ids they were sent
to. -/
def killsOf (calls : List SysCall) : List (Int × Signal) :=
  calls.filterMap (fun x =>
    match x with
    | SysCall.kill pid sig => some (pid, sig)
    | _ => none)

/-- The signals sent so far, with the process ids they were sent to. -/
def Proc.kills (s : Proc) : List (Int × Signal) := killsOf s.calls

/-- The addresses held by the supervisor's table. -/
def Proc.tracked (s : Proc) : List Nat := s.m_pMap.map Prod.snd

/-- The table, the iteration's cleanup list and the objects they hold are
consistent: no object is in the table under two process ids, none is twice in
the cleanup list, and none is in both. -/
def Reaper.Consistent (r : Reaper) : Prop :=
  r.proc.tracked.Nodup ∧ r.msList.Nodup ∧ ∀ ms ∈ r.msList, ms ∉ r.proc.tracked

/-- The process states reached from a start in which no command has been run
and every launch lock is free, by calls of `Run` that return and by iterations
of the reaper loop. -/
inductive Proc.Reachable (c : ExitCodes) : Proc → Prop
  | start (heap : Nat → MythSystem) (calls : List SysCall) :
      (∀ p, (heap p).m_pmutex = false) →
      Proc.Reachable c { heap := heap, manager := false, m_pMap := [], calls := calls }
  | run {s s' : Proc} (env : ForkEnv) (now timeout : Int) (p : Nat) :
      Proc.Reachable c s → MythSystem.Run c env now timeout p s = .ok s' → Proc.Reachable c s'
  | reaper {s s' : Proc} (env : IterEnv) :
      Proc.Reachable c s → MythSystemManager.run_iteration c env s = .ok s' →
      Proc.Reachable c s'

/-- Sample values for the exit-code macros, pairwise different (the values
MythTV uses are those of `exitcodes.h`). -/
def sampleCodes : ExitCodes :=
  { GENERIC_EXIT_START := 1001, GENERIC_EXIT_RUNNING := 1002, GENERIC_EXIT_NOT_OK := 1003,
    GENERIC_EXIT_CMD_NOT_FOUND := 1004, GENERIC_EXIT_TIMEOUT := 1005,
    GENERIC_EXIT_ABORTED := 1006, GENERIC_EXIT_TERMINATED := 1007,
    GENERIC_EXIT_SIGNALLED := 1008 }

/-- Sample contents of the members the constructors leave uninitialised. -/
def sampleMem : Indeterminate :=
  { m_pid := 7777, m_timeout := 0, m_stdpipe0 := -1, m_stdpipe1 := -1, m_stdpipe2 := -1 }

/-- A handle for `/bin/sleep 100`, built outside the UI thread from a path for
which `access` returns -1. -/
def sampleHandle : MythSystem :=
  MythSystem.fromCommandArgs sampleCodes false (-1) sampleMem "/bin/sleep" ["100"] kMSNone

/-- The handle the constructor builds for `/bin/sleep 100` when `access` returns
0. -/
def sampleHandleFound : MythSystem :=
  MythSystem.fromCommandArgs sampleCodes false 0 sampleMem "/bin/sleep" ["100"] kMSNone

/-- A handle that asks for pipes on standard input and standard output. -/
def samplePipedHandle : MythSystem :=
  { sampleHandle with m_usestdin := true, m_usestdout := true }

/-- A process in which no command has been run yet: every address holds
`sampleHandle`, the reaper thread has not been started. -/
def sampleProc : Proc :=
  { heap := fun _ => sampleHandle, manager := false, m_pMap := [], calls := [] }

/-- The process `sampleProc` with the handle `sampleHandleFound` at address 1. -/
def sampleProcFound : Proc := sampleProc.store 1 sampleHandleFound

/-- System-call results of a `Fork` that needs no pipe and whose `fork()` returns
the child 100. -/
def sampleForkEnv : ForkEnv :=
  { pipeStdin := none, pipeStdout := none, pipeStderr := none, child := 100 }

/-- System-call results of a `Fork` whose `fork()` fails. -/
def sampleForkEnvFails : ForkEnv := { sampleForkEnv with child := -1 }

/-- System-call results of a `Fork` in which `pipe()` fails for standard input,
gives the descriptors 5 and 6 for standard output, and `fork()` returns the
child 100. -/
def sampleForkEnvPipeFails : ForkEnv :=
  { pipeStdin := none, pipeStdout := some (5, 6), pipeStderr := none, child := 100 }

/-- The process after `Run(2)` at time 0 on the object at address 0, the child
being process 100. -/
def sampleTracking : Proc :=
  match MythSystem.Run sampleCodes sampleForkEnv 0 2 0 sampleProc with
  | .ok s => s
  | .error _ => sampleProc

/-- A reaper iteration at time `now` in which `waitpid` reports the given
children and nothing can be read. -/
def sampleIter (reports : List (Int × Nat)) (now : Int) : IterEnv :=
  { reports := reports, now := now,
    io := { selectFails := false, readable := fun _ => false, read := fun _ => none } }

/-! ## Further methods and vocabulary of the recorder coordinator -/

/-- Method `TVRec::SpawnLiveTV()` (source lines 2497-2503): the request, then
the loop `while (changeState) usleep(50);` against the iterations the event
thread makes. -/
def SpawnLiveTV (b : Build) (sched : List Tick) (s : TVRec) :
    Except Fault (TVRec × List Tick) :=
  waitChangeState b sched (ChangeState kState_WatchingLiveTV s)

/-- The job masks of the `JobQueue::QueueJobs` calls in a trace. -/
def queuedMasks : List Event → List Nat
  | [] => []
  | .JobQueue_QueueJobs mask :: es => mask :: queuedMasks es
  | _ :: es => queuedMasks es

/-- The job masks handed to `JobQueue::QueueJobs` between the coordinator `s`
and a later coordinator `s1`. -/
def jobsQueuedBetween (s s1 : TVRec) : List Nat :=
  queuedMasks (s1.events.drop s.events.length)

/-- A coordinator in RecordingOnly whose job mask is 3 and whose recording
ended normally. -/
def sampleRecordingJobs : TVRec := { sampleRecording with autoRunJobs := 3 }

/-- The coordinator `sampleWatching` after `ChangeState(kState_WatchingLiveTV)`:
a request for the state it is already in. -/
def sampleNullRequest : TVRec := ChangeState kState_WatchingLiveTV sampleWatching

/-! ## Further methods of `MythSystem`: waiting, signals, reading output

While a caller waits on the launch lock the reaper thread makes its iterations,
one per 100 ms (its `usleep(100000)`); the iterations made during a wait are
given as a schedule, and an empty schedule means that the reaper thread makes no
further iteration.  The waiting thread is not the reaper thread. -/

/-- The call `m_pmutex.tryLock(ms)` on the object at address `p`, with `slices`
the number `ms / 100` of reaper iterations that fit into the wait: the lock is
taken at once when it is free, otherwise the caller waits while the reaper
makes its iterations.  The boolean tells whether the lock was obtained. -/
def m_pmutex_tryLock (c : ExitCodes) (p : Nat) :
    Nat → List IterEnv → Proc → Except ProcFault (Bool × Proc × List IterEnv)
  | 0, sched, s =>
    if (s.heap p).m_pmutex then .ok (false, s, sched)
    else .ok (true, s.store p { s.heap p with m_pmutex := true }, sched)
  | n + 1, sched, s =>
    if (s.heap p).m_pmutex then
      match sched with
      | [] => .ok (false, s, [])
      | e :: rest =>
        match MythSystemManager.run_iteration c e s with
        | .error f => .error f
        | .ok s1 => m_pmutex_tryLock c p n rest s1
    else .ok (true, s.store p { s.heap p with m_pmutex := true }, sched)

/-- The call `m_pmutex.lock()` on the object at address `p`: the caller waits
until the lock is free; when the reaper makes no further iteration and the lock
is still held, the call does not return. -/
def m_pmutex_lock (c : ExitCodes) (p : Nat) :
    List IterEnv → Proc → Except ProcFault (Proc × List IterEnv)
  | [], s =>
    if (s.heap p).m_pmutex then .error .blocked
    else .ok (s.store p { s.heap p with m_pmutex := true }, [])
  | e :: rest, s =>
    if (s.heap p).m_pmutex then
      match MythSystemManager.run_iteration c e s with
      | .error f => .error f
      | .ok s1 => m_pmutex_lock c p rest s1
    else .ok (s.store p { s.heap p with m_pmutex := true }, e :: rest)

/-- The call `m_pmutex.unlock()` on the object at address `p`. -/
def m_pmutex_unlock (p : Nat) (s : Proc) : Proc :=
  s.store p { s.heap p with m_pmutex := false }

/-- From `Wait`: the loop `while( time(NULL) < timeout ) { if(
m_pmutex.tryLock(100) ) { m_pmutex.unlock(); break; } qApp->processEvents(); }`
(source lines 351-361); `deadline` is the value of `timeout` and `nowMs` the
time in milliseconds.  A failed `tryLock(100)` takes 100 ms, during which the
reaper makes one iteration; when the reaper makes no further iteration and the
lock is held nothing changes until the deadline.  What `processEvents()` does
to the caller's event queue is not represented. -/
def pumpEvents (c : ExitCodes) (p : Nat) (deadline : Int) :
    Int → List IterEnv → Proc → Except ProcFault (Proc × List IterEnv)
  | nowMs, [], s =>
    if nowMs / 1000 < deadline then
      if (s.heap p).m_pmutex then .ok (s, [])
      else .ok (m_pmutex_unlock p (s.store p { s.heap p with m_pmutex := true }), [])
    else .ok (s, [])
  | nowMs, e :: rest, s =>
    if nowMs / 1000 < deadline then
      if (s.heap p).m_pmutex then
        match MythSystemManager.run_iteration c e s with
        | .error f => .error f
        | .ok s1 =>
          if (s1.heap p).m_pmutex then pumpEvents c p deadline (nowMs + 100) rest s1
          else .ok (m_pmutex_unlock p (s1.store p { s1.heap p with m_pmutex := true }), rest)
      else .ok (m_pmutex_unlock p (s.store p { s.heap p with m_pmutex := true }), e :: rest)
    else .ok (s, e :: rest)

/-- From `Wait`: the `else` branch of `if( m_processevents )` (source lines
363-372).  The `else` written under `if( timeout > 0 )` belongs to the inner
`if( m_pmutex.tryLock(timeout*1000) )`: with `timeout > 0` a failed timed
attempt is followed by `m_pmutex.lock()`, and with `timeout <= 0` nothing is
done.  The product `timeout*1000` is taken to fit the `int` parameter of
`tryLock`. -/
def Wait_blocking (c : ExitCodes) (timeout : Int) (sched : List IterEnv) (p : Nat) (s : Proc) :
    Except ProcFault (Proc × List IterEnv) :=
  if timeout > 0 then
    match m_pmutex_tryLock c p (timeout * 1000 / 100).toNat sched s with
    | .error f => .error f
    | .ok (true, s1, rest) => .ok (m_pmutex_unlock p s1, rest)
    | .ok (false, s1, rest) =>
      match m_pmutex_lock c p rest s1 with
      | .error f => .error f
      | .ok (s2, rest2) => .ok (m_pmutex_unlock p s2, rest2)
  else .ok (s, sched)

/-- Method `MythSystem::Wait(time_t timeout)` on the object at address `p`; `now`
is the value of `time(NULL)` at the call.  The result is the value returned,
the process and the reaper iterations not yet made. -/
def MythSystem.Wait (c : ExitCodes) (now timeout : Int) (sched : List IterEnv) (p : Nat)
    (s : Proc) : Except ProcFault (Nat × Proc × List IterEnv) :=
  if (s.heap p).m_status ≠ c.GENERIC_EXIT_RUNNING ∨ (s.heap p).m_runinbackground = true then
    .ok ((s.heap p).m_status, s, sched)
  else
    match (if (s.heap p).m_processevents then
             pumpEvents c p (if timeout > 0 then timeout + now else 2147483648) (now * 1000)
               sched s
           else Wait_blocking c timeout sched p s) with
    | .error f => .error f
    | .ok (s1, rest) => .ok ((s1.heap p).m_status, s1, rest)

/-- Method `MythSystem::Kill()` on the object at address `p`. -/
def MythSystem.Kill (c : ExitCodes) (p : Nat) (s : Proc) : Proc :=
  if (s.heap p).m_status ≠ c.GENERIC_EXIT_RUNNING ∧ (s.heap p).m_pid > 0 then s
  else s.call [SysCall.kill (s.heap p).m_pid Signal.SIGKILL]

/-- Method `MythSystem::Stop()` on the object at address `p`. -/
def MythSystem.Stop (c : ExitCodes) (p : Nat) (s : Proc) : Proc :=
  if (s.heap p).m_status ≠ c.GENERIC_EXIT_RUNNING ∧ (s.heap p).m_pid > 0 then s
  else s.call [SysCall.kill (s.heap p).m_pid Signal.SIGSTOP]

/-- Method `MythSystem::Cont()` on the object at address `p`. -/
def MythSystem.Cont (c : ExitCodes) (p : Nat) (s : Proc) : Proc :=
  if (s.heap p).m_status ≠ c.GENERIC_EXIT_RUNNING ∧ (s.heap p).m_pid > 0 then s
  else s.call [SysCall.kill (s.heap p).m_pid Signal.SIGCONT]

/-- Method `MythSystem::HangUp()` on the object at address `p`. -/
def MythSystem.HangUp (c : ExitCodes) (p : Nat) (s : Proc) : Proc :=
  if (s.heap p).m_status ≠ c.GENERIC_EXIT_RUNNING ∧ (s.heap p).m_pid > 0 then s
  else s.call [SysCall.kill (s.heap p).m_pid Signal.SIGHUP]

/-- Method `MythSystem::USR1()` on the object at address `p`. -/
def MythSystem.USR1 (c : ExitCodes) (p : Nat) (s : Proc) : Proc :=
  if (s.heap p).m_status ≠ c.GENERIC_EXIT_RUNNING ∧ (s.heap p).m_pid > 0 then s
  else s.call [SysCall.kill (s.heap p).m_pid Signal.SIGUSR1]

/-- Method `MythSystem::USR2()` on the object at address `p`. -/
def MythSystem.USR2 (c : ExitCodes) (p : Nat) (s : Proc) : Proc :=
  if (s.heap p).m_status ≠ c.GENERIC_EXIT_RUNNING ∧ (s.heap p).m_pid > 0 then s
  else s.call [SysCall.kill (s.heap p).m_pid Signal.SIGUSR2]

/-- Method `MythSystem::Term(bool force)` on the object at address `p`; `now` and
`sched` are those of its call `Wait(1)`. -/
def MythSystem.Term (c : ExitCodes) (now : Int) (sched : List IterEnv) (force : Bool) (p : Nat)
    (s : Proc) : Except ProcFault (Proc × List IterEnv) :=
  if (s.heap p).m_status ≠ c.GENERIC_EXIT_RUNNING ∧ (s.heap p).m_pid > 0 then .ok (s, sched)
  else
    let s := s.call [SysCall.kill (s.heap p).m_pid Signal.SIGTERM]
    if force then
      match MythSystem.Wait c now 1 sched p s with
      | .error f => .error f
      | .ok (status, s1, rest) =>
        if status = c.GENERIC_EXIT_RUNNING then .ok (MythSystem.Kill c p s1, rest)
        else .ok (s1, rest)
    else .ok (s, sched)

/-- The array element `m_stdpipe[i]` (the array has three elements). -/
def MythSystem.m_stdpipe (h : MythSystem) : Nat → Int
  | 0 => h.m_stdpipe0
  | 1 => h.m_stdpipe1
  | _ => h.m_stdpipe2

/-- The bytes held by `m_stdbuff[i]` (the array has two elements). -/
def MythSystem.m_stdbuff (h : MythSystem) : Nat → List Nat
  | 0 => h.m_stdbuff0
  | _ => h.m_stdbuff1

/-- What the environment supplies to one `_read`: `available` are the bytes the
device `m_stdbuff[id]` can give to a read at its position (`QBuffer` is Qt's;
nothing for a device that is not open), and `callocNull` tells whether
`calloc(size, 0)` returns a null pointer, which it may do for a request of zero
bytes. -/
structure ReadEnv where
  available : List Nat
  callocNull : Bool

/-- Method `MythSystem::_read(int size, int id)`: the bytes of the array
returned and the descriptor passed to `read()`, if it is called.  Without
buffering the test is on `m_stdpipe[id]` and the descriptor read is
`m_stdpipe[id+1]`; the block `calloc(size, 0)` has no bytes, so with a null
pointer `read` stores nothing and `append` adds nothing, and otherwise
`append(buf)` reads the string at `buf` beyond the block. -/
def MythSystem._read (env : ReadEnv) (size : Nat) (id : Nat) (h : MythSystem) :
    Except ProcFault (List Nat × Option Int) :=
  if h.m_bufferedio then .ok ([] ++ env.available.take size, none)
  else if h.m_stdpipe id > -1 then
    if env.callocNull then .ok ([], some (h.m_stdpipe (id + 1)))
    else .error .overrun
  else .ok ([], none)

/-- Method `MythSystem::_readall(int id)`: the bytes of the array returned. -/
def MythSystem._readall (id : Nat) (h : MythSystem) : List Nat :=
  if h.m_bufferedio then [] ++ h.m_stdbuff id else []

/-- Method `MythSystem::Read(int size)`. -/
def MythSystem.Read (env : ReadEnv) (size : Nat) (h : MythSystem) :
    Except ProcFault (List Nat × Option Int) :=
  h._read env size 0

/-- Method `MythSystem::ReadErr(int size)`. -/
def MythSystem.ReadErr (env : ReadEnv) (size : Nat) (h : MythSystem) :
    Except ProcFault (List Nat × Option Int) :=
  h._read env size 1

/-- Method `MythSystem::ReadAll()`. -/
def MythSystem.ReadAll (h : MythSystem) : List Nat := h._readall 0

/-- Method `MythSystem::ReadAllErr()`. -/
def MythSystem.ReadAllErr (h : MythSystem) : List Nat := h._readall 1

/-- The bytes held by the buffer a reference points to. -/
def BufRef.contents (s : Proc) : BufRef → List Nat
  | .stdbuff0 ms => (s.heap ms).m_stdbuff0
  | .stdbuff1 ms => (s.heap ms).m_stdbuff1

/-- From `myth_system`: the object `ms` it constructs, `flags &= kMSRunShell;
MythSystem ms = MythSystem(command, flags & kMSRunShell);` (the copy that this
initialisation may make has the members the constructor sets). -/
def myth_system_handle (c : ExitCodes) (inUI : Bool) (mem : Indeterminate) (command : String)
    (flags : Nat) : MythSystem :=
  let flags := flags &&& kMSRunShell
  MythSystem.fromCommand c inUI mem command (flags &&& kMSRunShell)

/-- Function `myth_system(command, flags, timeout)`; the local object `ms` is at
address `p`, `now` and `nowWait` are the values of `time(NULL)` in `Run` and in
`Wait`.  The result is the value returned, the process and the reaper
iterations not yet made. -/
def myth_system (c : ExitCodes) (inUI : Bool) (mem : Indeterminate) (env : ForkEnv)
    (now nowWait : Int) (sched : List IterEnv) (p : Nat) (command : String)
    (flags timeout : Nat) (s : Proc) : Except ProcFault (Nat × Proc × List IterEnv) :=
  match MythSystem.Run c env now timeout p
      (s.store p (myth_system_handle c inUI mem command flags)) with
  | .error f => .error f
  | .ok s1 => MythSystem.Wait c nowWait 0 sched p s1

/-- Contents of uninitialised members in zero-filled memory. -/
def sampleMemZero : Indeterminate :=
  { m_pid := 0, m_timeout := 0, m_stdpipe0 := 0, m_stdpipe1 := 0, m_stdpipe2 := 0 }

/-- A handle built by `MythSystem("sleep 10 &", kMSNone)` outside the UI thread
in zero-filled memory, and never run. -/
def sampleNeverRun : MythSystem :=
  MythSystem.fromCommand sampleCodes false sampleMemZero "sleep 10 &" kMSNone

/-- The process `sampleProc` with the handle `sampleNeverRun` at address 2. -/
def sampleProcNeverRun : Proc := sampleProc.store 2 sampleNeverRun

/-- A running handle that asked for a pipe on standard output only, without
buffering: standard output is descriptor 5, the other two are closed. -/
def sampleStdoutHandle : MythSystem :=
  { sampleHandle with m_status := sampleCodes.GENERIC_EXIT_RUNNING, m_pid := 100,
                      m_usestdout := true, m_stdpipe0 := -1, m_stdpipe1 := 5,
                      m_stdpipe2 := -1 }

/-- A process in which the object at address 3 buffers standard output, read
from descriptor 5, and holds the bytes 1 and 2 so far. -/
def sampleProcBuffering : Proc :=
  sampleProc.store 3 { sampleStdoutHandle with m_bufferedio := true, m_stdbuff0 := [1, 2] }

/-- Results of `select` and `read` in which descriptor 5 is ready and `read`
gives the bytes `data`. -/
def sampleReads (data : List Nat) : IoEnv :=
  { selectFails := false, readable := fun fd => fd == 5, read := fun _ => some data }

/-! ## Collaborator set-up and tear-down -/

theorem IsErrored_mk (k : RecorderKind) (rb : Option RingBuffer) (rec : Option ProgramInfo)
    (st : RecStatus) :
    RecorderBase.IsErrored { kind := k, ringBuffer := rb, recording := rec, status := st } =
      reportsError k st := by
  cases k <;> simp [RecorderBase.IsErrored, reportsError]

theorem SetupRecorder_eq (b : Build) (env : Collab) (s : TVRec) :
    SetupRecorder b env s =
      if backendBuilt b s.cardtype = true then
        if s.cardtype = "HDTV" ∧ s.rbuffer = none then .error .nullDeref
        else
          .ok { newRecorder (recorderKindOf s.cardtype) env s with
                errored := s.errored ||
                  reportsError (recorderKindOf s.cardtype)
                    { recording := false, errored := env.initErrored } }
      else
        match s.recorder with
        | none => .error .nullDeref
        | some _ => .ok { s with errored := true } := by
  unfold SetupRecorder backendBuilt recorderKindOf
  by_cases h1 : s.cardtype = "MPEG"
  · cases hb : b.USING_IVTV <;> cases hi : env.initErrored <;> cases he : s.errored <;>
      cases hr : s.recorder <;>
      simp [h1, hb, hi, he, hr, newRecorder, bind, Except.bind, pure, Except.pure, IsErrored_mk, reportsError]
  · by_cases h2 : s.cardtype = "HDTV"
    · cases hb : b.USING_V4L <;> cases hi : env.initErrored <;> cases he : s.errored <;>
        cases hr : s.recorder <;> cases hrb : s.rbuffer <;>
        simp [h2, hb, hi, he, hr, hrb, newRecorder, bind, Except.bind, pure, Except.pure,
          IsErrored_mk, reportsError]
    · by_cases h3 : s.cardtype = "FIREWIRE"
      · cases hb : b.USING_FIREWIRE <;> cases hi : env.initErrored <;> cases he : s.errored <;>
          cases hr : s.recorder <;>
          simp [h3, hb, hi, he, hr, newRecorder, bind, Except.bind, pure, Except.pure,
            IsErrored_mk, reportsError]
      · by_cases h4 : s.cardtype = "DVB"
        · cases hb : b.USING_DVB <;> cases hi : env.initErrored <;> cases he : s.errored <;>
            cases hr : s.recorder <;>
            simp [h4, hb, hi, he, hr, newRecorder, bind, Except.bind, pure, Except.pure,
              IsErrored_mk, reportsError]
        · cases hb : b.USING_V4L <;> cases hi : env.initErrored <;> cases he : s.errored <;>
            cases hr : s.recorder <;>
            simp [h1, h2, h3, h4, hb, hi, he, hr, newRecorder, bind, Except.bind, pure,
              Except.pure, IsErrored_mk, reportsError]

theorem waitRecorder_first (report : Nat → RecStatus) (r : RecorderBase) (n : Nat)
    (hfirst : FirstReport r.kind report n) :
    ∀ (fuel i : Nat), i ≤ n → n < i + fuel →
      waitRecorder report r fuel i = .ok { r with status := report n } := by
  intro fuel
  induction fuel with
  | zero => intro i h1 h2; omega
  | succ k ih =>
    intro i h1 h2
    unfold waitRecorder
    rcases Nat.lt_or_ge i n with hlt | hge
    · have hq := hfirst.1 i hlt
      have : RecorderBase.IsErrored { r with status := report i } = false := by
        have := IsErrored_mk r.kind r.ringBuffer r.recording (report i)
        simp_all
      simp [RecorderBase.IsRecording, hq.1, this]
      exact ih (i + 1) (by omega) (by omega)
    · have hin : i = n := by omega
      subst hin
      have hE : RecorderBase.IsErrored { r with status := report i } =
          reportsError r.kind (report i) := IsErrored_mk _ _ _ _
      rcases hfirst.2 with h | h
      · simp [RecorderBase.IsRecording, h]
      · simp [RecorderBase.IsRecording, hE, h]

theorem waitRecorder_kind (report : Nat → RecStatus) (r r1 : RecorderBase) :
    ∀ (fuel i : Nat), waitRecorder report r fuel i = .ok r1 →
      r1.kind = r.kind ∧ (r1.IsRecording = true ∨ r1.IsErrored = true) := by
  intro fuel
  induction fuel with
  | zero => intro i h; simp [waitRecorder] at h
  | succ k ih =>
    intro i h
    unfold waitRecorder at h
    simp only at h
    split at h
    · exact ih (i + 1) h
    · rename_i hc
      simp only [Except.ok.injEq] at h
      subst h
      refine ⟨rfl, ?_⟩
      cases hr : RecorderBase.IsRecording { r with status := report i } <;>
        cases he : RecorderBase.IsErrored { r with status := report i } <;> simp_all

theorem TeardownRecorder_fields (killFile : Bool) (s : TVRec) :
    (TeardownRecorder killFile s).recorder = none ∧
    (TeardownRecorder killFile s).rbuffer = none ∧
    (TeardownRecorder killFile s).curRecording = none ∧
    (TeardownRecorder killFile s).recorder_thread =
      (if s.recorder.isSome then false else s.recorder_thread) ∧
    (TeardownRecorder killFile s).outputFilename =
      (if killFile then "" else s.outputFilename) ∧
    (killFile = true → Event.unlink s.outputFilename ∈ (TeardownRecorder killFile s).events) := by
  unfold TeardownRecorder
  cases hr : s.recorder <;> cases hb : s.rbuffer <;> cases hc : s.curRecording <;>
    cases killFile <;> cases ht : s.recorder_thread <;>
    simp [hr, hb, hc, ht, TVRec.emit] <;> split <;> simp

/-! ## Which members each helper writes -/

theorem prepareStart_eq (env : Collab) (livetv : Bool) (s : TVRec) :
    prepareStart env livetv s =
      { s with prematurelystopped := false,
               profileName := (prepareStart env livetv s).profileName,
               autoRunJobs := (prepareStart env livetv s).autoRunJobs } := by
  unfold prepareStart setupJobMask selectProfile
  cases hc : s.curRecording with
  | none => simp [hc]
  | some rec =>
    cases hp : rec.profileName <;> cases livetv <;> cases env.foundProf <;>
      cases env.profileAutoTranscode <;> by_cases hcc : rec.chancommfree = 0 <;>
      simp [hc, hp, hcc]

theorem FinishedRecording_eq (s : TVRec) :
    FinishedRecording s = { s with events := (FinishedRecording s).events } := by
  unfold FinishedRecording
  split <;> rfl

theorem StartedRecording_eq (s : TVRec) :
    StartedRecording s = { s with events := (StartedRecording s).events } := by
  unfold StartedRecording
  split <;> rfl

theorem recorderStarted_eq (livetv : Bool) (s : TVRec) (l : Locals) :
    recorderStarted livetv s l =
      ({ s with autoRunJobs := (recorderStarted livetv s l).1.autoRunJobs,
                events := (recorderStarted livetv s l).1.events }, l) := by
  unfold recorderStarted
  split <;> rfl

theorem recorderNotStarted_eq (e : Bool) (s : TVRec) (l : Locals) :
    recorderNotStarted e s l =
      ({ s with prematurelystopped := e || s.prematurelystopped,
                events := (recorderNotStarted e s l).1.events },
       { l with nextState := s.internalState, changed := true, killRecordingFile := true,
                closeRecorder := true }) := by
  cases s
  rename_i cur _ _ _ _ _ _ _ _ _ _ _ _ _
  cases e <;> cases cur <;> simp [recorderNotStarted, FinishedRecording, SET_LAST, TVRec.emit]

theorem TeardownRecorder_eq (killFile : Bool) (s : TVRec) :
    TeardownRecorder killFile s =
      { s with ispip := false, recorder := none, rbuffer := none, curRecording := none,
               recorder_thread := (if s.recorder.isSome then false else s.recorder_thread),
               readthreadlive := (if s.rbuffer.isSome then false else s.readthreadlive),
               outputFilename := (if killFile then "" else s.outputFilename),
               profileName := (TeardownRecorder killFile s).profileName,
               events := (TeardownRecorder killFile s).events } := by
  unfold TeardownRecorder
  cases hr : s.recorder <;> cases hb : s.rbuffer <;> cases hc : s.curRecording <;>
    cases killFile <;> cases ht : s.recorder_thread <;> cases hp : s.prematurelystopped <;>
    by_cases ha : s.autoRunJobs = 0 <;> simp [hr, hb, hc, ht, hp, ha, TVRec.emit]

theorem events_sub_FinishedRecording (s : TVRec) (x : Event) (hx : x ∈ s.events) :
    x ∈ (FinishedRecording s).events := by
  unfold FinishedRecording
  split <;> simp [TVRec.emit, hx]

theorem events_sub_StartedRecording (s : TVRec) (x : Event) (hx : x ∈ s.events) :
    x ∈ (StartedRecording s).events := by
  unfold StartedRecording
  split <;> simp [TVRec.emit, hx]

theorem events_sub_recorderStarted (livetv : Bool) (s : TVRec) (l : Locals) (x : Event)
    (hx : x ∈ s.events) : x ∈ (recorderStarted livetv s l).1.events := by
  unfold recorderStarted
  split <;> simp [TVRec.emit, hx]

theorem events_sub_recorderNotStarted (e : Bool) (s : TVRec) (l : Locals) (x : Event)
    (hx : x ∈ s.events) : x ∈ (recorderNotStarted e s l).1.events := by
  unfold recorderNotStarted
  apply events_sub_FinishedRecording
  split <;> simp [TVRec.emit, hx]

theorem events_sub_TeardownRecorder (killFile : Bool) (s : TVRec) (x : Event)
    (hx : x ∈ s.events) : x ∈ (TeardownRecorder killFile s).events := by
  unfold TeardownRecorder
  cases hr : s.recorder <;> cases hb : s.rbuffer <;> cases hc : s.curRecording <;>
    cases killFile <;> cases ht : s.recorder_thread <;> cases hp : s.prematurelystopped <;>
    by_cases ha : s.autoRunJobs = 0 <;> simp [hr, hb, hc, ht, hp, ha, TVRec.emit, hx]

theorem launchRecorder_frame (fuel : Nat) (env : Collab) (s s1 : TVRec)
    (h : launchRecorder fuel env s = .ok s1) :
    ∃ r, (r.IsRecording = true ∨ r.IsErrored = true) ∧
      s1 = { s with recorder := some r, recorder_thread := true,
                    events := s.events ++ [Event.pthread_create_RecorderThread] } := by
  unfold launchRecorder at h
  split at h
  · simp at h
  · rename_i r0 hr0
    simp only at h
    split at h
    · simp at h
    · rename_i r1 hw
      simp only [Except.ok.injEq] at h
      exact ⟨r1, (waitRecorder_kind _ _ _ _ _ hw).2, by rw [← h]; rfl⟩

theorem launchRecorder_first (fuel : Nat) (env : Collab) (s : TVRec) (r : RecorderBase) (n : Nat)
    (hr : s.recorder = some r)
    (hfirst : FirstReport r.kind env.report n) (hfuel : n < fuel) :
    launchRecorder fuel env s =
      .ok { s with recorder := some { r with recording := s.curRecording, status := env.report n },
                   recorder_thread := true,
                   events := s.events ++ [Event.pthread_create_RecorderThread] } := by
  have hw := waitRecorder_first env.report { r with recording := s.curRecording } n hfirst fuel 0
    (Nat.zero_le _) (by omega)
  unfold launchRecorder
  simp only [hr, hw]
  rfl

theorem handleStartRecorder_spec (b : Build) (fuel : Nat) (env : Collab) (s : TVRec) (l : Locals)
    (n : Nat)
    (herr : s.errored = false)
    (hbuilt : backendBuilt b s.cardtype = true)
    (hhdtv : s.cardtype = "HDTV" → s.rbuffer ≠ none)
    (hfirst : FirstReport (recorderKindOf s.cardtype) env.report n)
    (hfuel : n < fuel) :
    ∃ s1 l1 pn a r t ev pm e, handleStartRecorder b fuel env s l = .ok (s1, l1) ∧
      s1 = { s with profileName := pn, autoRunJobs := a, recorder := some r, recorder_thread := t,
                    events := ev, prematurelystopped := pm, errored := e } ∧
      (∀ x, x ∈ s.events → x ∈ ev) ∧
      (if reportsError (recorderKindOf s.cardtype)
            { recording := false, errored := env.initErrored } = false ∧
          (env.report n).recording = true then
        l1 = l ∧ pm = false ∧ e = false ∧ r.IsRecording = true ∧
          Event.pthread_create_RecorderThread ∈ ev
      else
        l1 = { l with nextState := s.internalState, changed := true, killRecordingFile := true,
                      closeRecorder := true } ∧
        pm = true) := by
  unfold handleStartRecorder
  dsimp only
  rw [prepareStart_eq]
  simp only [SetupRecorder_eq, hbuilt, if_true]
  have hh : ¬ (s.cardtype = "HDTV" ∧ s.rbuffer = none) := fun h => hhdtv h.1 h.2
  simp only [hh, if_false, herr, Bool.false_or, IsErrored, newRecorder]
  cases hie : reportsError (recorderKindOf s.cardtype)
      { recording := false, errored := env.initErrored }
  · simp only [Bool.false_eq_true, if_false]
    rw [launchRecorder_first fuel env _ _ n rfl hfirst hfuel]
    simp only [RecorderBase.IsRecording]
    cases hrec : (env.report n).recording
    · have hE : reportsError (recorderKindOf s.cardtype) (env.report n) = true := by
        rcases hfirst.2 with h | h
        · rw [hrec] at h; cases h
        · exact h
      simp only [Bool.false_eq_true, if_false, and_false, true_and, IsErrored_mk, hE]
      rw [recorderNotStarted_eq]
      refine ⟨_, _, _, _, _, _, _, _, _, rfl, rfl, ?_, rfl, rfl⟩
      intro x hx
      apply events_sub_recorderNotStarted
      simp [hx]
    · simp only [if_true, and_self]
      rw [recorderStarted_eq]
      refine ⟨_, _, _, _, _, _, _, _, _, rfl, rfl, ?_, rfl, rfl, rfl, ?_, ?_⟩
      · intro x hx
        apply events_sub_recorderStarted
        simp [hx]
      · exact hrec
      · apply events_sub_recorderStarted
        simp
  · simp only [if_true, Bool.true_eq_false, false_and, if_false]
    rw [recorderNotStarted_eq]
    refine ⟨_, _, _, _, _, _, _, _, _, rfl, rfl, ?_, rfl, rfl⟩
    intro x hx
    apply events_sub_recorderNotStarted
    simp [hx]

/-! ## `HandleStateChange`, transition by transition -/

theorem HandleStateChange_null (b : Build) (fuel : Nat) (env : Collab) (s : TVRec)
    (h : s.desiredNextState = s.internalState) :
    HandleStateChange b fuel env s = .ok (hscEntry s) := by
  unfold HandleStateChange hscEntry
  simp [h, pure, Except.pure]

theorem HandleStateChange_error (b : Build) (fuel : Nat) (env : Collab) (s : TVRec)
    (hne : s.desiredNextState ≠ s.internalState) (h : s.desiredNextState = kState_Error) :
    HandleStateChange b fuel env s = .ok { hscEntry s with errored := true } := by
  unfold HandleStateChange hscEntry
  simp [h, hne, pure, Except.pure]
  intro h2
  exact absurd (h.trans h2) hne

theorem HandleStateChange_unknown (b : Build) (fuel : Nat) (env : Collab) (s : TVRec)
    (hne : s.desiredNextState ≠ s.internalState)
    (herr : s.desiredNextState ≠ kState_Error)
    (hun : supportedTransition s.internalState s.desiredNextState = false) :
    HandleStateChange b fuel env s = .ok { hscEntry s with changeState := false } := by
  unfold HandleStateChange hscEntry
  cases hi : s.internalState <;> cases hd : s.desiredNextState <;>
    simp_all [handleTransitions, TRANSITION, supportedTransition, pure, Except.pure, bind,
      Except.bind]

theorem HandleStateChange_live_to_none (b : Build) (fuel : Nat) (env : Collab) (s : TVRec)
    (hi : s.internalState = kState_WatchingLiveTV) (hd : s.desiredNextState = kState_None) :
    HandleStateChange b fuel env s =
      .ok { TeardownRecorder true
              (if s.channel then (hscEntry s).emit .channel_StoreInputChannels else hscEntry s) with
            internalState := kState_None, changeState := false } := by
  unfold HandleStateChange hscEntry
  cases hc : s.channel <;>
    simp [hi, hd, hc, handleTransitions, TRANSITION, SET_NEXT, pure, Except.pure, bind,
      Except.bind, TVRec.emit]

theorem HandleStateChange_rec_to_none (b : Build) (fuel : Nat) (env : Collab) (s : TVRec)
    (hi : s.internalState = kState_RecordingOnly) (hd : s.desiredNextState = kState_None) :
    HandleStateChange b fuel env s =
      .ok { TeardownRecorder false { FinishedRecording (hscEntry s) with inoverrecord := false } with
            internalState := kState_None, changeState := false } := by
  unfold HandleStateChange hscEntry
  simp [hi, hd, handleTransitions, TRANSITION, SET_NEXT, pure, Except.pure, bind, Except.bind]
  rw [FinishedRecording_eq]

/-- The last two statements of `HandleStateChange` together with the
`if (closeRecorder)` block before them. -/
theorem HandleStateChange_none_to_live (b : Build) (fuel : Nat) (env : Collab) (s : TVRec)
    (hi : s.internalState = kState_None) (hd : s.desiredNextState = kState_WatchingLiveTV) :
    HandleStateChange b fuel env s =
      match handleStartRecorder b fuel env (hscEntry s)
          { nextState := kState_WatchingLiveTV, changed := true, startRecorder := true } with
      | .error f => .error f
      | .ok (s1, l1) =>
        .ok { (if l1.closeRecorder then TeardownRecorder l1.killRecordingFile s1 else s1) with
              internalState := l1.nextState, changeState := false } := by
  unfold HandleStateChange hscEntry
  simp [hi, hd, handleTransitions, TRANSITION, SET_NEXT, pure, Except.pure, bind, Except.bind]
  split <;> simp_all

theorem HandleStateChange_none_to_rec (b : Build) (fuel : Nat) (env : Collab) (s : TVRec)
    (hi : s.internalState = kState_None) (hd : s.desiredNextState = kState_RecordingOnly) :
    HandleStateChange b fuel env s =
      match s.curRecording with
      | none => .error .nullDeref
      | some _ =>
        if env.sinkOpens then
          match handleStartRecorder b fuel env
              (StartedRecording { hscEntry s with
                 rbuffer := some { filename := s.outputFilename, isOpen := env.sinkOpens } })
              { nextState := kState_RecordingOnly, changed := true, startRecorder := true } with
          | .error f => .error f
          | .ok (s1, l1) =>
            .ok { (if l1.closeRecorder then TeardownRecorder l1.killRecordingFile s1 else s1) with
                  internalState := l1.nextState, changeState := false }
        else
          .ok { hscEntry s with rbuffer := none, internalState := kState_None,
                                changeState := false } := by
  unfold HandleStateChange hscEntry
  cases hc : s.curRecording <;> cases ho : env.sinkOpens <;>
    simp [hi, hd, hc, ho, handleTransitions, TRANSITION, SET_NEXT, SET_LAST, SetChannel, pure,
      Except.pure, bind, Except.bind]
  rw [StartedRecording_eq]
  simp
  split <;> simp_all

/-! ## What a completed `HandleStateChange` can have written -/

theorem handleStartRecorder_frame (b : Build) (fuel : Nat) (env : Collab) (s s1 : TVRec)
    (l l1 : Locals) (h : handleStartRecorder b fuel env s l = .ok (s1, l1)) :
    ∃ pm pn a rc er rt ev,
      s1 = { s with prematurelystopped := pm, profileName := pn, autoRunJobs := a,
                    recorder := some rc, errored := er, recorder_thread := rt, events := ev } ∧
      (l1 = l ∨ l1 = { l with nextState := s.internalState, changed := true,
                              killRecordingFile := true, closeRecorder := true }) := by
  unfold handleStartRecorder at h
  dsimp only at h
  rw [prepareStart_eq] at h
  simp only [SetupRecorder_eq] at h
  split at h
  · cases h
  · rename_i s2 hs2
    split at hs2
    · split at hs2
      · cases hs2
      · simp only [Except.ok.injEq] at hs2
        subst hs2
        split at h
        · rw [recorderNotStarted_eq] at h
          simp only [Except.ok.injEq, Prod.mk.injEq] at h
          obtain ⟨h1, h2⟩ := h
          subst h1 h2
          exact ⟨_, _, _, _, _, _, _, rfl, Or.inr rfl⟩
        · split at h
          · cases h
          · rename_i s3 hs3
            obtain ⟨r3, -, hs3eq⟩ := launchRecorder_frame _ _ _ _ hs3
            subst hs3eq
            simp only at h
            split at h
            · rw [recorderStarted_eq] at h
              simp only [Except.ok.injEq, Prod.mk.injEq] at h
              obtain ⟨h1, h2⟩ := h
              subst h1 h2
              exact ⟨_, _, _, _, _, _, _, rfl, Or.inl rfl⟩
            · rw [recorderNotStarted_eq] at h
              simp only [Except.ok.injEq, Prod.mk.injEq] at h
              obtain ⟨h1, h2⟩ := h
              subst h1 h2
              exact ⟨_, _, _, _, _, _, _, rfl, Or.inr rfl⟩
    · split at hs2
      · cases hs2
      · rename_i r0 hr0
        simp only [Except.ok.injEq] at hs2
        subst hs2
        simp only [IsErrored, if_true] at h
        rw [recorderNotStarted_eq] at h
        simp only [Except.ok.injEq, Prod.mk.injEq] at h
        obtain ⟨h1, h2⟩ := h
        subst h1 h2
        exact ⟨_, _, _, r0, _, _, _, by rw [← hr0], Or.inr rfl⟩

theorem supportedTransition_cases (a d : TVState) (h : supportedTransition a d = true) :
    (a = kState_None ∧ d = kState_WatchingLiveTV) ∨ (a = kState_WatchingLiveTV ∧ d = kState_None) ∨
    (a = kState_None ∧ d = kState_RecordingOnly) ∨ (a = kState_RecordingOnly ∧ d = kState_None) := by
  cases a <;> cases d <;> simp_all [supportedTransition]

theorem HandleStateChange_from_none_frame (b : Build) (fuel : Nat) (env : Collab) (s s' : TVRec)
    (hi : s.internalState = kState_None)
    (hd : s.desiredNextState = kState_WatchingLiveTV ∨ s.desiredNextState = kState_RecordingOnly)
    (h : HandleStateChange b fuel env s = .ok s') :
    ∃ rb rc ip st pm er cur pn a ofn rtl rt ev,
      s' = { hscEntry s with
               rbuffer := rb, recorder := rc, ispip := ip, internalState := st,
               changeState := false, prematurelystopped := pm, errored := er,
               curRecording := cur, profileName := pn, autoRunJobs := a,
               outputFilename := ofn, readthreadlive := rtl, recorder_thread := rt,
               events := ev } ∧
      ((st = s.desiredNextState ∧ rc.isSome = true) ∨
       (st = kState_None ∧ (rc = none ∨ rc = s.recorder))) := by
  have finish : ∀ (s0 : TVRec) (l0 : Locals) (s1 : TVRec) (l1 : Locals),
      l0.closeRecorder = false →
      handleStartRecorder b fuel env s0 l0 = .ok (s1, l1) →
      ∃ rb rc ip pm er cur pn a ofn rtl rt ev,
        ({ (if l1.closeRecorder then TeardownRecorder l1.killRecordingFile s1 else s1) with
            internalState := l1.nextState, changeState := false } : TVRec) =
        { s0 with rbuffer := rb, recorder := rc, ispip := ip, internalState := l1.nextState,
                  changeState := false, prematurelystopped := pm, errored := er,
                  curRecording := cur, profileName := pn, autoRunJobs := a,
                  outputFilename := ofn, readthreadlive := rtl, recorder_thread := rt,
                  events := ev } ∧
        ((l1.nextState = l0.nextState ∧ rc.isSome = true) ∨
         (l1.nextState = s0.internalState ∧ rc = none)) := by
    intro s0 l0 s1 l1 hl0 hrun
    obtain ⟨pm, pn, a, rc, er, rt, ev, hs1, hl1⟩ := handleStartRecorder_frame _ _ _ _ _ _ _ hrun
    subst hs1
    rcases hl1 with hl1 | hl1
    · subst hl1
      rw [if_neg (by simp [hl0])]
      exact ⟨_, _, _, _, _, _, _, _, _, _, _, _, rfl, Or.inl ⟨rfl, rfl⟩⟩
    · subst hl1
      rw [if_pos rfl, TeardownRecorder_eq]
      exact ⟨_, _, _, _, _, _, _, _, _, _, _, _, rfl, Or.inr ⟨rfl, rfl⟩⟩
  rcases hd with hd | hd
  · rw [HandleStateChange_none_to_live b fuel env s hi hd] at h
    split at h
    · cases h
    · rename_i s1 l1 hrun
      simp only [Except.ok.injEq] at h
      obtain ⟨rb, rc, ip, pm, er, cur, pn, a, ofn, rtl, rt, ev, heq, hor⟩ :=
        finish _ _ _ _ rfl hrun
      rw [heq] at h
      subst h
      refine ⟨rb, rc, ip, l1.nextState, pm, er, cur, pn, a, ofn, rtl, rt, ev, rfl, ?_⟩
      rcases hor with ⟨h1, h2⟩ | ⟨h1, h2⟩
      · exact Or.inl ⟨h1.trans hd.symm, h2⟩
      · exact Or.inr ⟨h1.trans hi, Or.inl h2⟩
  · rw [HandleStateChange_none_to_rec b fuel env s hi hd] at h
    split at h
    · cases h
    · split at h
      · rename_i hso
        rw [StartedRecording_eq] at h
        split at h
        · cases h
        · rename_i s1 l1 hrun
          simp only [Except.ok.injEq] at h
          obtain ⟨rb, rc, ip, pm, er, cur, pn, a, ofn, rtl, rt, ev, heq, hor⟩ :=
            finish _ _ _ _ rfl hrun
          rw [heq] at h
          subst h
          refine ⟨rb, rc, ip, l1.nextState, pm, er, cur, pn, a, ofn, rtl, rt, ev, rfl, ?_⟩
          rcases hor with ⟨h1, h2⟩ | ⟨h1, h2⟩
          · exact Or.inl ⟨h1.trans hd.symm, h2⟩
          · refine Or.inr ⟨h1.trans ?_, Or.inl h2⟩
            exact hi
      · simp only [Except.ok.injEq] at h
        subst h
        exact ⟨_, _, _, _, _, _, _, _, _, _, _, _, _, rfl, Or.inr ⟨rfl, Or.inr rfl⟩⟩

/-- The members a completed `HandleStateChange` leaves alone. -/
theorem HandleStateChange_frame (b : Build) (fuel : Nat) (env : Collab) (s s' : TVRec)
    (h : HandleStateChange b fuel env s = .ok s') :
    ∃ rb rc ip st cs pm io er cur pn a ofn rtl rt ev,
      s' = { s with frontendReady := false, askAllowRecording := true,
                    cancelNextRecording := false,
                    rbuffer := rb, recorder := rc, ispip := ip, internalState := st,
                    changeState := cs, prematurelystopped := pm, inoverrecord := io,
                    errored := er, curRecording := cur, profileName := pn, autoRunJobs := a,
                    outputFilename := ofn, readthreadlive := rtl, recorder_thread := rt,
                    events := ev } := by
  by_cases hnull : s.desiredNextState = s.internalState
  · rw [HandleStateChange_null b fuel env s hnull] at h
    simp only [Except.ok.injEq] at h; subst h
    exact ⟨_, _, _, _, _, _, _, _, _, _, _, _, _, _, _, rfl⟩
  by_cases herr : s.desiredNextState = kState_Error
  · rw [HandleStateChange_error b fuel env s hnull herr] at h
    simp only [Except.ok.injEq] at h; subst h
    exact ⟨_, _, _, _, _, _, _, _, _, _, _, _, _, _, _, rfl⟩
  cases hsup : supportedTransition s.internalState s.desiredNextState
  · rw [HandleStateChange_unknown b fuel env s hnull herr hsup] at h
    simp only [Except.ok.injEq] at h; subst h
    exact ⟨_, _, _, _, _, _, _, _, _, _, _, _, _, _, _, rfl⟩
  rcases supportedTransition_cases _ _ hsup with ⟨hi, hd⟩ | ⟨hi, hd⟩ | ⟨hi, hd⟩ | ⟨hi, hd⟩
  · obtain ⟨rb, rc, ip, st, pm, er, cur, pn, a, ofn, rtl, rt, ev, heq, -⟩ :=
      HandleStateChange_from_none_frame b fuel env s s' hi (Or.inl hd) h
    subst heq
    exact ⟨_, _, _, _, _, _, _, _, _, _, _, _, _, _, _, rfl⟩
  · rw [HandleStateChange_live_to_none b fuel env s hi hd] at h
    by_cases hc : s.channel = true
    · rw [if_pos hc, TeardownRecorder_eq] at h
      simp only [Except.ok.injEq] at h; subst h
      exact ⟨_, _, _, _, _, _, _, _, _, _, _, _, _, _, _, rfl⟩
    · rw [if_neg hc, TeardownRecorder_eq] at h
      simp only [Except.ok.injEq] at h; subst h
      exact ⟨_, _, _, _, _, _, _, _, _, _, _, _, _, _, _, rfl⟩
  · obtain ⟨rb, rc, ip, st, pm, er, cur, pn, a, ofn, rtl, rt, ev, heq, -⟩ :=
      HandleStateChange_from_none_frame b fuel env s s' hi (Or.inr hd) h
    subst heq
    exact ⟨_, _, _, _, _, _, _, _, _, _, _, _, _, _, _, rfl⟩
  · rw [HandleStateChange_rec_to_none b fuel env s hi hd, TeardownRecorder_eq,
      FinishedRecording_eq] at h
    simp only [Except.ok.injEq] at h; subst h
    exact ⟨_, _, _, _, _, _, _, _, _, _, _, _, _, _, _, rfl⟩

/-! ## The event loop and the callers that wait for it -/

theorem askPendingRecording_frame (t : Tick) (s s1 : TVRec)
    (h : askPendingRecording t s = .ok s1) :
    s1 = { s with askAllowRecording := s1.askAllowRecording, events := s1.events } := by
  unfold askPendingRecording at h
  split at h
  · simp only at h
    split at h
    · cases h
    · simp only [Except.ok.injEq] at h
      subst h
      rfl
  · simp only [Except.ok.injEq] at h
    subst h
    rfl

theorem checkRecordingEnd_eq (t : Tick) (s : TVRec) :
    checkRecordingEnd t s =
      { s with recordEndTime := (checkRecordingEnd t s).recordEndTime,
               inoverrecord := (checkRecordingEnd t s).inoverrecord,
               desiredNextState := (checkRecordingEnd t s).desiredNextState,
               changeState := (checkRecordingEnd t s).changeState,
               finishRecording := (checkRecordingEnd t s).finishRecording } := by
  unfold checkRecordingEnd
  split
  · split
    · split <;> rfl
    · rfl
  · rfl

theorem checkExitPlayer_eq (s : TVRec) :
    checkExitPlayer s =
      { s with desiredNextState := (checkExitPlayer s).desiredNextState,
               changeState := (checkExitPlayer s).changeState,
               exitPlayer := (checkExitPlayer s).exitPlayer } := by
  unfold checkExitPlayer
  split
  · split
    · rfl
    · split <;> rfl
  · rfl

theorem beginRecording_eq (rcinfo : ProgramInfo) (s : TVRec) :
    (beginRecording rcinfo s).2 =
      { s with outputFilename := (beginRecording rcinfo s).2.outputFilename,
               recordEndTime := (beginRecording rcinfo s).2.recordEndTime,
               curRecording := (beginRecording rcinfo s).2.curRecording,
               overrecordseconds := (beginRecording rcinfo s).2.overrecordseconds,
               desiredNextState := (beginRecording rcinfo s).2.desiredNextState,
               changeState := (beginRecording rcinfo s).2.changeState,
               cancelNextRecording := false } := by
  unfold beginRecording
  by_cases hi : s.internalState = kState_None
  · by_cases hc : rcinfo.category = s.overRecordCategory <;>
      cases hcn : s.cancelNextRecording <;> simp [hi, hc, hcn, ChangeState]
  · cases hcn : s.cancelNextRecording <;> simp [hi, hcn]
    cases s
    simp_all

/-- How one pass of the loop body is put together. -/
theorem RunTV_iteration_cases (b : Build) (t : Tick) (s s' : TVRec) (r : Bool)
    (h : RunTV_iteration b t s = .ok (s', r)) :
    ∃ s1, (if s.changeState then HandleStateChange b t.fuel t.collab s else .ok s) = .ok s1 ∧
      ((s1.errored = true ∧ r = true ∧ s' = { s1 with runMainLoop := false }) ∨
       (s1.errored = false ∧ r = false ∧
          ∃ s2, askPendingRecording t s1 = .ok s2 ∧
            s' = checkExitPlayer (checkRecordingEnd t s2))) := by
  unfold RunTV_iteration at h
  split at h
  · cases h
  · rename_i s1 hs1
    refine ⟨s1, hs1, ?_⟩
    split at h
    · rename_i he
      simp only [Except.ok.injEq, Prod.mk.injEq] at h
      exact Or.inl ⟨he, h.2.symm, h.1.symm⟩
    · rename_i he
      split at h
      · cases h
      · rename_i s2 hs2
        simp only [Except.ok.injEq, Prod.mk.injEq] at h
        refine Or.inr ⟨by simpa [IsErrored] using he, h.2.symm, s2, hs2, h.1.symm⟩

theorem Except_bind_ok {ε α β : Type} (x : Except ε α) (f : α → Except ε β) (y : β)
    (h : x.bind f = .ok y) : ∃ a, x = .ok a ∧ f a = .ok y := by
  cases x with
  | error e => cases h
  | ok a => exact ⟨a, rfl, h⟩

theorem waitChangeState_preserves (b : Build) (P : TVRec → Prop)
    (hstep : ∀ t s s', P s → eventThreadStep b t s = .ok s' → P s') :
    ∀ (sched : List Tick) (s s' : TVRec) (rest : List Tick),
      P s → waitChangeState b sched s = .ok (s', rest) → P s' := by
  intro sched
  induction sched with
  | nil =>
    intro s s' rest hP h
    unfold waitChangeState at h
    split at h
    · cases h
    · simp only [Except.ok.injEq, Prod.mk.injEq] at h
      rw [← h.1]; exact hP
  | cons t rest0 ih =>
    intro s s' rest hP h
    unfold waitChangeState at h
    split at h
    · split at h
      · cases h
      · rename_i s1 hs1
        exact ih s1 s' rest (hstep t s s1 hP hs1) h
    · simp only [Except.ok.injEq, Prod.mk.injEq] at h
      rw [← h.1]; exact hP

theorem waitForNone_preserves (b : Build) (limit : Nat) (P : TVRec → Prop)
    (hstep : ∀ t s s', P s → eventThreadStep b t s = .ok s' → P s') :
    ∀ (sched : List Tick) (elapsed : Nat) (s s' : TVRec) (rest : List Tick),
      P s → waitForNone b limit sched elapsed s = .ok (s', rest) → P s' := by
  intro sched
  induction sched with
  | nil =>
    intro elapsed s s' rest hP h
    unfold waitForNone at h
    simp only [Except.ok.injEq, Prod.mk.injEq] at h
    rw [← h.1]; exact hP
  | cons t rest0 ih =>
    intro elapsed s s' rest hP h
    unfold waitForNone at h
    split at h
    · split at h
      · split at h
        · cases h
        · rename_i s1 hs1
          exact ih _ s1 s' rest (hstep t s s1 hP hs1) h
      · simp only [Except.ok.injEq, Prod.mk.injEq] at h
        rw [← h.1]; exact hP
    · simp only [Except.ok.injEq, Prod.mk.injEq] at h
      rw [← h.1]; exact hP

theorem evictLiveTV_preserves (b : Build) (P : TVRec → Prop)
    (hstep : ∀ t s s', P s → eventThreadStep b t s = .ok s' → P s')
    (hemit : ∀ s e, P s → P (s.emit e))
    (hexit : ∀ s, P s → P { s with exitPlayer := true })
    (sched : List Tick) (s s' : TVRec) (rest : List Tick)
    (hP : P s) (h : evictLiveTV b sched s = .ok (s', rest)) : P s' := by
  unfold evictLiveTV at h
  obtain ⟨⟨s2, sched2⟩, h, hr3⟩ := Except_bind_ok _ _ _ h
  obtain ⟨⟨s1, sched1⟩, hr1, hr2⟩ := Except_bind_ok _ _ _ h
  have hP1 := waitForNone_preserves b 10000 P hstep _ _ _ _ _ (hemit _ _ hP) hr1
  have hP2 : P s2 := by
    unfold evictSecondWindow at hr2
    split at hr2
    · exact waitForNone_preserves b 10000 P hstep _ _ _ _ _ (hemit _ _ hP1) hr2
    · simp only [Except.ok.injEq, Prod.mk.injEq] at hr2
      rw [← hr2.1]; exact hP1
  unfold evictThirdWindow at hr3
  split at hr3
  · exact waitForNone_preserves b 5000 P hstep _ _ _ _ _ (hexit _ hP2) hr3
  · simp only [Except.ok.injEq, Prod.mk.injEq] at hr3
    rw [← hr3.1]; exact hP2

/-- A completed `StartRecording` is `beginRecording` applied to a coordinator
that the waits have reached. -/
theorem StartRecording_decompose (b : Build) (P : TVRec → Prop)
    (hstep : ∀ t s s', P s → eventThreadStep b t s = .ok s' → P s')
    (hemit : ∀ s e, P s → P (s.emit e))
    (hexit : ∀ s, P s → P { s with exitPlayer := true })
    (hpost : ∀ s, P s → P (ChangeState kState_None s))
    (sched : List Tick) (rcinfo : ProgramInfo) (s s' : TVRec) (r : Int) (rest : List Tick)
    (hP : P { s with recordPending := false, askAllowRecording := false })
    (h : StartRecording b sched rcinfo s = .ok (r, s', rest)) :
    ∃ s3, P s3 ∧ r = (beginRecording rcinfo s3).1 ∧ s' = (beginRecording rcinfo s3).2 := by
  unfold StartRecording at h
  dsimp only at h
  obtain ⟨⟨s3, sched3⟩, h, hfin⟩ := Except_bind_ok _ _ _ h
  obtain ⟨⟨s2, sched2⟩, h, hr3⟩ := Except_bind_ok _ _ _ h
  obtain ⟨⟨s1, sched1⟩, hr1, hr2⟩ := Except_bind_ok _ _ _ h
  have hP1 : P s1 := by
    unfold waitOverrecordEnd at hr1
    split at hr1
    · exact waitChangeState_preserves b P hstep _ _ _ _ (hpost _ hP) hr1
    · simp only [Except.ok.injEq, Prod.mk.injEq] at hr1
      rw [← hr1.1]; exact hP
  have hP2 : P s2 := by
    unfold waitPendingChange at hr2
    split at hr2
    · exact waitChangeState_preserves b P hstep _ _ _ _ hP1 hr2
    · simp only [Except.ok.injEq, Prod.mk.injEq] at hr2
      rw [← hr2.1]; exact hP1
  have hP3 : P s3 := by
    unfold evictIfLive at hr3
    split at hr3
    · exact evictLiveTV_preserves b P hstep hemit hexit _ _ _ _ hP2 hr3
    · simp only [Except.ok.injEq, Prod.mk.injEq] at hr3
      rw [← hr3.1]; exact hP2
  simp only [Except.ok.injEq, Prod.mk.injEq] at hfin
  exact ⟨s3, hP3, hfin.1.symm, hfin.2.1.symm⟩

theorem StartRecording_preserves (b : Build) (P : TVRec → Prop)
    (hstep : ∀ t s s', P s → eventThreadStep b t s = .ok s' → P s')
    (hemit : ∀ s e, P s → P (s.emit e))
    (hexit : ∀ s, P s → P { s with exitPlayer := true })
    (hentry : ∀ s, P s → P { s with recordPending := false, askAllowRecording := false })
    (hpost : ∀ s, P s → P (ChangeState kState_None s))
    (hbegin : ∀ rcinfo s, P s → P (beginRecording rcinfo s).2)
    (sched : List Tick) (rcinfo : ProgramInfo) (s s' : TVRec) (r : Int) (rest : List Tick)
    (hP : P s) (h : StartRecording b sched rcinfo s = .ok (r, s', rest)) : P s' := by
  obtain ⟨s3, hP3, -, hs'⟩ := StartRecording_decompose b P hstep hemit hexit hpost sched rcinfo
    s s' r rest (hentry _ hP) h
  rw [hs']
  exact hbegin _ _ hP3

theorem beginRecording_idle (rcinfo : ProgramInfo) (s : TVRec)
    (hi : s.internalState = kState_None) :
    (beginRecording rcinfo s).1 = 1 ∧
    (beginRecording rcinfo s).2.internalState = kState_None ∧
    (beginRecording rcinfo s).2.curRecording = some rcinfo ∧
    (beginRecording rcinfo s).2.recordEndTime = rcinfo.recendts ∧
    (beginRecording rcinfo s).2.outputFilename = rcinfo.GetRecordFilename s.recprefixDir ∧
    (beginRecording rcinfo s).2.desiredNextState = kState_RecordingOnly ∧
    (beginRecording rcinfo s).2.changeState = true := by
  unfold beginRecording
  by_cases hc : rcinfo.category = s.overRecordCategory <;>
    cases hcn : s.cancelNextRecording <;> simp [hi, hc, hcn, ChangeState]

theorem beginRecording_busy (rcinfo : ProgramInfo) (s : TVRec)
    (hi : s.internalState ≠ kState_None) :
    (beginRecording rcinfo s).1 = (if s.cancelNextRecording then 0 else -1) ∧
    (beginRecording rcinfo s).2 = { s with cancelNextRecording := false } := by
  unfold beginRecording
  cases s
  simp only at hi
  simp only [hi, if_false]
  split <;> simp_all

/-! ## The event loop left to itself only tears down -/

theorem checkRecordingEnd_posts (t : Tick) (s : TVRec)
    (h : s.changeState = true →
      s.desiredNextState = kState_None ∨ s.desiredNextState = kState_Error) :
    (checkRecordingEnd t s).changeState = true →
      (checkRecordingEnd t s).desiredNextState = kState_None ∨
      (checkRecordingEnd t s).desiredNextState = kState_Error := by
  unfold checkRecordingEnd
  split
  · split
    · split
      · exact h
      · intro _
        simp only [ChangeState, RemoveRecording]
        split <;> simp
    · exact h
  · exact h

theorem checkExitPlayer_posts (s : TVRec)
    (h : s.changeState = true →
      s.desiredNextState = kState_None ∨ s.desiredNextState = kState_Error) :
    (checkExitPlayer s).changeState = true →
      (checkExitPlayer s).desiredNextState = kState_None ∨
      (checkExitPlayer s).desiredNextState = kState_Error := by
  unfold checkExitPlayer
  split
  · split
    · intro _; exact Or.inl rfl
    · split
      · rename_i hp
        intro _
        dsimp only [ChangeState, RemovePlaying]
        rw [if_pos hp]
        split
        · exact Or.inl rfl
        · rename_i hne
          simp only [StateIsPlaying, beq_iff_eq] at hp
          exact absurd hp hne
      · exact h
  · exact h

theorem HandleStateChange_teardownOnly (b : Build) (fuel : Nat) (env : Collab) (s : TVRec)
    (hrp : s.recordPending = false)
    (hd : s.desiredNextState = kState_None ∨ s.desiredNextState = kState_Error) :
    ∃ s1, HandleStateChange b fuel env s = .ok s1 ∧ TeardownOnly s1 ∧
      s1.cancelNextRecording = false ∧ (∀ x, x ∈ s.events → x ∈ s1.events) ∧
      s1.runMainLoop = s.runMainLoop := by
  by_cases hnull : s.desiredNextState = s.internalState
  · exact ⟨_, HandleStateChange_null b fuel env s hnull, ⟨hrp, fun _ => hd⟩, rfl,
      fun x hx => hx, rfl⟩
  by_cases herr : s.desiredNextState = kState_Error
  · exact ⟨_, HandleStateChange_error b fuel env s hnull herr, ⟨hrp, fun _ => hd⟩, rfl,
      fun x hx => hx, rfl⟩
  have hdn : s.desiredNextState = kState_None := by
    rcases hd with h | h
    · exact h
    · exact absurd h herr
  cases hsup : supportedTransition s.internalState s.desiredNextState
  · exact ⟨_, HandleStateChange_unknown b fuel env s hnull herr hsup,
      ⟨hrp, fun h => by cases h⟩, rfl, fun x hx => hx, rfl⟩
  rcases supportedTransition_cases _ _ hsup with ⟨hi, hd2⟩ | ⟨hi, hd2⟩ | ⟨hi, hd2⟩ | ⟨hi, hd2⟩
  · rw [hdn] at hd2; cases hd2
  · refine ⟨_, HandleStateChange_live_to_none b fuel env s hi hd2, ⟨?_, fun h => by cases h⟩,
      ?_, ?_, ?_⟩
    · rw [TeardownRecorder_eq]
      by_cases hc : s.channel = true
      · rw [if_pos hc]; exact hrp
      · rw [if_neg hc]; exact hrp
    · rw [TeardownRecorder_eq]
      by_cases hc : s.channel = true
      · rw [if_pos hc]; rfl
      · rw [if_neg hc]; rfl
    · intro x hx
      apply events_sub_TeardownRecorder
      by_cases hc : s.channel = true
      · rw [if_pos hc]; simp [TVRec.emit, hscEntry, hx]
      · rw [if_neg hc]; exact hx
    · rw [TeardownRecorder_eq]
      by_cases hc : s.channel = true
      · rw [if_pos hc]; rfl
      · rw [if_neg hc]; rfl
  · rw [hdn] at hd2; cases hd2
  · refine ⟨_, HandleStateChange_rec_to_none b fuel env s hi hd2, ⟨?_, fun h => by cases h⟩,
      ?_, ?_, ?_⟩
    · rw [TeardownRecorder_eq, FinishedRecording_eq]; exact hrp
    · rw [TeardownRecorder_eq, FinishedRecording_eq]; rfl
    · intro x hx
      apply events_sub_TeardownRecorder
      exact events_sub_FinishedRecording (hscEntry s) x hx
    · rw [TeardownRecorder_eq, FinishedRecording_eq]; rfl

/-- With only tear-down work pending, an iteration of the event loop returns
and leaves only tear-down work pending; it never sets `cancelNextRecording` and
removes no recorded effect. -/
theorem eventThreadStep_teardownOnly (b : Build) (t : Tick) (s : TVRec) (hQ : TeardownOnly s) :
    ∃ s', eventThreadStep b t s = .ok s' ∧ TeardownOnly s' ∧
      (s'.cancelNextRecording = true → s.cancelNextRecording = true) ∧
      (∀ x, x ∈ s.events → x ∈ s'.events) := by
  unfold eventThreadStep
  by_cases hrun : s.runMainLoop = true
  swap
  · rw [if_neg hrun]; exact ⟨s, rfl, hQ, fun h => h, fun x hx => hx⟩
  rw [if_pos hrun]
  obtain ⟨s1, hs1, hQ1, hc1, he1⟩ :
      ∃ s1, (if s.changeState then HandleStateChange b t.fuel t.collab s else .ok s) = .ok s1 ∧
        TeardownOnly s1 ∧ (s1.cancelNextRecording = true → s.cancelNextRecording = true) ∧
        (∀ x, x ∈ s.events → x ∈ s1.events) := by
    by_cases hcs : s.changeState = true
    · rw [if_pos hcs]
      obtain ⟨s1, h1, h2, h3, h4, -⟩ :=
        HandleStateChange_teardownOnly b t.fuel t.collab s hQ.1 (hQ.2 hcs)
      exact ⟨s1, h1, h2, fun h => (by rw [h3] at h; cases h), h4⟩
    · rw [if_neg hcs]
      exact ⟨s, rfl, hQ, fun h => h, fun x hx => hx⟩
  unfold RunTV_iteration
  rw [hs1]
  dsimp only
  by_cases he : IsErrored s1 = true
  · rw [if_pos he]
    exact ⟨_, rfl, hQ1, hc1, he1⟩
  · rw [if_neg he]
    have hask : askPendingRecording t s1 = .ok s1 := by
      unfold askPendingRecording
      rw [hQ1.1]
      simp
    rw [hask]
    refine ⟨_, rfl, ⟨?_, ?_⟩, ?_, ?_⟩
    · rw [checkExitPlayer_eq, checkRecordingEnd_eq]; exact hQ1.1
    · exact checkExitPlayer_posts _ (checkRecordingEnd_posts t s1 hQ1.2)
    · rw [checkExitPlayer_eq, checkRecordingEnd_eq]; exact hc1
    · rw [checkExitPlayer_eq, checkRecordingEnd_eq]; exact he1

/-- Whatever is pending, a completed iteration of the event loop leaves
`recordPending` alone and never sets `cancelNextRecording`. -/
theorem eventThreadStep_frame (b : Build) (t : Tick) (s s' : TVRec)
    (h : eventThreadStep b t s = .ok s') :
    s'.recordPending = s.recordPending ∧
    (s'.cancelNextRecording = true → s.cancelNextRecording = true) := by
  unfold eventThreadStep at h
  by_cases hrun : s.runMainLoop = true
  swap
  · rw [if_neg hrun] at h
    simp only [Except.ok.injEq] at h
    subst h
    exact ⟨rfl, fun h => h⟩
  rw [if_pos hrun] at h
  split at h
  · cases h
  rename_i s'' r hiter
  simp only [Except.ok.injEq] at h
  subst h
  obtain ⟨s1, hs1, hcase⟩ := RunTV_iteration_cases b t s s'' r hiter
  have h1 : s1.recordPending = s.recordPending ∧
      (s1.cancelNextRecording = true → s.cancelNextRecording = true) := by
    by_cases hcs : s.changeState = true
    · rw [if_pos hcs] at hs1
      obtain ⟨rb, rc, ip, st, cs, pm, io, er, cur, pn, a, ofn, rtl, rt, ev, heq⟩ :=
        HandleStateChange_frame b t.fuel t.collab s s1 hs1
      subst heq
      exact ⟨rfl, fun h => by cases h⟩
    · rw [if_neg hcs] at hs1
      simp only [Except.ok.injEq] at hs1
      subst hs1
      exact ⟨rfl, fun h => h⟩
  rcases hcase with ⟨-, -, heq⟩ | ⟨-, -, s2, hs2, heq⟩
  · subst heq
    exact h1
  · have h2 := askPendingRecording_frame t s1 s2 hs2
    subst heq
    rw [checkExitPlayer_eq, checkRecordingEnd_eq, h2]
    exact h1

theorem duration_nil : duration [] = 0 := rfl

theorem duration_cons (t : Tick) (ts : List Tick) : duration (t :: ts) = t.ms + duration ts := by
  simp [duration]

theorem duration_append (xs ys : List Tick) : duration (xs ++ ys) = duration xs + duration ys := by
  simp [duration]

/-- A timed wait returns when the event thread's iterations do, and it uses
no more of the schedule than fits into the time left. -/
theorem waitForNone_total (b : Build) (limit : Nat) (P : TVRec → Prop)
    (hstep : ∀ t s, P s → ∃ s', eventThreadStep b t s = .ok s' ∧ P s') :
    ∀ (sched : List Tick) (elapsed : Nat) (s : TVRec), P s → elapsed ≤ limit →
      ∃ s' rest used, waitForNone b limit sched elapsed s = .ok (s', rest) ∧ P s' ∧
        sched = used ++ rest ∧ elapsed + duration used ≤ limit := by
  intro sched
  induction sched with
  | nil =>
    intro elapsed s hP hle
    exact ⟨s, [], [], rfl, hP, rfl, by simpa [duration] using hle⟩
  | cons t rest0 ih =>
    intro elapsed s hP hle
    unfold waitForNone
    by_cases hc : (s.internalState != kState_None && decide (elapsed < limit)) = true
    · rw [if_pos hc]
      by_cases hfit : elapsed + t.ms ≤ limit
      · rw [if_pos hfit]
        obtain ⟨s1, hs1, hP1⟩ := hstep t s hP
        rw [hs1]
        obtain ⟨s', rest, used, hrun, hP', hsplit, htime⟩ := ih (elapsed + t.ms) s1 hP1 hfit
        refine ⟨s', rest, t :: used, hrun, hP', by rw [hsplit]; rfl, ?_⟩
        rw [duration_cons]; omega
      · rw [if_neg hfit]
        exact ⟨s, t :: rest0, [], rfl, hP, rfl, by simpa [duration] using hle⟩
    · rw [if_neg hc]
      exact ⟨s, t :: rest0, [], rfl, hP, rfl, by simpa [duration] using hle⟩

/-- The three windows of the live-viewer eviction return when the event
thread's iterations do, after at most 25 seconds of scheduled iterations. -/
theorem evictLiveTV_total (b : Build) (P : TVRec → Prop)
    (hstep : ∀ t s, P s → ∃ s', eventThreadStep b t s = .ok s' ∧ P s')
    (hemit : ∀ s e, P s → P (s.emit e))
    (hexit : ∀ s, P s → P { s with exitPlayer := true })
    (sched : List Tick) (s : TVRec)
    (hP : P (s.emit (.dispatch_QUIT_LIVETV s.m_capturecardnum))) :
    ∃ s' rest used, evictLiveTV b sched s = .ok (s', rest) ∧ P s' ∧
      sched = used ++ rest ∧ duration used ≤ 25000 := by
  unfold evictLiveTV
  obtain ⟨s1, rest1, used1, h1, hP1, hsp1, ht1⟩ :=
    waitForNone_total b 10000 P hstep sched 0 _ hP (Nat.zero_le _)
  rw [h1]
  obtain ⟨s2, rest2, used2, h2, hP2, hsp2, ht2⟩ :
      ∃ s2 rest2 used2, evictSecondWindow b (s1, rest1) = .ok (s2, rest2) ∧ P s2 ∧
        rest1 = used2 ++ rest2 ∧ duration used2 ≤ 10000 := by
    unfold evictSecondWindow
    by_cases hc : (s1.internalState != kState_None) = true
    · rw [if_pos hc]
      obtain ⟨s2, rest2, used2, h2, hP2, hsp2, ht2⟩ :=
        waitForNone_total b 10000 P hstep rest1 0 _ (hemit _ _ hP1) (Nat.zero_le _)
      exact ⟨s2, rest2, used2, h2, hP2, hsp2, by omega⟩
    · rw [if_neg hc]
      exact ⟨s1, rest1, [], rfl, hP1, rfl, by simp [duration]⟩
  show ∃ s' rest used,
    (evictSecondWindow b (s1, rest1)).bind (evictThirdWindow b) = .ok (s', rest) ∧ P s' ∧
      sched = used ++ rest ∧ duration used ≤ 25000
  rw [h2]
  show ∃ s' rest used, evictThirdWindow b (s2, rest2) = .ok (s', rest) ∧ P s' ∧
      sched = used ++ rest ∧ duration used ≤ 25000
  unfold evictThirdWindow
  by_cases hc : (s2.internalState != kState_None) = true
  · rw [if_pos hc]
    obtain ⟨s3, rest3, used3, h3, hP3, hsp3, ht3⟩ :=
      waitForNone_total b 5000 P hstep rest2 0 _ (hexit _ hP2) (Nat.zero_le _)
    refine ⟨s3, rest3, used1 ++ used2 ++ used3, h3, hP3, ?_, ?_⟩
    · rw [hsp1, hsp2, hsp3]; simp
    · rw [duration_append, duration_append]; omega
  · rw [if_neg hc]
    refine ⟨s2, rest2, used1 ++ used2, rfl, hP2, ?_, ?_⟩
    · rw [hsp1, hsp2]; simp
    · rw [duration_append]; omega

theorem unlink_mem_TeardownRecorder (s : TVRec) (p : String) (hp : s.outputFilename = p) :
    Event.unlink p ∈ (TeardownRecorder true s).events := by
  subst hp
  exact (TeardownRecorder_fields true s).2.2.2.2.2 rfl

/-- The recorder start followed by the end of `HandleStateChange`. -/
theorem start_then_finish (b : Build) (fuel : Nat) (env : Collab) (s0 : TVRec) (l0 : Locals)
    (n : Nat)
    (herr : s0.errored = false)
    (hbuilt : backendBuilt b s0.cardtype = true)
    (hhdtv : s0.cardtype = "HDTV" → s0.rbuffer ≠ none)
    (hfirst : FirstReport (recorderKindOf s0.cardtype) env.report n)
    (hfuel : n < fuel)
    (hl0 : l0.closeRecorder = false) :
    ∃ s', (match handleStartRecorder b fuel env s0 l0 with
        | .error f => .error f
        | .ok (s1, l1) =>
          .ok { (if l1.closeRecorder then TeardownRecorder l1.killRecordingFile s1 else s1) with
                internalState := l1.nextState, changeState := false }) = Except.ok s' ∧
      s'.changeState = false ∧
      (if reportsError (recorderKindOf s0.cardtype)
            { recording := false, errored := env.initErrored } = false ∧
          (env.report n).recording = true then
        s'.internalState = l0.nextState ∧ s'.recorder ≠ none ∧
          Event.pthread_create_RecorderThread ∈ s'.events ∧ s'.rbuffer = s0.rbuffer ∧
          s'.curRecording = s0.curRecording
      else
        s'.internalState = s0.internalState ∧ s'.recorder = none ∧ s'.rbuffer = none ∧
          s'.curRecording = none ∧ s'.outputFilename = "" ∧ s'.prematurelystopped = true ∧
          Event.unlink s0.outputFilename ∈ s'.events) := by
  obtain ⟨s1, l1, pn, a, r, t, ev, pm, e, hrun, hs1, hev, hres⟩ :=
    handleStartRecorder_spec b fuel env s0 l0 n herr hbuilt hhdtv hfirst hfuel
  rw [hrun]
  refine ⟨_, rfl, rfl, ?_⟩
  by_cases hc : reportsError (recorderKindOf s0.cardtype)
      { recording := false, errored := env.initErrored } = false ∧ (env.report n).recording = true
  · rw [if_pos hc] at hres
    rw [if_pos hc]
    obtain ⟨hl, -, -, -, hth⟩ := hres
    subst hl hs1
    simp [hl0, hth]
  · rw [if_neg hc] at hres
    rw [if_neg hc]
    obtain ⟨hl, hpm⟩ := hres
    subst hl hs1 hpm
    rw [if_pos rfl]
    dsimp only
    refine ⟨rfl, ?_, ?_, ?_, ?_, ?_, ?_⟩
    · exact (TeardownRecorder_fields true _).1
    · exact (TeardownRecorder_fields true _).2.1
    · exact (TeardownRecorder_fields true _).2.2.1
    · exact ((TeardownRecorder_fields true _).2.2.2.2.1).trans (if_pos rfl)
    · rw [TeardownRecorder_eq]
    · exact unlink_mem_TeardownRecorder _ _ rfl

theorem HandleStateChange_from_none (b : Build) (fuel : Nat) (env : Collab) (s : TVRec) (n : Nat)
    (hi : s.internalState = kState_None)
    (hd : s.desiredNextState = kState_WatchingLiveTV ∨ s.desiredNextState = kState_RecordingOnly)
    (hstart : CanStart b fuel env s n) :
    ∃ s', HandleStateChange b fuel env s = .ok s' ∧ s'.changeState = false ∧
      (if sinkOpened env s = true ∧ recorderReportsRecording env s n = true then
        s'.internalState = s.desiredNextState ∧ s'.recorder ≠ none ∧
          Event.pthread_create_RecorderThread ∈ s'.events
      else
        s'.internalState = kState_None ∧ s'.rbuffer = none ∧
          (sinkOpened env s = true →
            s'.recorder = none ∧ s'.curRecording = none ∧ s'.outputFilename = "" ∧
            s'.prematurelystopped = true ∧ Event.unlink s.outputFilename ∈ s'.events)) := by
  have hrr : (recorderReportsRecording env s n = true) ↔
      (reportsError (recorderKindOf s.cardtype)
        { recording := false, errored := env.initErrored } = false ∧
       (env.report n).recording = true) := by
    simp [recorderReportsRecording]
  rcases hd with hd | hd
  · rw [HandleStateChange_none_to_live b fuel env s hi hd]
    obtain ⟨s', hrun, hcs, hres⟩ := start_then_finish b fuel env (hscEntry s)
      { nextState := kState_WatchingLiveTV, changed := true, startRecorder := true } n
      hstart.notErrored hstart.built (hstart.liveSink hd) hstart.firstReport hstart.enoughFuel rfl
    refine ⟨s', hrun, hcs, ?_⟩
    have hso : sinkOpened env s = true := by simp [sinkOpened, hd]
    simp only [hso, true_and, hrr]
    simp only [hscEntry] at hres
    split
    · rename_i hc
      rw [if_pos hc] at hres
      exact ⟨hres.1.trans hd.symm, hres.2.1, hres.2.2.1⟩
    · rename_i hc
      rw [if_neg hc] at hres
      obtain ⟨h1, h2, h3, h4, h5, h6, h7⟩ := hres
      exact ⟨h1.trans hi, h3, fun _ => ⟨h2, h4, h5, h6, h7⟩⟩
  · rw [HandleStateChange_none_to_rec b fuel env s hi hd]
    cases hcur : s.curRecording with
    | none => exact absurd hcur (hstart.hasRecording hd)
    | some rec =>
      simp only []
      cases hso : env.sinkOpens
      · refine ⟨_, rfl, rfl, ?_⟩
        simp [sinkOpened, hd, hso, hscEntry]
      · simp only [if_true]
        rw [StartedRecording_eq]
        obtain ⟨s', hrun, hcs, hres⟩ := start_then_finish b fuel env
          { hscEntry s with
              rbuffer := some { filename := s.outputFilename, isOpen := true },
              events := (StartedRecording { hscEntry s with
                rbuffer := some { filename := s.outputFilename, isOpen := true } }).events }
          { nextState := kState_RecordingOnly, changed := true, startRecorder := true } n
          hstart.notErrored hstart.built (fun _ => by simp) hstart.firstReport
          hstart.enoughFuel rfl
        refine ⟨s', hrun, hcs, ?_⟩
        have hso2 : sinkOpened env s = true := by simp [sinkOpened, hso]
        simp only [hso2, true_and, hrr]
        simp only [hscEntry] at hres
        split
        · rename_i hc
          rw [if_pos hc] at hres
          exact ⟨hres.1.trans hd.symm, hres.2.1, hres.2.2.1⟩
        · rename_i hc
          rw [if_neg hc] at hres
          obtain ⟨h1, h2, h3, h4, h5, h6, h7⟩ := hres
          exact ⟨h1.trans hi, h3, fun _ => ⟨h2, h4, h5, h6, h7⟩⟩

/-- Claim C1. For each of the four supported pairs (None, WatchingLiveTV),
(WatchingLiveTV, None), (None, RecordingOnly), (RecordingOnly, None) and every
outcome of the collaborators, `HandleStateChange` returns with `changeState`
cleared and with `internalState` equal to the requested state or to the state
it started in.  Both transitions to None end in None; a transition out of None
ends in the requested state exactly when the sink (if one is needed) opened and
the recorder reported that it is recording, and in None otherwise. -/
theorem HandleStateChange_supported_transitions (b : Build) (fuel : Nat) (env : Collab)
    (s : TVRec) (n : Nat)
    (hpair : supportedTransition s.internalState s.desiredNextState = true)
    (hstart : s.internalState = kState_None → CanStart b fuel env s n) :
    ∃ s', HandleStateChange b fuel env s = .ok s' ∧
      s'.changeState = false ∧
      (s'.internalState = s.desiredNextState ∨ s'.internalState = s.internalState) ∧
      (s.desiredNextState = kState_None → s'.internalState = kState_None) ∧
      (s.internalState = kState_None →
        (s'.internalState = s.desiredNextState ↔
          sinkOpened env s = true ∧ recorderReportsRecording env s n = true) ∧
        (s'.internalState ≠ s.desiredNextState → s'.internalState = kState_None)) := by
  have fromNone : s.internalState = kState_None →
      (s.desiredNextState = kState_WatchingLiveTV ∨ s.desiredNextState = kState_RecordingOnly) →
      ∃ s', HandleStateChange b fuel env s = .ok s' ∧
      s'.changeState = false ∧
      (s'.internalState = s.desiredNextState ∨ s'.internalState = s.internalState) ∧
      (s.desiredNextState = kState_None → s'.internalState = kState_None) ∧
      (s.internalState = kState_None →
        (s'.internalState = s.desiredNextState ↔
          sinkOpened env s = true ∧ recorderReportsRecording env s n = true) ∧
        (s'.internalState ≠ s.desiredNextState → s'.internalState = kState_None)) := by
    intro hi hd
    obtain ⟨s', hrun, hcs, hres⟩ := HandleStateChange_from_none b fuel env s n hi hd (hstart hi)
    have hdne : s.desiredNextState ≠ kState_None := by
      rcases hd with h | h <;> rw [h] <;> decide
    refine ⟨s', hrun, hcs, ?_, fun h => absurd h hdne, fun _ => ?_⟩
    · split at hres
      · exact Or.inl hres.1
      · exact Or.inr (hres.1.trans hi.symm)
    · split at hres
      · rename_i hc
        exact ⟨⟨fun _ => hc, fun _ => hres.1⟩, fun h => absurd hres.1 h⟩
      · rename_i hc
        refine ⟨⟨fun h => ?_, fun h => absurd h hc⟩, fun _ => hres.1⟩
        exact absurd (h.symm.trans hres.1) hdne
  rcases supportedTransition_cases _ _ hpair with ⟨hi, hd⟩ | ⟨hi, hd⟩ | ⟨hi, hd⟩ | ⟨hi, hd⟩
  · exact fromNone hi (Or.inl hd)
  · refine ⟨_, HandleStateChange_live_to_none b fuel env s hi hd, rfl, Or.inl hd.symm,
      fun _ => rfl, fun h => ?_⟩
    rw [hi] at h; cases h
  · exact fromNone hi (Or.inr hd)
  · refine ⟨_, HandleStateChange_rec_to_none b fuel env s hi hd, rfl, Or.inl hd.symm,
      fun _ => rfl, fun h => ?_⟩
    rw [hi] at h; cases h

theorem sampleRequested_canStart : CanStart sampleBuild 5 sampleCollab sampleRequested 2 where
  notErrored := rfl
  hasRecording := fun _ => by decide
  built := by decide
  liveSink := fun h => by revert h; decide
  firstReport := by unfold FirstReport; decide
  enoughFuel := by decide

/-- The statement of C1 at a scheduled recording whose sink opens and whose
recorder reports that it records at its third poll. -/
theorem HandleStateChange_supported_transitions_witness :
    supportedTransition sampleRequested.internalState sampleRequested.desiredNextState = true ∧
    CanStart sampleBuild 5 sampleCollab sampleRequested 2 ∧
    ∃ s', HandleStateChange sampleBuild 5 sampleCollab sampleRequested = .ok s' ∧
      s'.changeState = false ∧
      (s'.internalState = sampleRequested.desiredNextState ∨
        s'.internalState = sampleRequested.internalState) ∧
      (sampleRequested.desiredNextState = kState_None → s'.internalState = kState_None) ∧
      (sampleRequested.internalState = kState_None →
        (s'.internalState = sampleRequested.desiredNextState ↔
          sinkOpened sampleCollab sampleRequested = true ∧
            recorderReportsRecording sampleCollab sampleRequested 2 = true) ∧
        (s'.internalState ≠ sampleRequested.desiredNextState → s'.internalState = kState_None)) :=
  ⟨by decide, sampleRequested_canStart,
    HandleStateChange_supported_transitions sampleBuild 5 sampleCollab sampleRequested 2
      (by decide) (fun _ => sampleRequested_canStart)⟩

/-- Claim C4. When a transition out of None (to WatchingLiveTV or to
RecordingOnly) gets as far as starting a recorder (its sink, if it needs one,
opened) and the recorder reports an error instead of recording,
`HandleStateChange` unwinds completely: it returns with `internalState` None,
`changeState` false, `recorder`, `rbuffer` and `curRecording` null, the output
file unlinked, `outputFilename` empty and `prematurelystopped` true. -/
theorem HandleStateChange_recorder_error_unwinds (b : Build) (fuel : Nat) (env : Collab)
    (s : TVRec) (n : Nat)
    (hi : s.internalState = kState_None)
    (hd : s.desiredNextState = kState_WatchingLiveTV ∨ s.desiredNextState = kState_RecordingOnly)
    (hstart : CanStart b fuel env s n)
    (hsink : sinkOpened env s = true)
    (hfail : recorderReportsRecording env s n = false) :
    ∃ s', HandleStateChange b fuel env s = .ok s' ∧
      s'.internalState = kState_None ∧ s'.changeState = false ∧
      s'.recorder = none ∧ s'.rbuffer = none ∧ s'.curRecording = none ∧
      Event.unlink s.outputFilename ∈ s'.events ∧ s'.outputFilename = "" ∧
      s'.prematurelystopped = true := by
  obtain ⟨s', hrun, hcs, hres⟩ := HandleStateChange_from_none b fuel env s n hi hd hstart
  have hc : ¬ (sinkOpened env s = true ∧ recorderReportsRecording env s n = true) := by
    rw [hfail]; simp
  rw [if_neg hc] at hres
  obtain ⟨h1, h2, h3⟩ := hres
  obtain ⟨h4, h5, h6, h7, h8⟩ := h3 hsink
  exact ⟨s', hrun, h1, hcs, h4, h2, h5, h8, h6, h7⟩

theorem sampleRequested_canStart_error :
    CanStart sampleBuild 5 sampleCollabRecorderError sampleRequested 2 where
  notErrored := rfl
  hasRecording := fun _ => by decide
  built := by decide
  liveSink := fun h => by revert h; decide
  firstReport := by unfold FirstReport; decide
  enoughFuel := by decide

/-- The statement of C4 at a scheduled recording whose recorder reports an
error at its third poll. -/
theorem HandleStateChange_recorder_error_unwinds_witness :
    sampleRequested.internalState = kState_None ∧
    sampleRequested.desiredNextState = kState_RecordingOnly ∧
    CanStart sampleBuild 5 sampleCollabRecorderError sampleRequested 2 ∧
    sinkOpened sampleCollabRecorderError sampleRequested = true ∧
    recorderReportsRecording sampleCollabRecorderError sampleRequested 2 = false ∧
    ∃ s', HandleStateChange sampleBuild 5 sampleCollabRecorderError sampleRequested = .ok s' ∧
      s'.internalState = kState_None ∧ s'.changeState = false ∧
      s'.recorder = none ∧ s'.rbuffer = none ∧ s'.curRecording = none ∧
      Event.unlink sampleRequested.outputFilename ∈ s'.events ∧ s'.outputFilename = "" ∧
      s'.prematurelystopped = true :=
  ⟨rfl, rfl, sampleRequested_canStart_error, by decide, by decide,
    HandleStateChange_recorder_error_unwinds sampleBuild 5 sampleCollabRecorderError
      sampleRequested 2 rfl (Or.inr rfl) sampleRequested_canStart_error (by decide) (by decide)⟩

/-- Claim C5. For every pair (internalState, desiredNextState) whose target
differs from the current state, is not `kState_Error`, and which is not one of
the four supported transitions, `HandleStateChange` returns with `changeState`
false and leaves `internalState`, `recorder`, `rbuffer` and `curRecording`
unchanged; no recorder is started or stopped (no effect on a collaborator is
made at all): the coordinator differs from the one at entry only in the three
flags written on entry and in `changeState`. -/
theorem HandleStateChange_unknown_transition_noop (b : Build) (fuel : Nat) (env : Collab)
    (s : TVRec)
    (hne : s.desiredNextState ≠ s.internalState)
    (herr : s.desiredNextState ≠ kState_Error)
    (hun : supportedTransition s.internalState s.desiredNextState = false) :
    ∃ s', HandleStateChange b fuel env s = .ok s' ∧
      s'.changeState = false ∧ s'.internalState = s.internalState ∧
      s'.recorder = s.recorder ∧ s'.rbuffer = s.rbuffer ∧ s'.curRecording = s.curRecording ∧
      s'.recorder_thread = s.recorder_thread ∧ s'.events = s.events ∧
      s' = { s with frontendReady := false, askAllowRecording := true,
                    cancelNextRecording := false, changeState := false } :=
  ⟨_, HandleStateChange_unknown b fuel env s hne herr hun, rfl, rfl, rfl, rfl, rfl, rfl, rfl, rfl⟩

/-- The statement of C5 for the request WatchingLiveTV → RecordingOnly. -/
theorem HandleStateChange_unknown_transition_noop_witness :
    (ChangeState kState_RecordingOnly sampleLive).desiredNextState ≠
      (ChangeState kState_RecordingOnly sampleLive).internalState ∧
    (ChangeState kState_RecordingOnly sampleLive).desiredNextState ≠ kState_Error ∧
    supportedTransition (ChangeState kState_RecordingOnly sampleLive).internalState
      (ChangeState kState_RecordingOnly sampleLive).desiredNextState = false ∧
    ∃ s', HandleStateChange sampleBuild 5 sampleCollab
        (ChangeState kState_RecordingOnly sampleLive) = .ok s' ∧
      s'.changeState = false ∧
      s'.internalState = (ChangeState kState_RecordingOnly sampleLive).internalState ∧
      s'.recorder = (ChangeState kState_RecordingOnly sampleLive).recorder ∧
      s'.rbuffer = (ChangeState kState_RecordingOnly sampleLive).rbuffer ∧
      s'.curRecording = (ChangeState kState_RecordingOnly sampleLive).curRecording ∧
      s'.recorder_thread = (ChangeState kState_RecordingOnly sampleLive).recorder_thread ∧
      s'.events = (ChangeState kState_RecordingOnly sampleLive).events ∧
      s' = { ChangeState kState_RecordingOnly sampleLive with
               frontendReady := false, askAllowRecording := true,
               cancelNextRecording := false, changeState := false } :=
  ⟨by decide, by decide, by decide,
    HandleStateChange_unknown_transition_noop sampleBuild 5 sampleCollab
      (ChangeState kState_RecordingOnly sampleLive) (by decide) (by decide) (by decide)⟩

/-- Claim C6. When the requested target is `kState_Error` and the current state
is not, `HandleStateChange` performs no transition (the coordinator changes
only in the three flags written on entry and in `errored`, so `internalState`,
`recorder` and `rbuffer` are as before) and marks the coordinator errored; an
iteration of the event loop that picks the request up leaves `RunTV` through
the error check of that same iteration, whatever iterations were still to
come, without any effect on a collaborator. -/
theorem HandleStateChange_error_target_is_fatal (b : Build) (t : Tick) (rest : List Tick)
    (s : TVRec)
    (hd : s.desiredNextState = kState_Error) (hi : s.internalState ≠ kState_Error) :
    HandleStateChange b t.fuel t.collab s = .ok { hscEntry s with errored := true } ∧
    ({ hscEntry s with errored := true } : TVRec).internalState = s.internalState ∧
    ({ hscEntry s with errored := true } : TVRec).recorder = s.recorder ∧
    ({ hscEntry s with errored := true } : TVRec).rbuffer = s.rbuffer ∧
    IsErrored { hscEntry s with errored := true } = true ∧
    (s.changeState = true →
      RunTV_iteration b t s = .ok ({ hscEntry s with errored := true, runMainLoop := false }, true) ∧
      (s.runMainLoop = true →
        RunTV_loop b (t :: rest) s =
          .ok ({ hscEntry s with errored := true, runMainLoop := false }, true))) := by
  have hne : s.desiredNextState ≠ s.internalState := by
    intro h; exact hi (h.symm.trans hd)
  have h1 := HandleStateChange_error b t.fuel t.collab s hne hd
  refine ⟨h1, rfl, rfl, rfl, rfl, fun hcs => ?_⟩
  have h2 : RunTV_iteration b t s =
      .ok ({ hscEntry s with errored := true, runMainLoop := false }, true) := by
    unfold RunTV_iteration
    simp [hcs, h1, bind, Except.bind, IsErrored, pure, Except.pure, hscEntry]
  refine ⟨h2, fun hrun => ?_⟩
  unfold RunTV_loop
  simp [hrun, h2, bind, Except.bind, pure, Except.pure]

/-- The statement of C6 for a request `ChangeState(kState_Error)` made while
live TV is shown. -/
theorem HandleStateChange_error_target_is_fatal_witness :
    (ChangeState kState_Error sampleLive).desiredNextState = kState_Error ∧
    (ChangeState kState_Error sampleLive).internalState ≠ kState_Error ∧
    (ChangeState kState_Error sampleLive).changeState = true ∧
    (ChangeState kState_Error sampleLive).runMainLoop = true ∧
    RunTV_loop sampleBuild [sampleTick 0 1, sampleTick 0 1] (ChangeState kState_Error sampleLive) =
      .ok ({ hscEntry (ChangeState kState_Error sampleLive) with
               errored := true, runMainLoop := false }, true) :=
  ⟨rfl, by decide, rfl, rfl,
    ((HandleStateChange_error_target_is_fatal sampleBuild (sampleTick 0 1) [sampleTick 0 1]
      (ChangeState kState_Error sampleLive) rfl (by decide)).2.2.2.2.2 rfl).2 rfl⟩

/-- Claim C7. `ChangeState` is a last-write-wins single-slot mailbox: for all
targets `a` and `b` and every coordinator `s`, `ChangeState b` after
`ChangeState a` gives exactly the coordinator that `ChangeState b` alone gives,
namely `s` with `desiredNextState = b` and `changeState = true` and nothing
else changed; so the next `HandleStateChange` acts on `b` only. -/
theorem ChangeState_last_write_wins (a b : TVState) (s : TVRec) (bd : Build) (fuel : Nat)
    (env : Collab) :
    ChangeState b (ChangeState a s) = ChangeState b s ∧
    ChangeState b s = { s with desiredNextState := b, changeState := true } ∧
    HandleStateChange bd fuel env (ChangeState b (ChangeState a s)) =
      HandleStateChange bd fuel env (ChangeState b s) :=
  ⟨rfl, rfl, rfl⟩

/-! ## The recorder exists exactly in the two recording states -/

theorem HandleStateChange_recorder_iff (b : Build) (fuel : Nat) (env : Collab) (s s' : TVRec)
    (hinv : s.recorder.isSome = true ↔
      (s.internalState = kState_WatchingLiveTV ∨ s.internalState = kState_RecordingOnly))
    (h : HandleStateChange b fuel env s = .ok s') :
    s'.recorder.isSome = true ↔
      (s'.internalState = kState_WatchingLiveTV ∨ s'.internalState = kState_RecordingOnly) := by
  by_cases hnull : s.desiredNextState = s.internalState
  · rw [HandleStateChange_null b fuel env s hnull] at h
    simp only [Except.ok.injEq] at h; subst h
    exact hinv
  by_cases herr : s.desiredNextState = kState_Error
  · rw [HandleStateChange_error b fuel env s hnull herr] at h
    simp only [Except.ok.injEq] at h; subst h
    exact hinv
  cases hsup : supportedTransition s.internalState s.desiredNextState
  · rw [HandleStateChange_unknown b fuel env s hnull herr hsup] at h
    simp only [Except.ok.injEq] at h; subst h
    exact hinv
  have fromNone : s.internalState = kState_None →
      (s.desiredNextState = kState_WatchingLiveTV ∨ s.desiredNextState = kState_RecordingOnly) →
      (s'.recorder.isSome = true ↔
        (s'.internalState = kState_WatchingLiveTV ∨ s'.internalState = kState_RecordingOnly)) := by
    intro hi hd
    obtain ⟨rb, rc, ip, st, pm, er, cur, pn, a, ofn, rtl, rt, ev, heq, hor⟩ :=
      HandleStateChange_from_none_frame b fuel env s s' hi hd h
    subst heq
    have hnone : s.recorder = none := by
      cases hr : s.recorder with
      | none => rfl
      | some r =>
        have := hinv.mp (by simp [hr])
        rw [hi] at this
        rcases this with h1 | h1 <;> cases h1
    rcases hor with ⟨h1, h2⟩ | ⟨h1, h2⟩
    · show rc.isSome = true ↔ (st = _ ∨ st = _)
      rw [h1]
      exact ⟨fun _ => hd, fun _ => h2⟩
    · show rc.isSome = true ↔ (st = _ ∨ st = _)
      have hrc : rc = none := by
        rcases h2 with h2 | h2
        · exact h2
        · exact h2.trans hnone
      rw [h1, hrc]
      simp
  rcases supportedTransition_cases _ _ hsup with ⟨hi, hd⟩ | ⟨hi, hd⟩ | ⟨hi, hd⟩ | ⟨hi, hd⟩
  · exact fromNone hi (Or.inl hd)
  · rw [HandleStateChange_live_to_none b fuel env s hi hd] at h
    simp only [Except.ok.injEq] at h; subst h
    have := (TeardownRecorder_fields true
      (if s.channel then (hscEntry s).emit .channel_StoreInputChannels else hscEntry s)).1
    show (TeardownRecorder true _).recorder.isSome = true ↔ _
    rw [this]
    simp
  · exact fromNone hi (Or.inr hd)
  · rw [HandleStateChange_rec_to_none b fuel env s hi hd] at h
    simp only [Except.ok.injEq] at h; subst h
    have := (TeardownRecorder_fields false
      { FinishedRecording (hscEntry s) with inoverrecord := false }).1
    show (TeardownRecorder false _).recorder.isSome = true ↔ _
    rw [this]
    simp

theorem eventThreadStep_recorder_iff (b : Build) (t : Tick) (s s' : TVRec)
    (hinv : s.recorder.isSome = true ↔
      (s.internalState = kState_WatchingLiveTV ∨ s.internalState = kState_RecordingOnly))
    (h : eventThreadStep b t s = .ok s') :
    s'.recorder.isSome = true ↔
      (s'.internalState = kState_WatchingLiveTV ∨ s'.internalState = kState_RecordingOnly) := by
  unfold eventThreadStep at h
  split at h
  · split at h
    · cases h
    · rename_i s1 r hrun
      simp only [Except.ok.injEq] at h
      subst h
      obtain ⟨s2, hs2, hcase⟩ := RunTV_iteration_cases b t s s1 r hrun
      have hinv2 : s2.recorder.isSome = true ↔
          (s2.internalState = kState_WatchingLiveTV ∨ s2.internalState = kState_RecordingOnly) := by
        split at hs2
        · exact HandleStateChange_recorder_iff b _ _ s s2 hinv hs2
        · simp only [Except.ok.injEq] at hs2
          rw [← hs2]; exact hinv
      rcases hcase with ⟨-, -, heq⟩ | ⟨-, -, s3, hask, heq⟩
      · rw [heq]; exact hinv2
      · have h3 := askPendingRecording_frame t s2 s3 hask
        rw [heq, checkExitPlayer_eq, checkRecordingEnd_eq, h3]
        exact hinv2
  · simp only [Except.ok.injEq] at h
    rw [← h]; exact hinv

theorem Init_recorder_state (b : Build) (cfg : DeviceConfig) (n : Int) :
    (Init b cfg (TVRec.new n)).1.recorder = none ∧
    (Init b cfg (TVRec.new n)).1.internalState = kState_None := by
  unfold Init TVRec.new
  dsimp only
  constructor <;> (repeat' split) <;> rfl

theorem SetupRingBuffer_recorder_state (path : String) (pip opens : Bool) (s : TVRec) :
    (SetupRingBuffer path pip opens s).1.recorder = s.recorder ∧
    (SetupRingBuffer path pip opens s).1.internalState = s.internalState := by
  unfold SetupRingBuffer
  constructor <;> (repeat' split) <;> rfl

/-- Claim C2. In every coordinator reachable from a freshly constructed one by
`ChangeState` requests followed by completed `HandleStateChange` calls (and by
the calls `StartRecording` and `SetupRingBuffer` that prepare such requests),
`recorder != NULL` holds if and only if `internalState` is WatchingLiveTV or
RecordingOnly.  A `HandleStateChange` in which `SetupRecorder` allocates no
recorder does not complete. -/
theorem recorder_nonnull_iff_recording_state (b : Build) (s : TVRec) (h : Reachable b s) :
    s.recorder ≠ none ↔
      (s.internalState = kState_WatchingLiveTV ∨ s.internalState = kState_RecordingOnly) := by
  have key : s.recorder.isSome = true ↔
      (s.internalState = kState_WatchingLiveTV ∨ s.internalState = kState_RecordingOnly) := by
    induction h with
    | init n cfg =>
      obtain ⟨h1, h2⟩ := Init_recorder_state b cfg n
      rw [h1, h2]
      simp
    | request target fuel env _ hrun ih =>
      exact HandleStateChange_recorder_iff b fuel env (ChangeState target _) _ ih hrun
    | startRecording sched rest rcinfo r _ hrun ih =>
      refine StartRecording_preserves b
        (fun s => s.recorder.isSome = true ↔
          (s.internalState = kState_WatchingLiveTV ∨ s.internalState = kState_RecordingOnly))
        (fun t s s' hP hs => eventThreadStep_recorder_iff b t s s' hP hs)
        (fun s e hP => hP) (fun s hP => hP) (fun s hP => hP) (fun s hP => hP) ?_
        sched rcinfo _ _ r rest ih hrun
      intro rc s hP
      rw [beginRecording_eq]
      exact hP
    | setupRingBuffer path pip opens _ ih =>
      obtain ⟨h1, h2⟩ := SetupRingBuffer_recorder_state path pip opens _
      rw [h1, h2]
      exact ih
  rw [← key]
  cases s.recorder <;> simp

theorem sampleWatching_eq :
    HandleStateChange sampleBuild 5 sampleCollab sampleLiveRequested = .ok sampleWatching := by
  rfl

theorem sampleWatching_reachable : Reachable sampleBuild sampleWatching :=
  Reachable.request kState_WatchingLiveTV 5 sampleCollab
    (Reachable.setupRingBuffer "/ringbuf1.nuv" false true (Reachable.init 1 sampleConfig))
    sampleWatching_eq

/-- The statement of C2 at the coordinator that has been initialised, given
its live-TV ring buffer and brought to WatchingLiveTV. -/
theorem recorder_nonnull_iff_recording_state_witness :
    Reachable sampleBuild sampleWatching ∧
    sampleWatching.internalState = kState_WatchingLiveTV ∧
    (sampleWatching.recorder ≠ none ↔
      (sampleWatching.internalState = kState_WatchingLiveTV ∨
        sampleWatching.internalState = kState_RecordingOnly)) :=
  ⟨sampleWatching_reachable, by decide,
    recorder_nonnull_iff_recording_state sampleBuild sampleWatching sampleWatching_reachable⟩

/-- Claim C3, the code at the failing input.  A scheduled recording is
requested with `StartRecording` on an idle coordinator and the sink then fails
to open: `HandleStateChange` returns with `internalState` None, `changeState`
false, `rbuffer` and `recorder` null, no recorder thread and nothing in the
trace of recorded effects (the recording is not marked as started, no file is
removed, no message dispatched), but `curRecording` still holds the recording
that `StartRecording` stored. -/
theorem HandleStateChange_sink_failure_keeps_curRecording :
    StartRecording sampleBuild [] sampleProgram sampleIdle = .ok (1, sampleRequested, []) ∧
    HandleStateChange sampleBuild 5 sampleCollabNoSink sampleRequested =
      .ok { hscEntry sampleRequested with
              rbuffer := none, internalState := kState_None, changeState := false } ∧
    ({ hscEntry sampleRequested with
         rbuffer := none, internalState := kState_None, changeState := false } : TVRec).recorder
      = none ∧
    ({ hscEntry sampleRequested with
         rbuffer := none, internalState := kState_None,
         changeState := false } : TVRec).recorder_thread = false ∧
    ({ hscEntry sampleRequested with
         rbuffer := none, internalState := kState_None, changeState := false } : TVRec).events
      = [] ∧
    ({ hscEntry sampleRequested with
         rbuffer := none, internalState := kState_None,
         changeState := false } : TVRec).curRecording = some sampleProgram ∧
    ({ hscEntry sampleRequested with
         rbuffer := none, internalState := kState_None,
         changeState := false } : TVRec).curRecording ≠ none :=
  ⟨rfl, rfl, rfl, rfl, rfl, rfl, by decide⟩

/-! ## Ticks during a recording -/

theorem HandleStateChange_while_recording (b : Build) (fuel : Nat) (env : Collab) (s : TVRec)
    (hi : s.internalState = kState_RecordingOnly) :
    ∃ s1, HandleStateChange b fuel env s = .ok s1 ∧
      s1.recordEndTime = s.recordEndTime ∧ s1.overrecordseconds = s.overrecordseconds ∧
      s1.recordPending = s.recordPending ∧ s1.pendingRecording = s.pendingRecording ∧
      ((s1.internalState = kState_RecordingOnly ∧ s1.inoverrecord = s.inoverrecord) ∨
        s1.internalState = kState_None) := by
  by_cases hnull : s.desiredNextState = s.internalState
  · exact ⟨_, HandleStateChange_null b fuel env s hnull, rfl, rfl, rfl, rfl, Or.inl ⟨hi, rfl⟩⟩
  by_cases herr : s.desiredNextState = kState_Error
  · exact ⟨_, HandleStateChange_error b fuel env s hnull herr, rfl, rfl, rfl, rfl,
      Or.inl ⟨hi, rfl⟩⟩
  cases hsup : supportedTransition s.internalState s.desiredNextState
  · exact ⟨_, HandleStateChange_unknown b fuel env s hnull herr hsup, rfl, rfl, rfl, rfl,
      Or.inl ⟨hi, rfl⟩⟩
  rcases supportedTransition_cases _ _ hsup with ⟨hi2, hd⟩ | ⟨hi2, hd⟩ | ⟨hi2, hd⟩ | ⟨hi2, hd⟩
  · rw [hi] at hi2; cases hi2
  · rw [hi] at hi2; cases hi2
  · rw [hi] at hi2; cases hi2
  · refine ⟨_, HandleStateChange_rec_to_none b fuel env s hi hd, ?_, ?_, ?_, ?_, Or.inr rfl⟩ <;>
      rw [TeardownRecorder_eq, FinishedRecording_eq] <;> rfl

theorem checkRecordingEnd_fields (t : Tick) (s : TVRec) :
    ((checkRecordingEnd t s).recordEndTime = s.recordEndTime ∧
      (s.inoverrecord = true → (checkRecordingEnd t s).inoverrecord = true) ∧
      (s.internalState ≠ kState_RecordingOnly →
        (checkRecordingEnd t s).inoverrecord = s.inoverrecord)) ∨
    (s.internalState = kState_RecordingOnly ∧ s.inoverrecord = false ∧
      (checkRecordingEnd t s).inoverrecord = true ∧
      (checkRecordingEnd t s).recordEndTime = s.recordEndTime + s.overrecordseconds) := by
  unfold checkRecordingEnd
  by_cases hr : s.internalState = kState_RecordingOnly
  · simp only [StateIsRecording, hr, beq_self_eq_true, if_true]
    split
    · split
      · rename_i hc
        simp only [Bool.and_eq_true, Bool.not_eq_true', decide_eq_true_eq] at hc
        exact Or.inr ⟨trivial, hc.1, rfl, rfl⟩
      · exact Or.inl ⟨rfl, fun h => h, fun h => absurd rfl h⟩
    · exact Or.inl ⟨rfl, fun h => h, fun h => absurd rfl h⟩
  · have : StateIsRecording s.internalState = false := by
      simp [StateIsRecording, hr]
    simp only [this, Bool.false_eq_true, if_false]
    exact Or.inl ⟨trivial, fun h => h, fun _ => trivial⟩

/-- What one iteration of the event loop does to a coordinator that is
recording. -/
theorem eventThreadStep_while_recording (b : Build) (t : Tick) (s s' : TVRec)
    (hi : s.internalState = kState_RecordingOnly)
    (h : eventThreadStep b t s = .ok s') :
    s'.overrecordseconds = s.overrecordseconds ∧
    s'.recordPending = s.recordPending ∧ s'.pendingRecording = s.pendingRecording ∧
    (s'.recordEndTime ≠ s.recordEndTime →
      s.inoverrecord = false ∧ s'.inoverrecord = true ∧
      s'.internalState = kState_RecordingOnly ∧
      s'.recordEndTime = s.recordEndTime + s.overrecordseconds) ∧
    (s.inoverrecord = true → s'.inoverrecord = false → s'.internalState = kState_None) := by
  unfold eventThreadStep at h
  by_cases hrun : s.runMainLoop = true
  swap
  · rw [if_neg hrun] at h
    simp only [Except.ok.injEq] at h
    subst h
    exact ⟨rfl, rfl, rfl, fun h => absurd rfl h, fun h1 h2 => by rw [h1] at h2; cases h2⟩
  rw [if_pos hrun] at h
  split at h
  · cases h
  rename_i s'' r hiter
  simp only [Except.ok.injEq] at h
  subst h
  obtain ⟨s1, hs1, hcase⟩ := RunTV_iteration_cases b t s s'' r hiter
  obtain ⟨hret, hover, hrp, hpr, hstate⟩ :
      s1.recordEndTime = s.recordEndTime ∧ s1.overrecordseconds = s.overrecordseconds ∧
        s1.recordPending = s.recordPending ∧ s1.pendingRecording = s.pendingRecording ∧
        ((s1.internalState = kState_RecordingOnly ∧ s1.inoverrecord = s.inoverrecord) ∨
          s1.internalState = kState_None) := by
    by_cases hcs : s.changeState = true
    · rw [if_pos hcs] at hs1
      obtain ⟨s1', h1, h2⟩ := HandleStateChange_while_recording b t.fuel t.collab s hi
      rw [h1] at hs1
      simp only [Except.ok.injEq] at hs1
      subst hs1
      exact h2
    · rw [if_neg hcs] at hs1
      simp only [Except.ok.injEq] at hs1
      subst hs1
      exact ⟨rfl, rfl, rfl, rfl, Or.inl ⟨hi, rfl⟩⟩
  rcases hcase with ⟨-, -, heq⟩ | ⟨-, -, s2, hs2, heq⟩
  · subst heq
    refine ⟨hover, hrp, hpr, fun h => absurd hret h, fun h1 h2 => ?_⟩
    rcases hstate with ⟨-, h3⟩ | h3
    · have h2' : s1.inoverrecord = false := h2
      rw [h3, h1] at h2'; cases h2'
    · exact h3
  · have h2 := askPendingRecording_frame t s1 s2 hs2
    have h2i : s2.internalState = s1.internalState := by rw [h2]
    have h2o : s2.inoverrecord = s1.inoverrecord := by rw [h2]
    have h2r : s2.recordEndTime = s1.recordEndTime := by rw [h2]
    have h2v : s2.overrecordseconds = s1.overrecordseconds := by rw [h2]
    have h2p : s2.recordPending = s1.recordPending := by rw [h2]
    have h2q : s2.pendingRecording = s1.pendingRecording := by rw [h2]
    subst heq
    refine ⟨?_, ?_, ?_, ?_, ?_⟩
    · rw [checkExitPlayer_eq, checkRecordingEnd_eq]
      exact h2v.trans hover
    · rw [checkExitPlayer_eq, checkRecordingEnd_eq]
      exact h2p.trans hrp
    · rw [checkExitPlayer_eq, checkRecordingEnd_eq]
      exact h2q.trans hpr
    · rw [checkExitPlayer_eq]
      show (checkRecordingEnd t s2).recordEndTime ≠ s.recordEndTime →
        s.inoverrecord = false ∧ (checkRecordingEnd t s2).inoverrecord = true ∧
        (checkRecordingEnd t s2).internalState = kState_RecordingOnly ∧
        (checkRecordingEnd t s2).recordEndTime = s.recordEndTime + s.overrecordseconds
      intro hne
      rcases checkRecordingEnd_fields t s2 with ⟨h1, -, -⟩ | ⟨h1, h3, h4, h5⟩
      · exact absurd (h1.trans (h2r.trans hret)) hne
      · have hi1 : s1.internalState = kState_RecordingOnly := h2i.symm.trans h1
        rcases hstate with ⟨-, h6⟩ | h6
        · refine ⟨?_, h4, ?_, ?_⟩
          · rw [← h6, ← h2o]; exact h3
          · rw [checkRecordingEnd_eq]; exact h1
          · rw [h5, h2r, hret, h2v, hover]
        · rw [h6] at hi1; cases hi1
    · rw [checkExitPlayer_eq]
      show s.inoverrecord = true → (checkRecordingEnd t s2).inoverrecord = false →
        (checkRecordingEnd t s2).internalState = kState_None
      intro hin hout
      rw [checkRecordingEnd_eq]
      show s2.internalState = kState_None
      rcases hstate with ⟨h6, h7⟩ | h6
      · exfalso
        rcases checkRecordingEnd_fields t s2 with ⟨-, h8, -⟩ | ⟨-, -, h8, -⟩
        · have := h8 (by rw [h2o, h7]; exact hin)
          rw [this] at hout; cases hout
        · rw [h8] at hout; cases hout
      · exact h2i.trans h6

/-- An iteration of the event loop made during a recording returns. -/
theorem eventThreadStep_recording_returns (b : Build) (t : Tick) (s : TVRec)
    (hi : s.internalState = kState_RecordingOnly)
    (hask : s.recordPending = true → s.pendingRecording ≠ none) :
    ∃ s', eventThreadStep b t s = .ok s' := by
  unfold eventThreadStep
  by_cases hrun : s.runMainLoop = true
  swap
  · rw [if_neg hrun]; exact ⟨s, rfl⟩
  rw [if_pos hrun]
  obtain ⟨s1, hs1, hrp, hpr⟩ :
      ∃ s1, (if s.changeState then HandleStateChange b t.fuel t.collab s else .ok s) = .ok s1 ∧
        s1.recordPending = s.recordPending ∧ s1.pendingRecording = s.pendingRecording := by
    by_cases hcs : s.changeState = true
    · rw [if_pos hcs]
      obtain ⟨s1, h1, -, -, h2, h3, -⟩ := HandleStateChange_while_recording b t.fuel t.collab s hi
      exact ⟨s1, h1, h2, h3⟩
    · rw [if_neg hcs]
      exact ⟨s, rfl, rfl, rfl⟩
  unfold RunTV_iteration
  rw [hs1]
  dsimp only
  by_cases he : IsErrored s1 = true
  · rw [if_pos he]; exact ⟨_, rfl⟩
  · rw [if_neg he]
    have : ∃ s2, askPendingRecording t s1 = .ok s2 := by
      unfold askPendingRecording
      split
      · rename_i hc
        simp only [Bool.and_eq_true] at hc
        cases hp : s1.pendingRecording with
        | none => exact absurd (hpr.symm.trans hp) (hask (hrp.symm.trans hc.1.1))
        | some p => exact ⟨_, rfl⟩
      · exact ⟨_, rfl⟩
    obtain ⟨s2, hs2⟩ := this
    rw [hs2]
    exact ⟨_, rfl⟩

theorem extensions_recordingRun_le (b : Build) :
    ∀ (sched : List Tick) (s : TVRec),
      extensions s (recordingRun b sched s) ≤ (if s.inoverrecord = true then 0 else 1) := by
  intro sched
  induction sched with
  | nil => intro s; simp [recordingRun, extensions]
  | cons t rest ih =>
    intro s
    unfold recordingRun
    by_cases hi : s.internalState = kState_RecordingOnly
    swap
    · rw [if_neg hi]; simp [extensions]
    rw [if_pos hi]
    cases hstep : eventThreadStep b t s with
    | error e => simp [extensions]
    | ok s' =>
      dsimp only
      obtain ⟨-, -, -, hext, hkeep⟩ := eventThreadStep_while_recording b t s s' hi hstep
      unfold extensions
      have ih' := ih s'
      by_cases hch : s'.recordEndTime = s.recordEndTime
      · rw [if_pos hch]
        by_cases hin : s.inoverrecord = true
        · rw [if_pos hin]
          by_cases hin' : s'.inoverrecord = true
          · rw [if_pos hin'] at ih'; omega
          · have hnone : s'.internalState = kState_None :=
              hkeep hin (by simpa using hin')
            have : recordingRun b rest s' = [] := by
              cases rest with
              | nil => rfl
              | cons t2 r2 => unfold recordingRun; rw [if_neg (by rw [hnone]; decide)]
            rw [this]; simp [extensions]
        · rw [if_neg hin]
          split at ih' <;> omega
      · rw [if_neg hch]
        obtain ⟨h1, h2, -, -⟩ := hext hch
        rw [if_pos h2] at ih'
        rw [if_neg (by rw [h1]; decide)]
        omega

theorem RunTV_iteration_extends (b : Build) (t : Tick) (s : TVRec)
    (hstate : GetState s = kState_RecordingOnly)
    (hok : IsErrored s = false)
    (hin : s.inoverrecord = false) (hk : 0 < s.overrecordseconds)
    (hnow : t.now > s.recordEndTime)
    (hask : s.recordPending = true → s.pendingRecording ≠ none) :
    ∃ s', RunTV_iteration b t s = .ok (s', false) ∧
      s'.recordEndTime = s.recordEndTime + s.overrecordseconds ∧ s'.inoverrecord = true ∧
      s'.changeState = false ∧ s'.desiredNextState = s.desiredNextState ∧
      s'.internalState = kState_RecordingOnly := by
  have hcs : s.changeState = false := by
    unfold GetState at hstate
    cases h : s.changeState
    · rfl
    · rw [h] at hstate; simp at hstate
  have hi : s.internalState = kState_RecordingOnly := by
    unfold GetState at hstate
    rw [hcs] at hstate
    simpa using hstate
  obtain ⟨s2, hs2⟩ : ∃ s2, askPendingRecording t s = .ok s2 := by
    unfold askPendingRecording
    split
    · rename_i hc
      simp only [Bool.and_eq_true] at hc
      cases hp : s.pendingRecording with
      | none => exact absurd hp (hask hc.1.1)
      | some p => exact ⟨_, rfl⟩
    · exact ⟨_, rfl⟩
  have h2 := askPendingRecording_frame t s s2 hs2
  have h2i : s2.internalState = kState_RecordingOnly := by rw [h2]; exact hi
  have h2o : s2.inoverrecord = false := by rw [h2]; exact hin
  have h2r : s2.recordEndTime = s.recordEndTime := by rw [h2]
  have h2v : s2.overrecordseconds = s.overrecordseconds := by rw [h2]
  have h2c : s2.changeState = false := by rw [h2]; exact hcs
  have h2d : s2.desiredNextState = s.desiredNextState := by rw [h2]
  have hce : checkRecordingEnd t s2 =
      { s2 with recordEndTime := s2.recordEndTime + s2.overrecordseconds, inoverrecord := true,
                finishRecording := false } := by
    unfold checkRecordingEnd
    have h1 : StateIsRecording s2.internalState = true := by rw [h2i]; rfl
    have h3 : (decide (t.now > s2.recordEndTime) || s2.finishRecording) = true := by
      rw [h2r]; simp [hnow]
    have h4 : (!s2.inoverrecord && decide (s2.overrecordseconds > 0)) = true := by
      rw [h2o, h2v]; simp [hk]
    rw [if_pos h1, if_pos h3]
    dsimp only
    rw [if_pos h4]
  have hcx : ∀ x : TVRec, x.internalState = kState_RecordingOnly →
      checkExitPlayer x = { x with exitPlayer := false } := by
    intro x hx
    unfold checkExitPlayer
    by_cases he : x.exitPlayer = true
    · rw [if_pos he]
      dsimp only
      rw [if_neg (by rw [hx]; decide), if_neg (by rw [hx]; decide)]
    · rw [if_neg he]
      have : x.exitPlayer = false := by simpa using he
      rw [← this]
  unfold RunTV_iteration
  rw [hcs]
  simp only [Bool.false_eq_true, if_false, hok, hs2]
  rw [hcx (checkRecordingEnd t s2) (by rw [hce]; exact h2i), hce]
  exact ⟨_, rfl, by rw [← h2r, ← h2v], rfl, h2c, h2d, h2i⟩

/-- Claim C10. Overrun extension happens once per recording.  In state
RecordingOnly (as `GetState` reports it) with `inoverrecord` false and
`overrecordseconds = k > 0`, an event-loop iteration at which the wall clock is
past `recordEndTime` returns with `recordEndTime` increased by `k` seconds and
`inoverrecord` true, and posts no state change.  For every sequence of
iterations made while one recording lasts, `recordEndTime` changes at most
once, and an iteration that starts with `inoverrecord` set does not change
`recordEndTime` and leaves `inoverrecord` set unless it ends the recording
(`internalState` None). -/
theorem overrecord_extends_once (b : Build) (t : Tick) (s : TVRec) (sched : List Tick)
    (s0 : TVRec)
    (hstate : GetState s = kState_RecordingOnly)
    (hok : IsErrored s = false)
    (hin : s.inoverrecord = false) (hk : 0 < s.overrecordseconds)
    (hnow : t.now > s.recordEndTime)
    (hask : s.recordPending = true → s.pendingRecording ≠ none) :
    (∃ s', RunTV_iteration b t s = .ok (s', false) ∧
      s'.recordEndTime = s.recordEndTime + s.overrecordseconds ∧ s'.inoverrecord = true ∧
      s'.changeState = false ∧ s'.desiredNextState = s.desiredNextState ∧
      s'.internalState = kState_RecordingOnly) ∧
    extensions s0 (recordingRun b sched s0) ≤ 1 ∧
    (∀ (t1 : Tick) (s1 s2 : TVRec), s1.internalState = kState_RecordingOnly →
      eventThreadStep b t1 s1 = .ok s2 → s1.inoverrecord = true →
      s2.recordEndTime = s1.recordEndTime ∧
      (s2.inoverrecord = false → s2.internalState = kState_None)) ∧
    (∀ (t1 : Tick) (s1 : TVRec), s1.internalState = kState_RecordingOnly →
      (s1.recordPending = true → s1.pendingRecording ≠ none) →
      ∃ s2, eventThreadStep b t1 s1 = .ok s2) := by
  refine ⟨RunTV_iteration_extends b t s hstate hok hin hk hnow hask, ?_, ?_, ?_⟩
  · have := extensions_recordingRun_le b sched s0
    split at this <;> omega
  · intro t1 s1 s2 hi hstep hin1
    obtain ⟨-, -, -, hext, hkeep⟩ := eventThreadStep_while_recording b t1 s1 s2 hi hstep
    refine ⟨?_, hkeep hin1⟩
    by_contra hne
    have := (hext hne).1
    rw [hin1] at this
    cases this
  · intro t1 s1 hi hask1
    exact eventThreadStep_recording_returns b t1 s1 hi hask1

/-- The statement of C10 at a recording that ends at second 1000 and has a
minute of overrun: the iteration at second 1001 extends it to 1060, and a run
of six iterations that reaches past second 1060 extends it once. -/
theorem overrecord_extends_once_witness :
    GetState sampleRecordingOverrun = kState_RecordingOnly ∧
    IsErrored sampleRecordingOverrun = false ∧
    sampleRecordingOverrun.inoverrecord = false ∧
    0 < sampleRecordingOverrun.overrecordseconds ∧
    (sampleTick 1001 1).now > sampleRecordingOverrun.recordEndTime ∧
    (∃ s', RunTV_iteration sampleBuild (sampleTick 1001 1) sampleRecordingOverrun = .ok (s', false) ∧
      s'.recordEndTime = sampleRecordingOverrun.recordEndTime +
        sampleRecordingOverrun.overrecordseconds ∧
      s'.inoverrecord = true ∧ s'.changeState = false ∧
      s'.desiredNextState = sampleRecordingOverrun.desiredNextState ∧
      s'.internalState = kState_RecordingOnly) ∧
    extensions sampleRecordingOverrun
      (recordingRun sampleBuild
        [sampleTick 999 1, sampleTick 1001 1, sampleTick 1002 1, sampleTick 1061 1,
         sampleTick 1062 1, sampleTick 1063 1] sampleRecordingOverrun) ≤ 1 ∧
    extensions sampleRecordingOverrun
      (recordingRun sampleBuild
        [sampleTick 999 1, sampleTick 1001 1, sampleTick 1002 1, sampleTick 1061 1,
         sampleTick 1062 1, sampleTick 1063 1] sampleRecordingOverrun) = 1 :=
  ⟨rfl, rfl, rfl, by decide, by decide,
    (overrecord_extends_once sampleBuild (sampleTick 1001 1) sampleRecordingOverrun
      [sampleTick 999 1, sampleTick 1001 1, sampleTick 1002 1, sampleTick 1061 1,
       sampleTick 1062 1, sampleTick 1063 1] sampleRecordingOverrun
      rfl rfl rfl (by decide) (by decide) (fun h => by cases h)).1,
    (overrecord_extends_once sampleBuild (sampleTick 1001 1) sampleRecordingOverrun
      [sampleTick 999 1, sampleTick 1001 1, sampleTick 1002 1, sampleTick 1061 1,
       sampleTick 1062 1, sampleTick 1063 1] sampleRecordingOverrun
      rfl rfl rfl (by decide) (by decide) (fun h => by cases h)).2.1,
    by decide⟩

/-! ## `StartRecording` -/

/-- With no overrun to end and no state change pending, `StartRecording` goes
straight to the live-viewer check. -/
theorem StartRecording_no_wait (b : Build) (sched : List Tick) (rcinfo : ProgramInfo)
    (s : TVRec) (hio : s.inoverrecord = false) (hcs : s.changeState = false) :
    StartRecording b sched rcinfo s =
      (evictIfLive b ({ s with recordPending := false, askAllowRecording := false }, sched)).bind
        (fun r => .ok ((beginRecording rcinfo r.1).1, (beginRecording rcinfo r.1).2, r.2)) := by
  unfold StartRecording
  dsimp only
  have h1 : waitOverrecordEnd b
      ({ s with recordPending := false, askAllowRecording := false }, sched) =
      .ok ({ s with recordPending := false, askAllowRecording := false }, sched) := by
    unfold waitOverrecordEnd
    dsimp only
    rw [if_neg (by rw [hio]; decide)]
  have h2 : waitPendingChange b
      ({ s with recordPending := false, askAllowRecording := false }, sched) =
      .ok ({ s with recordPending := false, askAllowRecording := false }, sched) := by
    unfold waitPendingChange
    dsimp only
    rw [if_neg (by rw [hcs]; decide)]
  rw [h1]
  show ((waitPendingChange b
      ({ s with recordPending := false, askAllowRecording := false }, sched)).bind
        (evictIfLive b)).bind _ = _
  rw [h2]
  rfl

/-- With a live viewer to evict and nothing else to wait for, `StartRecording`
returns `beginRecording` of a coordinator reached within 25 seconds of
event-loop iterations, in which only tear-down work is pending. -/
theorem StartRecording_live_core (b : Build) (sched : List Tick)
    (rcinfo : ProgramInfo) (s : TVRec)
    (hi : s.internalState = kState_WatchingLiveTV) (hc : s.cancelNextRecording = false)
    (hio : s.inoverrecord = false) (hcs : s.changeState = false) :
    ∃ s3 rest used,
      StartRecording b sched rcinfo s =
        .ok ((beginRecording rcinfo s3).1, (beginRecording rcinfo s3).2, rest) ∧
      TeardownOnly s3 ∧ s3.cancelNextRecording = false ∧
      Event.dispatch_QUIT_LIVETV s.m_capturecardnum ∈ s3.events ∧
      sched = used ++ rest ∧ duration used ≤ 25000 := by
  rw [StartRecording_no_wait b sched rcinfo s hio hcs]
  have hev : evictIfLive b ({ s with recordPending := false, askAllowRecording := false }, sched) =
      evictLiveTV b sched { s with recordPending := false, askAllowRecording := false } := by
    unfold evictIfLive
    dsimp only
    rw [if_pos (by rw [hi, hc]; decide)]
  rw [hev]
  obtain ⟨s3, rest, used, hrun, ⟨hQ, hc3, hq3⟩, hsplit, htime⟩ :=
    evictLiveTV_total b
      (fun x => TeardownOnly x ∧ x.cancelNextRecording = false ∧
        Event.dispatch_QUIT_LIVETV s.m_capturecardnum ∈ x.events)
      (fun t x hx => by
        obtain ⟨x', h1, h2, h3, h4⟩ := eventThreadStep_teardownOnly b t x hx.1
        refine ⟨x', h1, h2, ?_, h4 _ hx.2.2⟩
        cases hcx : x'.cancelNextRecording
        · rfl
        · have := h3 hcx
          rw [hx.2.1] at this
          cases this)
      (fun x e hx => ⟨hx.1, hx.2.1, by simp [TVRec.emit, hx.2.2]⟩)
      (fun x hx => hx)
      sched { s with recordPending := false, askAllowRecording := false }
      ⟨⟨rfl, fun h => by rw [show _ = s.changeState from rfl, hcs] at h; cases h⟩, hc,
        by simp [TVRec.emit]⟩
  rw [hrun]
  exact ⟨s3, rest, used, rfl, hQ, hc3, hq3, hsplit, htime⟩

/-- What `StartRecording` returns in terms of the coordinator `s3` that its
waits have reached. -/
theorem beginRecording_result (rcinfo : ProgramInfo) (s3 : TVRec) :
    ((beginRecording rcinfo s3).1 = 1 ∨ (beginRecording rcinfo s3).1 = -1 ∨
      (beginRecording rcinfo s3).1 = 0) ∧
    ((beginRecording rcinfo s3).1 = 1 ↔ (beginRecording rcinfo s3).2.internalState = kState_None) ∧
    ((beginRecording rcinfo s3).1 = -1 ↔
      (beginRecording rcinfo s3).2.internalState ≠ kState_None ∧
        s3.cancelNextRecording = false) ∧
    ((beginRecording rcinfo s3).1 = 0 ↔
      (beginRecording rcinfo s3).2.internalState ≠ kState_None ∧
        s3.cancelNextRecording = true) ∧
    ((beginRecording rcinfo s3).1 = 1 →
      (beginRecording rcinfo s3).2.curRecording = some rcinfo ∧
      (beginRecording rcinfo s3).2.recordEndTime = rcinfo.recendts ∧
      (beginRecording rcinfo s3).2.desiredNextState = kState_RecordingOnly ∧
      (beginRecording rcinfo s3).2.changeState = true) ∧
    (beginRecording rcinfo s3).2.cancelNextRecording = false ∧
    (beginRecording rcinfo s3).2.recordPending = s3.recordPending ∧
    (beginRecording rcinfo s3).2.askAllowRecording = s3.askAllowRecording ∧
    (beginRecording rcinfo s3).2.internalState = s3.internalState := by
  have hfr : (beginRecording rcinfo s3).2.cancelNextRecording = false ∧
      (beginRecording rcinfo s3).2.recordPending = s3.recordPending ∧
      (beginRecording rcinfo s3).2.askAllowRecording = s3.askAllowRecording ∧
      (beginRecording rcinfo s3).2.internalState = s3.internalState := by
    rw [beginRecording_eq]
    exact ⟨rfl, rfl, rfl, rfl⟩
  by_cases h3 : s3.internalState = kState_None
  · obtain ⟨h1, h2, h4, h5, -, h6, h7⟩ := beginRecording_idle rcinfo s3 h3
    refine ⟨Or.inl h1, ⟨fun _ => h2, fun _ => h1⟩, ?_, ?_, fun _ => ⟨h4, h5, h6, h7⟩, hfr⟩
    · rw [h1, h2]
      exact ⟨fun h => (by cases h), fun h => absurd rfl h.1⟩
    · rw [h1, h2]
      exact ⟨fun h => (by cases h), fun h => absurd rfl h.1⟩
  · obtain ⟨h1, h2⟩ := beginRecording_busy rcinfo s3 h3
    have hi2 : (beginRecording rcinfo s3).2.internalState ≠ kState_None := by
      rw [h2]; exact h3
    cases hcn : s3.cancelNextRecording
    · rw [hcn] at h1
      have h1' : (beginRecording rcinfo s3).1 = -1 := h1
      refine ⟨Or.inr (Or.inl h1'), ?_, ?_, ?_, ?_, hfr⟩
      · rw [h1']
        exact ⟨fun h => (by cases h), fun h => absurd h hi2⟩
      · rw [h1']
        exact ⟨fun _ => ⟨hi2, rfl⟩, fun _ => rfl⟩
      · rw [h1']
        exact ⟨fun h => (by cases h), fun h => by cases h.2⟩
      · rw [h1']
        intro h; cases h
    · rw [hcn] at h1
      have h1' : (beginRecording rcinfo s3).1 = 0 := h1
      refine ⟨Or.inr (Or.inr h1'), ?_, ?_, ?_, ?_, hfr⟩
      · rw [h1']
        exact ⟨fun h => (by cases h), fun h => absurd h hi2⟩
      · rw [h1']
        exact ⟨fun h => (by cases h), fun h => by cases h.2⟩
      · rw [h1']
        exact ⟨fun _ => ⟨hi2, rfl⟩, fun _ => rfl⟩
      · rw [h1']
        intro h; cases h

/-- Claim C9, as amended. `StartRecording` returns +1 exactly when, after any
live-view eviction, `internalState` is None (it has then set `curRecording` to
the descriptor, `recordEndTime` to its end time and posted
`ChangeState(kState_RecordingOnly)`), -1 exactly when `internalState` is not
None and `cancelNextRecording` is false, and 0 exactly when `internalState` is
not None and `cancelNextRecording` is true; on return `cancelNextRecording` and
`recordPending` are false.  `askAllowRecording` is false on return when the
call had nothing to wait for (no overrun to end, no pending state change, no
live viewer to evict); nothing is promised for it when the event loop runs
during the call.  The first part is for a call that finds no overrun to end
and no state change pending, which always returns; the second part is for
every call that returns. -/
theorem StartRecording_return_value (b : Build) (sched : List Tick) (rcinfo : ProgramInfo)
    (s : TVRec) (hio : s.inoverrecord = false) (hcs : s.changeState = false) :
    (∃ r s' rest, StartRecording b sched rcinfo s = .ok (r, s', rest) ∧
      (r = 1 ↔ s'.internalState = kState_None) ∧
      (r = -1 ↔ s'.internalState ≠ kState_None ∧ s.cancelNextRecording = false) ∧
      (r = 0 ↔ s'.internalState ≠ kState_None ∧ s.cancelNextRecording = true) ∧
      (r = 1 → s'.curRecording = some rcinfo ∧ s'.recordEndTime = rcinfo.recendts ∧
        s'.desiredNextState = kState_RecordingOnly ∧ s'.changeState = true) ∧
      s'.cancelNextRecording = false ∧ s'.recordPending = false ∧
      (¬(s.internalState = kState_WatchingLiveTV ∧ s.cancelNextRecording = false) →
        s'.askAllowRecording = false ∧ rest = sched)) ∧
    (∀ (sched1 : List Tick) (s1 : TVRec) (r : Int) (s' : TVRec) (rest : List Tick),
      StartRecording b sched1 rcinfo s1 = .ok (r, s', rest) →
      (r = 1 ∨ r = -1 ∨ r = 0) ∧
      (r = 1 ↔ s'.internalState = kState_None) ∧
      (r = 1 → s'.curRecording = some rcinfo ∧ s'.recordEndTime = rcinfo.recendts ∧
        s'.desiredNextState = kState_RecordingOnly ∧ s'.changeState = true) ∧
      (r = 0 → s1.cancelNextRecording = true) ∧
      s'.cancelNextRecording = false ∧ s'.recordPending = false) := by
  constructor
  · by_cases hlive : s.internalState = kState_WatchingLiveTV ∧ s.cancelNextRecording = false
    · obtain ⟨s3, rest, used, hrun, hQ, hc3, -, -, -⟩ :=
        StartRecording_live_core b sched rcinfo s hlive.1 hlive.2 hio hcs
      obtain ⟨-, h1, h2, h3, h4, h5, h6, -, -⟩ := beginRecording_result rcinfo s3
      rw [hc3] at h2 h3
      rw [hlive.2]
      exact ⟨_, _, rest, hrun, h1, h2, h3, h4, h5, h6.trans hQ.1, fun h => absurd ⟨hlive.1, rfl⟩ h⟩
    · rw [StartRecording_no_wait b sched rcinfo s hio hcs]
      have hev : evictIfLive b
          ({ s with recordPending := false, askAllowRecording := false }, sched) =
          .ok ({ s with recordPending := false, askAllowRecording := false }, sched) := by
        unfold evictIfLive
        dsimp only
        rw [if_neg]
        intro h
        apply hlive
        simpa using h
      rw [hev]
      obtain ⟨-, h1, h2, h3, h4, h5, h6, h7, -⟩ := beginRecording_result rcinfo
        { s with recordPending := false, askAllowRecording := false }
      exact ⟨_, _, sched, rfl, h1, h2, h3, h4, h5, h6, fun _ => ⟨h7, rfl⟩⟩
  · intro sched1 s1 r s' rest hrun
    obtain ⟨s3, ⟨hP1, hP2⟩, hr, hs'⟩ := StartRecording_decompose b
      (fun x => x.recordPending = false ∧
        (x.cancelNextRecording = true → s1.cancelNextRecording = true))
      (fun t x x' hx hstep => by
        obtain ⟨h1, h2⟩ := eventThreadStep_frame b t x x' hstep
        exact ⟨h1.trans hx.1, fun h => hx.2 (h2 h)⟩)
      (fun x e hx => hx) (fun x hx => hx) (fun x hx => hx)
      sched1 rcinfo s1 s' r rest ⟨rfl, fun h => h⟩ hrun
    obtain ⟨h0, h1, -, h3, h4, h5, h6, -, -⟩ := beginRecording_result rcinfo s3
    rw [hr, hs']
    exact ⟨h0, h1, h4, fun h => hP2 (h3.mp h).2, h5, h6.trans hP1⟩

/-- The statement of C9 (as amended) for a call on an idle coordinator. -/
theorem StartRecording_return_value_witness :
    sampleIdle.inoverrecord = false ∧ sampleIdle.changeState = false ∧
    StartRecording sampleBuild [] sampleProgram sampleIdle = .ok (1, sampleRequested, []) ∧
    (∃ r s' rest, StartRecording sampleBuild [] sampleProgram sampleIdle = .ok (r, s', rest) ∧
      (r = 1 ↔ s'.internalState = kState_None) ∧
      (r = -1 ↔ s'.internalState ≠ kState_None ∧ sampleIdle.cancelNextRecording = false) ∧
      (r = 0 ↔ s'.internalState ≠ kState_None ∧ sampleIdle.cancelNextRecording = true) ∧
      (r = 1 → s'.curRecording = some sampleProgram ∧
        s'.recordEndTime = sampleProgram.recendts ∧
        s'.desiredNextState = kState_RecordingOnly ∧ s'.changeState = true) ∧
      s'.cancelNextRecording = false ∧ s'.recordPending = false ∧
      (¬(sampleIdle.internalState = kState_WatchingLiveTV ∧
          sampleIdle.cancelNextRecording = false) →
        s'.askAllowRecording = false ∧ rest = [])) :=
  ⟨rfl, rfl, rfl,
    (StartRecording_return_value sampleBuild [] sampleProgram sampleIdle rfl rfl).1⟩

/-- Claim C9, counterexample: the claim as stated fails.  A recording in its overrun is to be
replaced: `StartRecording` posts `ChangeState(kState_None)` and waits; the
event loop handles the request, and `HandleStateChange` sets
`askAllowRecording`.  `StartRecording` then returns 1 with `askAllowRecording`
true, not false. -/
theorem StartRecording_leaves_askAllowRecording_set :
    ∃ s', StartRecording sampleBuild [sampleTick 1000 1] sampleProgram sampleOverrecording =
        .ok (1, s', []) ∧
      s'.askAllowRecording = true ∧ s'.askAllowRecording ≠ false ∧
      s'.recordPending = false ∧ s'.cancelNextRecording = false :=
  ⟨_, rfl, rfl, by decide, rfl, rfl⟩

/-! ## The end of a recording -/

theorem GetState_recording (s : TVRec) (hstate : GetState s = kState_RecordingOnly) :
    s.changeState = false ∧ s.internalState = kState_RecordingOnly := by
  unfold GetState at hstate
  cases h : s.changeState
  · rw [h] at hstate
    exact ⟨rfl, by simpa using hstate⟩
  · rw [h] at hstate; simp at hstate

theorem checkExitPlayer_recording (x : TVRec) (hx : x.internalState = kState_RecordingOnly) :
    checkExitPlayer x = { x with exitPlayer := false } := by
  unfold checkExitPlayer
  by_cases he : x.exitPlayer = true
  · rw [if_pos he]
    dsimp only
    rw [if_neg (by rw [hx]; decide), if_neg (by rw [hx]; decide)]
  · rw [if_neg he]
    have : x.exitPlayer = false := by simpa using he
    rw [← this]

theorem RunTV_iteration_recording (b : Build) (t : Tick) (s : TVRec)
    (hstate : GetState s = kState_RecordingOnly)
    (hok : IsErrored s = false)
    (hask : s.recordPending = true → s.pendingRecording ≠ none) :
    ∃ s2, askPendingRecording t s = .ok s2 ∧
      s2 = { s with askAllowRecording := s2.askAllowRecording, events := s2.events } ∧
      RunTV_iteration b t s = .ok ({ checkRecordingEnd t s2 with exitPlayer := false }, false) := by
  obtain ⟨hcs, hi⟩ := GetState_recording s hstate
  obtain ⟨s2, hs2⟩ : ∃ s2, askPendingRecording t s = .ok s2 := by
    unfold askPendingRecording
    split
    · rename_i hc
      simp only [Bool.and_eq_true] at hc
      cases hp : s.pendingRecording with
      | none => exact absurd hp (hask hc.1.1)
      | some p => exact ⟨_, rfl⟩
    · exact ⟨_, rfl⟩
  have h2 := askPendingRecording_frame t s s2 hs2
  have h2i : s2.internalState = kState_RecordingOnly := by rw [h2]; exact hi
  refine ⟨s2, hs2, h2, ?_⟩
  have hci : (checkRecordingEnd t s2).internalState = kState_RecordingOnly := by
    rw [checkRecordingEnd_eq]; exact h2i
  unfold RunTV_iteration
  rw [hcs]
  simp only [Bool.false_eq_true, if_false, hok, hs2]
  rw [checkExitPlayer_recording _ hci]

/-- Claim C11. In state RecordingOnly (as `GetState` reports it), an event-loop
iteration at which the wall clock is past `recordEndTime` and either
`inoverrecord` is already true or `overrecordseconds <= 0` returns with
`ChangeState(kState_None)` posted (`desiredNextState` None, `changeState` true)
and `recordEndTime` unchanged; an iteration at which the clock is not past
`recordEndTime` and no finish was requested posts nothing and changes neither
`recordEndTime` nor `inoverrecord`. -/
theorem RunTV_iteration_requests_end_of_recording (b : Build) (t : Tick) (s : TVRec)
    (hstate : GetState s = kState_RecordingOnly)
    (hok : IsErrored s = false)
    (hask : s.recordPending = true → s.pendingRecording ≠ none) :
    (t.now > s.recordEndTime → (s.inoverrecord = true ∨ s.overrecordseconds ≤ 0) →
      ∃ s', RunTV_iteration b t s = .ok (s', false) ∧
        s'.desiredNextState = kState_None ∧ s'.changeState = true ∧
        s'.recordEndTime = s.recordEndTime ∧ s'.inoverrecord = s.inoverrecord ∧
        s'.internalState = kState_RecordingOnly) ∧
    (¬ t.now > s.recordEndTime → s.finishRecording = false →
      ∃ s', RunTV_iteration b t s = .ok (s', false) ∧
        s'.changeState = false ∧ s'.desiredNextState = s.desiredNextState ∧
        s'.recordEndTime = s.recordEndTime ∧ s'.inoverrecord = s.inoverrecord ∧
        s'.internalState = kState_RecordingOnly) := by
  obtain ⟨hcs, hi⟩ := GetState_recording s hstate
  obtain ⟨s2, -, h2, hrun⟩ := RunTV_iteration_recording b t s hstate hok hask
  have h2i : s2.internalState = kState_RecordingOnly := by rw [h2]; exact hi
  have h2o : s2.inoverrecord = s.inoverrecord := by rw [h2]
  have h2r : s2.recordEndTime = s.recordEndTime := by rw [h2]
  have h2v : s2.overrecordseconds = s.overrecordseconds := by rw [h2]
  have h2c : s2.changeState = false := by rw [h2]; exact hcs
  have h2d : s2.desiredNextState = s.desiredNextState := by rw [h2]
  have h2f : s2.finishRecording = s.finishRecording := by rw [h2]
  have h1 : StateIsRecording s2.internalState = true := by rw [h2i]; rfl
  constructor
  · intro hnow hover
    have hce : checkRecordingEnd t s2 =
        { s2 with desiredNextState := kState_None, changeState := true,
                  finishRecording := false } := by
      unfold checkRecordingEnd
      have h3 : (decide (t.now > s2.recordEndTime) || s2.finishRecording) = true := by
        rw [h2r]; simp [hnow]
      have h4 : ¬ ((!s2.inoverrecord && decide (s2.overrecordseconds > 0)) = true) := by
        rw [h2o, h2v]
        rcases hover with h | h
        · simp [h]
        · simp only [Bool.and_eq_true, Bool.not_eq_true', decide_eq_true_eq, not_and]
          intro _; omega
      rw [if_pos h1, if_pos h3]
      dsimp only
      have hrr : RemoveRecording s2.internalState = kState_None := by rw [h2i]; decide
      rw [if_neg h4, hrr]
      rfl
    rw [hce] at hrun
    exact ⟨_, hrun, rfl, rfl, h2r, h2o, h2i⟩
  · intro hnow hfin
    have hce : checkRecordingEnd t s2 = s2 := by
      unfold checkRecordingEnd
      have h3 : ¬ ((decide (t.now > s2.recordEndTime) || s2.finishRecording) = true) := by
        rw [h2r, h2f, hfin]; simp [hnow]
      rw [if_pos h1, if_neg h3]
    rw [hce] at hrun
    exact ⟨_, hrun, h2c, h2d, h2r, h2o, h2i⟩

/-- The statement of C11 at a recording that has used up its minute of overrun
(it ends at second 1060): the iteration at second 1061 posts the request for
None, and the iteration at second 1059 posts nothing. -/
theorem RunTV_iteration_requests_end_of_recording_witness :
    GetState sampleOverrecording = kState_RecordingOnly ∧
    IsErrored sampleOverrecording = false ∧
    (∃ s', RunTV_iteration sampleBuild (sampleTick 1061 1) sampleOverrecording = .ok (s', false) ∧
        s'.desiredNextState = kState_None ∧ s'.changeState = true ∧
        s'.recordEndTime = sampleOverrecording.recordEndTime ∧
        s'.inoverrecord = sampleOverrecording.inoverrecord ∧
        s'.internalState = kState_RecordingOnly) ∧
    (∃ s', RunTV_iteration sampleBuild (sampleTick 1059 1) sampleOverrecording = .ok (s', false) ∧
        s'.changeState = false ∧
        s'.desiredNextState = sampleOverrecording.desiredNextState ∧
        s'.recordEndTime = sampleOverrecording.recordEndTime ∧
        s'.inoverrecord = sampleOverrecording.inoverrecord ∧
        s'.internalState = kState_RecordingOnly) :=
  ⟨rfl, rfl,
    (RunTV_iteration_requests_end_of_recording sampleBuild (sampleTick 1061 1)
      sampleOverrecording rfl rfl (fun h => by cases h)).1 (by decide) (Or.inl rfl),
    (RunTV_iteration_requests_end_of_recording sampleBuild (sampleTick 1059 1)
      sampleOverrecording rfl rfl (fun h => by cases h)).2 (by decide) rfl⟩

/-! ## Signal monitoring -/

theorem TeardownSignalMonitor_spec (b : Build) (s : TVRec)
    (hrec : s.internalState = kState_WatchingLiveTV → s.recorder ≠ none) :
    ∃ s', TeardownSignalMonitor b s = .ok s' ∧ s'.signalMonitor = none ∧
      s'.internalState = s.internalState ∧ s'.recorder = s.recorder ∧
      (s.signalMonitor = none → monitorsDeleted s' = monitorsDeleted s) := by
  unfold TeardownSignalMonitor
  cases hm : s.signalMonitor with
  | none =>
    dsimp only
    split
    · rename_i hc
      simp only [Bool.and_eq_true, beq_iff_eq] at hc
      have hi : s.internalState = kState_WatchingLiveTV := by
        have := hc.1.2
        unfold GetState at this
        split at this
        · cases this
        · exact this
      cases hr : s.recorder with
      | none => exact absurd hr (hrec hi)
      | some r =>
        refine ⟨_, rfl, hm, rfl, hr, fun _ => ?_⟩
        simp [monitorsDeleted, TVRec.emit]
    · exact ⟨_, rfl, hm, rfl, rfl, fun _ => rfl⟩
  | some m =>
    dsimp only
    split
    · rename_i hc
      simp only [Bool.and_eq_true, beq_iff_eq] at hc
      have hi : s.internalState = kState_WatchingLiveTV := by
        have := hc.1.2
        unfold GetState at this
        split at this
        · cases this
        · exact this
      cases hr : s.recorder with
      | none => exact absurd hr (hrec hi)
      | some r =>
        simp only [TVRec.emit, hr]
        exact ⟨_, rfl, rfl, rfl, rfl, fun h => by cases h⟩
    · exact ⟨_, rfl, rfl, rfl, rfl, fun h => by cases h⟩

theorem SetupSignalMonitor_existing (b : Build) (env : MonitorEnv) (s : TVRec) (m : SignalMonitor)
    (hm : s.signalMonitor = some m) : SetupSignalMonitor b env s = s := by
  unfold SetupSignalMonitor
  rw [hm]

theorem SetupSignalMonitor_creates (b : Build) (env : MonitorEnv) (s : TVRec)
    (hm : s.signalMonitor = none) :
    monitorsCreated (SetupSignalMonitor b env s) ≤ monitorsCreated s + 1 ∧
    ((SetupSignalMonitor b env s).signalMonitor = none →
      monitorsCreated (SetupSignalMonitor b env s) = monitorsCreated s) ∧
    monitorsDeleted (SetupSignalMonitor b env s) = monitorsDeleted s := by
  unfold SetupSignalMonitor
  rw [hm]
  dsimp only
  by_cases hc : s.channel = true
  · rw [if_neg (by simp [hc])]
    by_cases hs : (env.isSupported && env.channelOpens) = true
    · rw [if_pos hs]
      cases hmon : env.monitor with
      | none =>
        cases hr : s.recorder with
        | none => cases b.USING_DVB <;> simp [monitorsCreated, monitorsDeleted, TVRec.emit]
        | some r =>
          by_cases hk : r.kind = RecorderKind.DVBRecorder <;> cases b.USING_DVB <;>
            simp [monitorsCreated, monitorsDeleted, TVRec.emit, hk]
      | some mon =>
        cases hr : s.recorder with
        | none => cases b.USING_DVB <;> simp [monitorsCreated, monitorsDeleted, TVRec.emit]
        | some r =>
          by_cases hk : r.kind = RecorderKind.DVBRecorder <;> cases b.USING_DVB <;>
            simp [monitorsCreated, monitorsDeleted, TVRec.emit, hk]
    · rw [if_neg hs, hm]
      exact ⟨Nat.le_succ _, fun _ => rfl, rfl⟩
  · rw [if_pos (by simpa using hc)]
    exact ⟨Nat.le_succ _, fun _ => rfl, rfl⟩

theorem SetSignalMonitoringRate_reuses (b : Build) (env : MonitorEnv) (rate nf : Int) (s : TVRec)
    (m : SignalMonitor) (hrate : 0 < rate) (hm : s.signalMonitor = some m) :
    ∃ m', SetSignalMonitoringRate b env rate nf s =
        .ok (m.updateRate, { s with signalMonitor := some m' }) ∧
      m'.updateRate = rate ∧ m'.isDTV = m.isDTV ∧ m'.running = m.running ∧
      (0 ≤ nf → m'.notifyFrontend = (nf != 0)) := by
  unfold SetSignalMonitoringRate
  dsimp only
  rw [if_neg (by omega), if_neg (by omega), SetupSignalMonitor_existing b env s m hm, hm]
  dsimp only
  by_cases hn : nf ≥ 0
  · rw [if_pos hn]
    exact ⟨_, rfl, rfl, rfl, rfl, fun _ => rfl⟩
  · rw [if_neg hn]
    by_cases ho : m.updateRate = 0
    · rw [if_pos ho]
      exact ⟨_, rfl, rfl, rfl, rfl, fun h => absurd h hn⟩
    · rw [if_neg ho]
      exact ⟨_, rfl, rfl, rfl, rfl, fun h => absurd h hn⟩

theorem SetSignalMonitoringRate_positive (b : Build) (env : MonitorEnv) (rate nf : Int)
    (s : TVRec) (hrate : 0 < rate) :
    ∃ r s', SetSignalMonitoringRate b env rate nf s = .ok (r, s') ∧
      monitorsCreated s' ≤ monitorsCreated s + 1 ∧
      (s.signalMonitor ≠ none → monitorsCreated s' = monitorsCreated s) ∧
      (s'.signalMonitor = none → monitorsCreated s' = monitorsCreated s) ∧
      monitorsDeleted s' = monitorsDeleted s := by
  cases hm : s.signalMonitor with
  | some m =>
    obtain ⟨m', hrun, -⟩ := SetSignalMonitoringRate_reuses b env rate nf s m hrate hm
    exact ⟨_, _, hrun, Nat.le_succ _, fun _ => rfl, fun _ => rfl, rfl⟩
  | none =>
    obtain ⟨h1, h2, h3⟩ := SetupSignalMonitor_creates b env s hm
    unfold SetSignalMonitoringRate
    dsimp only
    rw [if_neg (by omega), if_neg (by omega), hm]
    dsimp only
    cases hs : (SetupSignalMonitor b env s).signalMonitor with
    | none =>
      dsimp only
      refine ⟨_, _, rfl, ?_, fun h => absurd rfl h, fun _ => ?_, ?_⟩
      · simp only [monitorsCreated, TVRec.emit] at h1 ⊢
        simpa using h1
      · have := h2 hs
        simp only [monitorsCreated, TVRec.emit] at this ⊢
        simpa using this
      · simp only [monitorsDeleted, TVRec.emit] at h3 ⊢
        simpa using h3
    | some m1 =>
      dsimp only
      exact ⟨_, _, rfl, h1, fun h => absurd rfl h, fun h => (by cases h), h3⟩

theorem SetSignalMonitoringRate_zero (b : Build) (env : MonitorEnv) (nf : Int) (s : TVRec)
    (hrec : s.internalState = kState_WatchingLiveTV → s.recorder ≠ none) :
    ∃ r s', SetSignalMonitoringRate b env 0 nf s = .ok (r, s') ∧ s'.signalMonitor = none ∧
      s'.internalState = s.internalState ∧ s'.recorder = s.recorder ∧
      (s.signalMonitor = none → r = 0 ∧ monitorsDeleted s' = monitorsDeleted s) := by
  obtain ⟨s', hrun, h1, h2, h3, h4⟩ := TeardownSignalMonitor_spec b s hrec
  unfold SetSignalMonitoringRate
  dsimp only
  rw [if_pos rfl, hrun]
  refine ⟨_, _, rfl, h1, h2, h3, fun h => ⟨?_, h4 h⟩⟩
  rw [h]

/-- Claim C12. `SetSignalMonitoringRate` is idempotent with respect to the
existence of the monitor.  Called with rate 0 twice in a row, it leaves
`signalMonitor` null after each call and the second call deletes nothing (and
returns the old rate 0).  Called with a rate above 0 twice in a row, it creates
at most one monitor and deletes none; when the first call leaves a monitor, the
second creates none and changes the coordinator only in that monitor, of which
it changes only the rate and the notification flag.  The calls return in every
coordinator in which a recorder exists while live TV is shown. -/
theorem SetSignalMonitoringRate_idempotent (b : Build) (env1 env2 : MonitorEnv)
    (rate1 rate2 nf1 nf2 : Int) (s : TVRec)
    (hrec : s.internalState = kState_WatchingLiveTV → s.recorder ≠ none) :
    (∃ r1 s1 s2, SetSignalMonitoringRate b env1 0 nf1 s = .ok (r1, s1) ∧
        SetSignalMonitoringRate b env2 0 nf2 s1 = .ok (0, s2) ∧
        s1.signalMonitor = none ∧ s2.signalMonitor = none ∧
        monitorsDeleted s2 = monitorsDeleted s1) ∧
    (0 < rate1 → 0 < rate2 →
      ∃ r1 s1 r2 s2, SetSignalMonitoringRate b env1 rate1 nf1 s = .ok (r1, s1) ∧
        SetSignalMonitoringRate b env2 rate2 nf2 s1 = .ok (r2, s2) ∧
        monitorsCreated s2 ≤ monitorsCreated s + 1 ∧
        monitorsDeleted s2 = monitorsDeleted s ∧
        (∀ m1, s1.signalMonitor = some m1 →
          monitorsCreated s2 = monitorsCreated s1 ∧
          ∃ m2, s2 = { s1 with signalMonitor := some m2 } ∧ m2.updateRate = rate2 ∧
            m2.isDTV = m1.isDTV ∧ m2.running = m1.running ∧ r2 = m1.updateRate)) := by
  constructor
  · obtain ⟨r1, s1, hrun1, hm1, hi1, hr1, -⟩ := SetSignalMonitoringRate_zero b env1 nf1 s hrec
    obtain ⟨r2, s2, hrun2, hm2, -, -, h2⟩ :=
      SetSignalMonitoringRate_zero b env2 nf2 s1 (by rw [hi1, hr1]; exact hrec)
    obtain ⟨hr2, hd2⟩ := h2 hm1
    subst hr2
    exact ⟨r1, s1, s2, hrun1, hrun2, hm1, hm2, hd2⟩
  · intro h1 h2
    obtain ⟨r1, s1, hrun1, hc1, hc1', hc1'', hd1⟩ :=
      SetSignalMonitoringRate_positive b env1 rate1 nf1 s h1
    obtain ⟨r2, s2, hrun2, hc2, hc2', -, hd2⟩ :=
      SetSignalMonitoringRate_positive b env2 rate2 nf2 s1 h2
    refine ⟨r1, s1, r2, s2, hrun1, hrun2, ?_, hd2.trans hd1, fun m1 hm1 => ?_⟩
    · cases hm : s1.signalMonitor with
      | none => rw [hc1'' hm] at hc2; exact hc2
      | some m1 =>
        have := hc2' (by rw [hm]; exact fun h => by cases h)
        rw [this]; exact hc1
    · obtain ⟨m2, hrun, hu, hd, hr, -⟩ :=
        SetSignalMonitoringRate_reuses b env2 rate2 nf2 s1 m1 h2 hm1
      rw [hrun] at hrun2
      simp only [Except.ok.injEq, Prod.mk.injEq] at hrun2
      refine ⟨hc2' (by rw [hm1]; exact fun h => by cases h), m2, hrun2.2.symm, hu, hd, hr,
        hrun2.1.symm⟩

/-- The statement of C12 at an idle coordinator for a DVB card: two calls with
rate 0 leave no monitor; the first call with rate 25 creates and starts a
monitor and the second call, with rate 50, keeps it and sets its rate. -/
theorem SetSignalMonitoringRate_idempotent_witness :
    (sampleDVB.internalState = kState_WatchingLiveTV → sampleDVB.recorder ≠ none) ∧
    (∃ s1, SetSignalMonitoringRate sampleBuild sampleMonitorEnv 25 1 sampleDVB = .ok (0, s1) ∧
      s1.signalMonitor = some { isDTV := true, updateRate := 25, notifyFrontend := true,
                                running := true } ∧
      monitorsCreated s1 = 1 ∧
      ∃ s2, SetSignalMonitoringRate sampleBuild sampleMonitorEnv 50 (-1) s1 = .ok (25, s2) ∧
        s2.signalMonitor = some { isDTV := true, updateRate := 50, notifyFrontend := true,
                                  running := true } ∧
        monitorsCreated s2 = 1) ∧
    (∃ r1 s1 s2, SetSignalMonitoringRate sampleBuild sampleMonitorEnv 0 1 sampleDVB = .ok (r1, s1) ∧
        SetSignalMonitoringRate sampleBuild sampleMonitorEnv 0 1 s1 = .ok (0, s2) ∧
        s1.signalMonitor = none ∧ s2.signalMonitor = none ∧
        monitorsDeleted s2 = monitorsDeleted s1) ∧
    (∃ r1 s1 r2 s2,
        SetSignalMonitoringRate sampleBuild sampleMonitorEnv 25 1 sampleDVB = .ok (r1, s1) ∧
        SetSignalMonitoringRate sampleBuild sampleMonitorEnv 50 (-1) s1 = .ok (r2, s2) ∧
        monitorsCreated s2 ≤ monitorsCreated sampleDVB + 1 ∧
        monitorsDeleted s2 = monitorsDeleted sampleDVB ∧
        (∀ m1, s1.signalMonitor = some m1 →
          monitorsCreated s2 = monitorsCreated s1 ∧
          ∃ m2, s2 = { s1 with signalMonitor := some m2 } ∧ m2.updateRate = 50 ∧
            m2.isDTV = m1.isDTV ∧ m2.running = m1.running ∧ r2 = m1.updateRate)) :=
  ⟨fun h => absurd h (by decide), ⟨_, rfl, rfl, by decide, _, rfl, rfl, by decide⟩,
    (SetSignalMonitoringRate_idempotent sampleBuild sampleMonitorEnv sampleMonitorEnv 25 50 1 1
      sampleDVB (fun h => absurd h (by decide))).1,
    (SetSignalMonitoringRate_idempotent sampleBuild sampleMonitorEnv sampleMonitorEnv 25 50 1 (-1)
      sampleDVB (fun h => absurd h (by decide))).2 (by decide) (by decide)⟩

/-! ## Process supervision: the constructors and `Fork` -/

theorem ProcessFlags_status (c : ExitCodes) (inUI : Bool) (flags : Nat) (h : MythSystem) :
    (ProcessFlags c inUI flags h).m_status = h.m_status ∧
    (ProcessFlags c inUI flags h).m_command = h.m_command ∧
    (ProcessFlags c inUI flags h).m_args = h.m_args ∧
    (ProcessFlags c inUI flags h).m_pmutex = h.m_pmutex ∧
    (ProcessFlags c inUI flags h).m_pid = h.m_pid := by
  unfold ProcessFlags
  dsimp only
  split
  · exact ⟨rfl, rfl, rfl, rfl, rfl⟩
  · unfold stdioFlags uiFlags backgroundFlags
    dsimp only
    split <;> split <;> (try split) <;> exact ⟨rfl, rfl, rfl, rfl, rfl⟩

theorem openPipe_frame (c : ExitCodes) (result : Option (Int × Int)) (h : MythSystem) :
    (openPipe c result h).2.1 = { h with m_status := (openPipe c result h).2.1.m_status } ∧
    ((openPipe c result h).2.1.m_status = h.m_status ∨
      (openPipe c result h).2.1.m_status = c.GENERIC_EXIT_NOT_OK) := by
  unfold openPipe
  cases result with
  | none => exact ⟨rfl, Or.inr rfl⟩
  | some fds => exact ⟨rfl, Or.inl rfl⟩

theorem Fork_pipes_frame (c : ExitCodes) (env : ForkEnv) (h : MythSystem) :
    (Fork_pipes c env h).2.1 = { h with m_status := (Fork_pipes c env h).2.1.m_status } := by
  rcases h with ⟨st, pid, mx, tmo, cmd, args, p0, p1, p2, b0, b1, bg, ui, bi, dd, pe, uin, uout,
    uerr, bio, sh⟩
  rcases env with ⟨a, b, d, ch⟩
  cases uin <;> cases uout <;> cases uerr <;> cases a <;> cases b <;> cases d <;> rfl

theorem Fork_succeeds (c : ExitCodes) (env : ForkEnv) (h : MythSystem) (hchild : 0 < env.child) :
    ∃ h1 calls, h.Fork c env = .ok (h1, calls) ∧
      h1.m_status = c.GENERIC_EXIT_RUNNING ∧ h1.m_pid = env.child ∧
      h1.m_pmutex = h.m_pmutex ∧ h1.m_timeout = h.m_timeout ∧
      h1.m_stdpipe0 = (Fork_pipes c env h).1.p_stdin.2 ∧
      h1.m_stdpipe1 = (Fork_pipes c env h).1.p_stdout.1 ∧
      h1.m_stdpipe2 = (Fork_pipes c env h).1.p_stderr.1 ∧
      calls = (Fork_pipes c env h).2.2 ++ [SysCall.fork env.child] ++
        ((CLOSE (Fork_pipes c env h).1.p_stdin.1).2 ++
          (CLOSE (Fork_pipes c env h).1.p_stdout.2).2 ++
          (CLOSE (Fork_pipes c env h).1.p_stderr.2).2) := by
  have hf := Fork_pipes_frame c env h
  unfold MythSystem.Fork
  dsimp only
  rw [if_neg (by omega), if_pos (by omega)]
  refine ⟨_, _, rfl, rfl, rfl, ?_, ?_, rfl, rfl, rfl, ?_⟩
  · unfold Fork_parent
    dsimp only
    rw [hf]
  · unfold Fork_parent
    dsimp only
    rw [hf]
  · unfold Fork_cleanup Fork_parent
    dsimp only
    rw [if_neg (by simp)]
    simp

theorem Fork_fails (c : ExitCodes) (env : ForkEnv) (h : MythSystem) (hchild : env.child < 0) :
    ∃ calls, h.Fork c env = .ok ({ h with m_status := c.GENERIC_EXIT_NOT_OK }, calls) := by
  have hf := Fork_pipes_frame c env h
  unfold MythSystem.Fork
  dsimp only
  rw [if_pos hchild]
  have e : ({ (Fork_pipes c env h).2.1 with m_status := c.GENERIC_EXIT_NOT_OK } : MythSystem) =
      { h with m_status := c.GENERIC_EXIT_NOT_OK } := by rw [hf]
  rw [e]
  exact ⟨_, rfl⟩

/-! ## The table -/

theorem QMap_value_insert {α : Type} (k : Int) (v : α) (m : List (Int × α)) :
    QMap.value k (QMap.insert k v m) = some v := by
  induction m with
  | nil => simp [QMap.insert, QMap.value]
  | cons e rest ih =>
    unfold QMap.insert
    by_cases h1 : k < e.1
    · rw [if_pos h1]; simp [QMap.value]
    · rw [if_neg h1]
      by_cases h2 : k = e.1
      · rw [if_pos h2]; simp [QMap.value]
      · rw [if_neg h2]
        unfold QMap.value
        rw [if_neg (fun h => h2 h.symm)]
        exact ih

theorem QMap_insert_ne_nil {α : Type} (k : Int) (v : α) (m : List (Int × α)) :
    QMap.insert k v m ≠ [] := by
  cases m with
  | nil => simp [QMap.insert]
  | cons e rest =>
    unfold QMap.insert
    split
    · simp
    · split <;> simp

theorem QMap_value_remove {α : Type} (k : Int) (m : List (Int × α)) :
    QMap.value k (QMap.remove k m) = none := by
  induction m with
  | nil => rfl
  | cons e rest ih =>
    unfold QMap.remove at ih ⊢
    by_cases h : e.1 = k
    · rw [List.filter_cons_of_neg (by simp [h])]
      exact ih
    · rw [List.filter_cons_of_pos (by simp [h])]
      unfold QMap.value
      rw [if_neg h]
      exact ih

theorem QMap_value_mem {α : Type} (k : Int) (v : α) (m : List (Int × α))
    (h : QMap.value k m = some v) : (k, v) ∈ m := by
  induction m with
  | nil => cases h
  | cons e rest ih =>
    unfold QMap.value at h
    by_cases he : e.1 = k
    · rw [if_pos he] at h
      simp only [Option.some.injEq] at h
      rw [← he, ← h]
      exact List.mem_cons_self _ _
    · rw [if_neg he] at h
      exact List.mem_cons_of_mem _ (ih h)

/-! ## Process supervision: the reaper loop -/

theorem reapChild_untracked (c : ExitCodes) (pid : Int) (status : Nat) (r : Reaper)
    (h : QMap.value pid r.proc.m_pMap = none) : reapChild c pid status r = r := by
  unfold reapChild
  rw [h]

theorem reapChild_tracked (c : ExitCodes) (pid : Int) (status : Nat) (r : Reaper) (ms : Nat)
    (h : QMap.value pid r.proc.m_pMap = some ms) :
    reapChild c pid status r =
      { proc := { (r.proc.store ms { r.proc.heap ms with m_status := classify c status }) with
                    m_pMap := QMap.remove pid r.proc.m_pMap },
        msList := r.msList ++ [ms],
        pMap := registerBuffers { r.proc.heap ms with m_status := classify c status } ms
          r.pMap } := by
  unfold reapChild
  rw [h]

theorem drain_empty (c : ExitCodes) (reports : List (Int × Nat)) (r : Reaper)
    (h : r.proc.m_pMap = []) : drain c reports r = r := by
  induction reports with
  | nil => rfl
  | cons e rest ih =>
    unfold drain
    rw [reapChild_untracked c e.1 e.2 r (by rw [h]; rfl), ih]
    split <;> rfl

theorem reap_empty (c : ExitCodes) (env : IterEnv) (s : Proc) (h : s.m_pMap = []) :
    reap c env s = .ok s := by
  unfold reap reapAndCheck
  dsimp only
  rw [drain_empty c env.reports _ h]
  dsimp only
  rw [h]
  rfl

theorem run_iteration_id (c : ExitCodes) (env : IterEnv) (s : Proc) :
    MythSystemManager.run_iteration c env s = .ok s := by
  unfold MythSystemManager.run_iteration
  by_cases h : s.m_pMap.length ≠ 0
  · rw [if_pos h]
  · rw [if_neg h]
    exact reap_empty c env s (List.length_eq_zero.mp (by simpa using h))

theorem run_id (c : ExitCodes) (envs : List IterEnv) (s : Proc) :
    MythSystemManager.run c envs s = .ok s := by
  induction envs with
  | nil => rfl
  | cons e rest ih =>
    unfold MythSystemManager.run
    rw [run_iteration_id]
    exact ih

/-! ## `Run` -/

theorem Run_register_free (p : Nat) (s : Proc) (h : (s.heap p).m_pmutex = false) :
    Run_register p s =
      .ok { heap := fun q => if q = p then { s.heap p with m_pmutex := true } else s.heap q,
            manager := s.manager,
            m_pMap := QMap.insert (s.heap p).m_pid p s.m_pMap,
            calls := s.calls } := by
  unfold Run_register
  rw [h]
  simp [MythSystemManager.append, Proc.store]

theorem Run_forked (c : ExitCodes) (env : ForkEnv) (now timeout : Int) (p : Nat) (s : Proc)
    (hchild : 0 < env.child) (hlock : (s.heap p).m_pmutex = false) :
    ∃ s', MythSystem.Run c env now timeout p s = .ok s' ∧
      (s'.heap p).m_status = c.GENERIC_EXIT_RUNNING ∧ (s'.heap p).m_pid = env.child ∧
      (s'.heap p).m_pmutex = true ∧
      (s'.heap p).m_timeout = (if timeout ≠ 0 then now + timeout else (s.heap p).m_timeout) ∧
      s'.m_pMap = QMap.insert env.child p s.m_pMap ∧ s'.manager = true ∧
      (∀ q, q ≠ p → s'.heap q = s.heap q) := by
  obtain ⟨h1, calls, hf, hst, hpid, hmx, hto, -⟩ := Fork_succeeds c env (s.heap p) hchild
  unfold MythSystem.Run Run_launch
  rw [hf]
  simp only [Except.bind]
  rw [Run_register_free]
  · refine ⟨_, rfl, ?_, ?_, ?_, ?_, ?_, rfl, ?_⟩
    · by_cases ht : timeout ≠ 0 <;> simp [ht, hst]
    · by_cases ht : timeout ≠ 0 <;> simp [ht, hpid]
    · simp
    · by_cases ht : timeout ≠ 0 <;> simp [ht, hto]
    · by_cases ht : timeout ≠ 0 <;> simp [ht, hpid]
    · intro q hq
      simp [hq]
  · by_cases ht : timeout ≠ 0 <;> simp [ht, hmx, hlock]

theorem Run_fork_failed (c : ExitCodes) (env : ForkEnv) (now timeout : Int) (p : Nat) (s : Proc)
    (hchild : env.child < 0) (hlock : (s.heap p).m_pmutex = false) :
    ∃ s', MythSystem.Run c env now timeout p s = .ok s' ∧
      (s'.heap p).m_status = c.GENERIC_EXIT_NOT_OK ∧ (s'.heap p).m_pid = (s.heap p).m_pid ∧
      (s'.heap p).m_pmutex = true ∧
      s'.m_pMap = QMap.insert (s.heap p).m_pid p s.m_pMap ∧
      (∀ q, q ≠ p → s'.heap q = s.heap q) := by
  obtain ⟨calls, hf⟩ := Fork_fails c env (s.heap p) hchild
  unfold MythSystem.Run Run_launch
  rw [hf]
  simp only [Except.bind]
  rw [Run_register_free]
  · refine ⟨_, rfl, ?_, ?_, ?_, ?_, ?_⟩
    · by_cases ht : timeout ≠ 0 <;> simp [ht]
    · by_cases ht : timeout ≠ 0 <;> simp [ht]
    · simp
    · by_cases ht : timeout ≠ 0 <;> simp [ht]
    · intro q hq
      simp [hq]
  · by_cases ht : timeout ≠ 0 <;> simp [ht, hlock]

/-! ## Signals -/

theorem killsOf_append (a b : List SysCall) : killsOf (a ++ b) = killsOf a ++ killsOf b := by
  unfold killsOf
  exact List.filterMap_append _ _ _

theorem killsOf_CLOSE (x : Int) : killsOf (CLOSE x).2 = [] := by
  unfold CLOSE
  split <;> rfl

theorem killsOf_HandlePreRun (h : MythSystem) : killsOf (HandlePreRun h) = [] := by
  unfold HandlePreRun
  cases h.m_blockinputdevs <;> cases h.m_disabledrawing <;> rfl

theorem killsOf_Fork_pipes (c : ExitCodes) (env : ForkEnv) (h : MythSystem) :
    killsOf (Fork_pipes c env h).2.2 = [] := by
  rcases h with ⟨st, pid, mx, tmo, cmd, args, p0, p1, p2, b0, b1, bg, ui, bi, dd, pe, uin, uout,
    uerr, bio, sh⟩
  rcases env with ⟨a, b, d, ch⟩
  cases uin <;> cases uout <;> cases uerr <;> cases a <;> cases b <;> cases d <;> rfl

theorem Run_register_calls (p : Nat) (s s' : Proc) (h : Run_register p s = .ok s') :
    s'.calls = s.calls := by
  unfold Run_register at h
  by_cases hm : (s.heap p).m_pmutex = true
  · rw [if_pos hm] at h
    cases h
  · rw [if_neg hm] at h
    simp only [Except.ok.injEq] at h
    rw [← h]
    rfl

theorem Run_launch_calls (c : ExitCodes) (env : ForkEnv) (now timeout : Int) (p : Nat)
    (s s1 : Proc) (h : Run_launch c env now timeout p s = .ok s1) :
    ∃ r, (s.heap p).Fork c env = .ok r ∧
      s1.calls = s.calls ++ HandlePreRun (s.heap p) ++ r.2 ++
        (if s.manager then [] else [SysCall.manager_start]) := by
  unfold Run_launch at h
  split at h
  · cases h
  · rename_i r hr
    simp only [Except.ok.injEq] at h
    rw [← h]
    exact ⟨r, hr, rfl⟩

theorem Run_forked_kills (c : ExitCodes) (env : ForkEnv) (now timeout : Int) (p : Nat) (s s' : Proc)
    (hchild : 0 < env.child) (hrun : MythSystem.Run c env now timeout p s = .ok s') :
    s'.kills = s.kills := by
  obtain ⟨h1, calls, hf, -, -, -, -, -, -, -, hcalls⟩ := Fork_succeeds c env (s.heap p) hchild
  have hk : killsOf calls = [] := by
    rw [hcalls, killsOf_append, killsOf_append, killsOf_append, killsOf_append, killsOf_CLOSE,
      killsOf_CLOSE, killsOf_CLOSE, killsOf_Fork_pipes]
    rfl
  unfold MythSystem.Run at hrun
  obtain ⟨s1, hl, hreg⟩ := Except_bind_ok _ _ _ hrun
  obtain ⟨r, hr, hc1⟩ := Run_launch_calls c env now timeout p s s1 hl
  rw [hf] at hr
  simp only [Except.ok.injEq] at hr
  subst hr
  have hc2 := Run_register_calls p s1 s' hreg
  unfold Proc.kills
  rw [hc2, hc1, killsOf_append, killsOf_append, killsOf_append, hk, killsOf_HandlePreRun]
  cases s.manager <;> simp [killsOf]

/-! ## The table in reachable process states -/

theorem QMap_insert_values {α : Type} (k : Int) (v : α) (m : List (Int × α)) (x : α)
    (h : x ∈ (QMap.insert k v m).map Prod.snd) : x = v ∨ x ∈ m.map Prod.snd := by
  induction m with
  | nil =>
    simp only [QMap.insert, List.map_cons, List.map_nil, List.mem_singleton] at h
    exact Or.inl h
  | cons e rest ih =>
    unfold QMap.insert at h
    by_cases h1 : k < e.1
    · rw [if_pos h1] at h
      simp only [List.map_cons, List.mem_cons] at h ⊢
      exact h
    · rw [if_neg h1] at h
      by_cases h2 : k = e.1
      · rw [if_pos h2] at h
        simp only [List.map_cons, List.mem_cons] at h ⊢
        rcases h with h | h
        · exact Or.inl h
        · exact Or.inr (Or.inr h)
      · rw [if_neg h2] at h
        simp only [List.map_cons, List.mem_cons] at h ⊢
        rcases h with h | h
        · exact Or.inr (Or.inl h)
        · rcases ih h with h | h
          · exact Or.inl h
          · exact Or.inr (Or.inr h)

theorem QMap_insert_values_nodup {α : Type} (k : Int) (v : α) (m : List (Int × α))
    (hn : (m.map Prod.snd).Nodup) (hv : v ∉ m.map Prod.snd) :
    ((QMap.insert k v m).map Prod.snd).Nodup := by
  induction m with
  | nil => simp [QMap.insert]
  | cons e rest ih =>
    simp only [List.map_cons, List.nodup_cons, List.mem_cons, not_or] at hn hv
    unfold QMap.insert
    by_cases h1 : k < e.1
    · rw [if_pos h1]
      simp only [List.map_cons, List.nodup_cons, List.mem_cons, not_or]
      exact ⟨⟨hv.1, hv.2⟩, hn.1, hn.2⟩
    · rw [if_neg h1]
      by_cases h2 : k = e.1
      · rw [if_pos h2]
        simp only [List.map_cons, List.nodup_cons]
        exact ⟨hv.2, hn.2⟩
      · rw [if_neg h2]
        simp only [List.map_cons, List.nodup_cons]
        refine ⟨fun hmem => ?_, ih hn.2 hv.2⟩
        rcases QMap_insert_values k v rest e.2 hmem with h | h
        · exact hv.1 h.symm
        · exact hn.1 h

theorem Run_returns_cases (c : ExitCodes) (env : ForkEnv) (now timeout : Int) (p : Nat)
    (s s' : Proc) (hrun : MythSystem.Run c env now timeout p s = .ok s') :
    (s.heap p).m_pmutex = false ∧
    s'.m_pMap = QMap.insert (s'.heap p).m_pid p s.m_pMap ∧
    (s'.heap p).m_pmutex = true ∧ (∀ q, q ≠ p → s'.heap q = s.heap q) := by
  have hlock : (s.heap p).m_pmutex = false := by
    by_contra hl
    have hl : (s.heap p).m_pmutex = true := by simpa using hl
    unfold MythSystem.Run at hrun
    obtain ⟨s1, hl1, hreg⟩ := Except_bind_ok _ _ _ hrun
    have h1 : (s1.heap p).m_pmutex = true := by
      unfold Run_launch at hl1
      split at hl1
      · cases hl1
      · rename_i r hr
        simp only [Except.ok.injEq] at hl1
        rw [← hl1]
        have hm : r.1.m_pmutex = true := by
          rcases lt_trichotomy env.child 0 with hc | hc | hc
          · obtain ⟨calls, hf⟩ := Fork_fails c env (s.heap p) hc
            rw [hf] at hr
            simp only [Except.ok.injEq] at hr
            rw [← hr]
            exact hl
          · unfold MythSystem.Fork at hr
            dsimp only at hr
            rw [if_neg (by omega), if_neg (by omega)] at hr
            cases hr
          · obtain ⟨h1, calls, hf, -, -, hmx, -⟩ := Fork_succeeds c env (s.heap p) hc
            rw [hf] at hr
            simp only [Except.ok.injEq] at hr
            rw [← hr]
            exact hmx.trans hl
        by_cases ht : timeout ≠ 0 <;> simp [ht, hm]
    unfold Run_register at hreg
    rw [if_pos h1] at hreg
    cases hreg
  refine ⟨hlock, ?_⟩
  rcases lt_trichotomy env.child 0 with hc | hc | hc
  · obtain ⟨s2, hrun2, -, hpid, hmx, hmap, hfr⟩ :=
      Run_fork_failed c env now timeout p s hc hlock
    rw [hrun2] at hrun
    simp only [Except.ok.injEq] at hrun
    subst hrun
    exact ⟨by rw [hmap, hpid], hmx, hfr⟩
  · unfold MythSystem.Run Run_launch MythSystem.Fork at hrun
    dsimp only at hrun
    rw [if_neg (by omega), if_neg (by omega)] at hrun
    cases hrun
  · obtain ⟨s2, hrun2, -, hpid, hmx, -, hmap, -, hfr⟩ :=
      Run_forked c env now timeout p s hc hlock
    rw [hrun2] at hrun
    simp only [Except.ok.injEq] at hrun
    subst hrun
    exact ⟨by rw [hmap, hpid], hmx, hfr⟩

theorem Reachable_tracked (c : ExitCodes) (s : Proc) (h : Proc.Reachable c s) :
    s.tracked.Nodup ∧ ∀ ms ∈ s.tracked, (s.heap ms).m_pmutex = true := by
  induction h with
  | start heap calls hfree => exact ⟨List.nodup_nil, fun ms hms => by cases hms⟩
  | @run s0 s1 env now timeout p _ hrun ih =>
    obtain ⟨hlock, hmap, hmx, hfr⟩ := Run_returns_cases c env now timeout p s0 s1 hrun
    have hp : p ∉ s0.tracked := by
      intro hmem
      have := ih.2 p hmem
      rw [hlock] at this
      cases this
    unfold Proc.tracked at hp ih ⊢
    rw [hmap]
    refine ⟨QMap_insert_values_nodup _ p _ ih.1 hp, fun ms hms => ?_⟩
    rcases QMap_insert_values _ p _ ms hms with h | h
    · rw [h]; exact hmx
    · have hne : ms ≠ p := fun e => hp (e ▸ h)
      rw [hfr ms hne]
      exact ih.2 ms h
  | @reaper s0 s1 env _ hrun ih =>
    rw [run_iteration_id] at hrun
    simp only [Except.ok.injEq] at hrun
    rw [← hrun]
    exact ih

theorem Reachable_consistent (c : ExitCodes) (s : Proc) (h : Proc.Reachable c s)
    (pMap : List (Int × BufRef)) :
    Reaper.Consistent { proc := s, msList := [], pMap := pMap } :=
  ⟨(Reachable_tracked c s h).1, List.nodup_nil, fun ms hms => by cases hms⟩

/-! ## The reaper loop -/

/-- Claim C13, the code.  One iteration of the reaper loop leaves the process as
it found it.  When the table is not empty the iteration ends at the test
`if( count )`, before `waitpid` is called; when the table is empty, no child
that `waitpid` reports is in it.  So a child that has terminated and whose
process id is in the table stays in the table, its termination status is not
recorded and its launch lock stays held. -/
theorem run_iteration_reaps_no_tracked_child (c : ExitCodes) (env : IterEnv) (s : Proc) :
    MythSystemManager.run_iteration c env s = .ok s ∧
    ∀ (pid : Int) (ms status : Nat), QMap.value pid s.m_pMap = some ms →
      (pid, status) ∈ env.reports →
      ∃ s', MythSystemManager.run_iteration c env s = .ok s' ∧
        QMap.value pid s'.m_pMap = some ms ∧
        (s'.heap ms).m_status = (s.heap ms).m_status ∧
        (s'.heap ms).m_pmutex = (s.heap ms).m_pmutex :=
  ⟨run_iteration_id c env s, fun _ _ _ h _ => ⟨s, run_iteration_id c env s, h, rfl, rfl⟩⟩

/-- The statement of C13 for the child 100 started by `Run` on the object at
address 0: the child has exited with code 0 and `waitpid` would report it, but
the iteration leaves it in the table with status Running and the lock held.
The body of the `waitpid` loop, had it been reached, would have taken it out of
the table, recorded the status 0 and queued it. -/
theorem run_iteration_reaps_no_tracked_child_witness :
    sampleTracking.m_pMap = [(100, 0)] ∧
    (sampleTracking.heap 0).m_status = sampleCodes.GENERIC_EXIT_RUNNING ∧
    (sampleTracking.heap 0).m_pmutex = true ∧
    MythSystemManager.run_iteration sampleCodes (sampleIter [(100, 0)] 1) sampleTracking =
      .ok sampleTracking ∧
    (reapChild sampleCodes 100 0 { proc := sampleTracking, msList := [], pMap := [] }).msList
      = [0] ∧
    (reapChild sampleCodes 100 0
      { proc := sampleTracking, msList := [], pMap := [] }).proc.m_pMap = [] ∧
    ((reapChild sampleCodes 100 0
      { proc := sampleTracking, msList := [], pMap := [] }).proc.heap 0).m_status = 0 :=
  ⟨rfl, rfl, rfl,
    (run_iteration_reaps_no_tracked_child sampleCodes (sampleIter [(100, 0)] 1)
      sampleTracking).1,
    rfl, rfl, rfl⟩

theorem wait_status_exited (code : Nat) (h : code < 256) :
    WIFEXITED (code <<< 8) = true ∧ WEXITSTATUS (code <<< 8) = code := by
  interval_cases code <;> exact ⟨rfl, rfl⟩

theorem wait_status_signalled (sig : Nat) (h1 : 1 ≤ sig) (h2 : sig ≤ 126) :
    WIFEXITED sig = false ∧ WIFSIGNALED sig = true ∧ WTERMSIG sig = sig := by
  interval_cases sig <;> exact ⟨rfl, rfl, rfl⟩

/-- The body of the `waitpid` loop (source lines 88-145) stores in the handle of
a child found in the table the value that classifies its wait status: the exit
code for a normal exit, `GENERIC_EXIT_ABORTED` for termination by signal 9,
`GENERIC_EXIT_TERMINATED` for signal 11, `GENERIC_EXIT_SIGNALLED` for any other
signal, and `GENERIC_EXIT_NOT_OK` for a status that is neither exited nor
signalled.  The wait status `code << 8` is a normal exit with code `code`, and
the wait status `sig` (1 to 126) is a termination by signal `sig`. -/
theorem reapChild_classify_body (c : ExitCodes) (pid : Int) (status : Nat) (r : Reaper) (ms : Nat)
    (h : QMap.value pid r.proc.m_pMap = some ms) :
    ((reapChild c pid status r).proc.heap ms).m_status = classify c status ∧
    (WIFEXITED status = true → classify c status = WEXITSTATUS status) ∧
    (WIFEXITED status = false → WIFSIGNALED status = true → WTERMSIG status = 9 →
      classify c status = c.GENERIC_EXIT_ABORTED) ∧
    (WIFEXITED status = false → WIFSIGNALED status = true → WTERMSIG status = 11 →
      classify c status = c.GENERIC_EXIT_TERMINATED) ∧
    (WIFEXITED status = false → WIFSIGNALED status = true → WTERMSIG status ≠ 9 →
      WTERMSIG status ≠ 11 → classify c status = c.GENERIC_EXIT_SIGNALLED) ∧
    (WIFEXITED status = false → WIFSIGNALED status = false →
      classify c status = c.GENERIC_EXIT_NOT_OK) ∧
    (∀ code, code < 256 → classify c (code <<< 8) = code) ∧
    (∀ sig, 1 ≤ sig → sig ≤ 126 →
      classify c sig =
        if sig = 9 then c.GENERIC_EXIT_ABORTED
        else if sig = 11 then c.GENERIC_EXIT_TERMINATED
        else c.GENERIC_EXIT_SIGNALLED) := by
  refine ⟨?_, ?_, ?_, ?_, ?_, ?_, ?_, ?_⟩
  · rw [reapChild_tracked c pid status r ms h]
    simp [Proc.store]
  · intro h1
    unfold classify
    rw [if_pos h1]
  · intro h1 h2 h3
    unfold classify
    rw [if_neg (by rw [h1]; decide), if_pos h2, if_pos h3]
  · intro h1 h2 h3
    unfold classify
    rw [if_neg (by rw [h1]; decide), if_pos h2, if_neg (by rw [h3]; decide), if_pos h3]
  · intro h1 h2 h3 h4
    unfold classify
    rw [if_neg (by rw [h1]; decide), if_pos h2, if_neg h3, if_neg h4]
  · intro h1 h2
    unfold classify
    rw [if_neg (by rw [h1]; decide), if_neg (by rw [h2]; decide)]
  · intro code hc
    obtain ⟨h1, h2⟩ := wait_status_exited code hc
    unfold classify
    rw [if_pos h1, h2]
  · intro sig h1 h2
    obtain ⟨h3, h4, h5⟩ := wait_status_signalled sig h1 h2
    unfold classify
    rw [if_neg (by rw [h3]; decide), if_pos h4, h5]

/-- Claim C14, the code.  After `Run` has launched a child and registered its
handle, every sequence of iterations of the reaper loop, whatever `waitpid`
reports in them, leaves the process as it was: the child stays in the table
and the status of its handle stays `GENERIC_EXIT_RUNNING`, so no wait status
whose classification differs from `GENERIC_EXIT_RUNNING` is ever recorded in
the handle: neither an exit code nor `GENERIC_EXIT_ABORTED`,
`GENERIC_EXIT_TERMINATED`, `GENERIC_EXIT_SIGNALLED` or `GENERIC_EXIT_NOT_OK`.  The
body of the `waitpid` loop would store the classification the claim describes
for a child found in the table, but the loop is entered only with the table
empty. -/
theorem run_never_classifies_tracked_child (c : ExitCodes) (env : ForkEnv) (t timeout : Int)
    (p : Nat) (s : Proc) (envs : List IterEnv)
    (hchild : 0 < env.child) (hlock : (s.heap p).m_pmutex = false) :
    (∃ s', MythSystem.Run c env t timeout p s = .ok s' ∧
      QMap.value env.child s'.m_pMap = some p ∧
      (s'.heap p).m_status = c.GENERIC_EXIT_RUNNING ∧
      MythSystemManager.run c envs s' = .ok s' ∧
      (∀ status : Nat, classify c status ≠ c.GENERIC_EXIT_RUNNING →
        ∃ s'', MythSystemManager.run c envs s' = .ok s'' ∧
          QMap.value env.child s''.m_pMap = some p ∧
          (s''.heap p).m_status ≠ classify c status) ∧
      (∀ status : Nat,
        ((reapChild c env.child status
          { proc := s', msList := [], pMap := [] }).proc.heap p).m_status =
            classify c status)) ∧
    (∀ status : Nat,
      (WIFEXITED status = true → classify c status = WEXITSTATUS status) ∧
      (WIFEXITED status = false → WIFSIGNALED status = true → WTERMSIG status = 9 →
        classify c status = c.GENERIC_EXIT_ABORTED) ∧
      (WIFEXITED status = false → WIFSIGNALED status = true → WTERMSIG status = 11 →
        classify c status = c.GENERIC_EXIT_TERMINATED) ∧
      (WIFEXITED status = false → WIFSIGNALED status = true → WTERMSIG status ≠ 9 →
        WTERMSIG status ≠ 11 → classify c status = c.GENERIC_EXIT_SIGNALLED) ∧
      (WIFEXITED status = false → WIFSIGNALED status = false →
        classify c status = c.GENERIC_EXIT_NOT_OK)) := by
  obtain ⟨s', hrun, hst, -, -, -, hmap, -, -⟩ := Run_forked c env t timeout p s hchild hlock
  have htracked : QMap.value env.child s'.m_pMap = some p := by
    rw [hmap]
    exact QMap_value_insert env.child p s.m_pMap
  refine ⟨⟨s', hrun, htracked, hst, run_id c envs s', ?_, ?_⟩, ?_⟩
  · intro status hne
    refine ⟨s', run_id c envs s', htracked, ?_⟩
    rw [hst]
    exact fun h => hne h.symm
  · intro status
    exact (reapChild_classify_body c env.child status
      { proc := s', msList := [], pMap := [] } p htracked).1
  · intro status
    obtain ⟨-, h2, h3, h4, h5, h6, -, -⟩ := reapChild_classify_body c env.child status
      { proc := { heap := s.heap, manager := s.manager, m_pMap := [(env.child, p)],
                  calls := s.calls }, msList := [], pMap := [] } p
      (by simp [QMap.value])
    exact ⟨h2, h3, h4, h5, h6⟩

/-- The statement of C14 for the child 100 launched by `Run(2)` on the object at
address 0, when `waitpid` reports its exit with code 3 in the next iteration:
the iteration leaves the handle in the table with status
`GENERIC_EXIT_RUNNING`, not 3.  The body of the `waitpid` loop, had it been
reached, would have stored 3. -/
theorem run_never_classifies_tracked_child_witness :
    MythSystem.Run sampleCodes sampleForkEnv 0 2 0 sampleProc = .ok sampleTracking ∧
    MythSystemManager.run sampleCodes [sampleIter [(100, 3 <<< 8)] 1] sampleTracking =
      .ok sampleTracking ∧
    QMap.value 100 sampleTracking.m_pMap = some 0 ∧
    (sampleTracking.heap 0).m_status = sampleCodes.GENERIC_EXIT_RUNNING ∧
    classify sampleCodes (3 <<< 8) = 3 ∧
    (sampleTracking.heap 0).m_status ≠ classify sampleCodes (3 <<< 8) ∧
    ((reapChild sampleCodes 100 (3 <<< 8)
      { proc := sampleTracking, msList := [], pMap := [] }).proc.heap 0).m_status = 3 ∧
    (∃ s', MythSystem.Run sampleCodes sampleForkEnv 0 2 0 sampleProc = .ok s' ∧
      QMap.value sampleForkEnv.child s'.m_pMap = some 0 ∧
      (s'.heap 0).m_status = sampleCodes.GENERIC_EXIT_RUNNING ∧
      MythSystemManager.run sampleCodes [sampleIter [(100, 3 <<< 8)] 1] s' = .ok s' ∧
      (∀ status : Nat, classify sampleCodes status ≠ sampleCodes.GENERIC_EXIT_RUNNING →
        ∃ s'', MythSystemManager.run sampleCodes [sampleIter [(100, 3 <<< 8)] 1] s'
            = .ok s'' ∧
          QMap.value sampleForkEnv.child s''.m_pMap = some 0 ∧
          (s''.heap 0).m_status ≠ classify sampleCodes status) ∧
      (∀ status : Nat,
        ((reapChild sampleCodes sampleForkEnv.child status
          { proc := s', msList := [], pMap := [] }).proc.heap 0).m_status =
            classify sampleCodes status)) :=
  ⟨rfl, rfl, rfl, rfl, rfl, by decide, rfl,
    (run_never_classifies_tracked_child sampleCodes sampleForkEnv 0 2 0 sampleProc
      [sampleIter [(100, 3 <<< 8)] 1] (by decide) rfl).1⟩

theorem checkTimeout_expired (c : ExitCodes) (now : Int) (r : Reaper) (pid : Int) (ms : Nat)
    (h1 : 0 < (r.proc.heap ms).m_timeout) (h2 : (r.proc.heap ms).m_timeout < now) :
    ((r.proc.heap ms).m_status ≠ c.GENERIC_EXIT_TIMEOUT →
      (checkTimeout c now r (pid, ms)).proc.kills = r.proc.kills ++ [(pid, Signal.SIGTERM)] ∧
      ((checkTimeout c now r (pid, ms)).proc.heap ms).m_status = c.GENERIC_EXIT_TIMEOUT ∧
      ((checkTimeout c now r (pid, ms)).proc.heap ms).m_timeout =
        (r.proc.heap ms).m_timeout + 1) ∧
    ((r.proc.heap ms).m_status = c.GENERIC_EXIT_TIMEOUT →
      (checkTimeout c now r (pid, ms)).proc.kills = r.proc.kills ++ [(pid, Signal.SIGKILL)] ∧
      (checkTimeout c now r (pid, ms)).proc.heap = r.proc.heap) := by
  have hc : (r.proc.heap ms).m_timeout > 0 ∧ (r.proc.heap ms).m_timeout < now := ⟨h1, h2⟩
  constructor
  · intro hs
    unfold checkTimeout
    dsimp only
    rw [if_pos hc, if_neg hs]
    refine ⟨?_, ?_, ?_⟩
    · simp [Proc.kills, Proc.call, Proc.store, killsOf_append, killsOf]
    · simp [Proc.call, Proc.store]
    · simp [Proc.call, Proc.store]
  · intro hs
    unfold checkTimeout
    dsimp only
    rw [if_pos hc, if_pos hs]
    refine ⟨?_, rfl⟩
    simp [Proc.kills, Proc.call, killsOf_append, killsOf]

/-- Claim C15, the code.  The test made for one table entry past its deadline is
as the claim describes it: a process not yet marked `GENERIC_EXIT_TIMEOUT` is
sent SIGTERM (and nothing else), marked, and has its deadline advanced by one
second; a marked one is sent SIGKILL.  But the reaper loop never makes that test
for a process in the table: every sequence of iterations leaves the process
state as it was, so after `Run` has registered a child no signal is ever sent to
it, whatever its timeout. -/
theorem run_never_signals_timed_out_process (c : ExitCodes) (now : Int) (r : Reaper) (pid : Int)
    (ms : Nat) (envs : List IterEnv) (s : Proc) :
    (0 < (r.proc.heap ms).m_timeout ∧ (r.proc.heap ms).m_timeout < now →
      ((r.proc.heap ms).m_status ≠ c.GENERIC_EXIT_TIMEOUT →
        (checkTimeout c now r (pid, ms)).proc.kills = r.proc.kills ++ [(pid, Signal.SIGTERM)] ∧
        ((checkTimeout c now r (pid, ms)).proc.heap ms).m_status = c.GENERIC_EXIT_TIMEOUT ∧
        ((checkTimeout c now r (pid, ms)).proc.heap ms).m_timeout =
          (r.proc.heap ms).m_timeout + 1) ∧
      ((r.proc.heap ms).m_status = c.GENERIC_EXIT_TIMEOUT →
        (checkTimeout c now r (pid, ms)).proc.kills = r.proc.kills ++ [(pid, Signal.SIGKILL)] ∧
        (checkTimeout c now r (pid, ms)).proc.heap = r.proc.heap)) ∧
    MythSystemManager.run c envs s = .ok s ∧
    (∀ (env : ForkEnv) (t timeout : Int) (p : Nat) (s' : Proc), 0 < env.child →
      MythSystem.Run c env t timeout p s = .ok s' →
      MythSystemManager.run c envs s' = .ok s' ∧ s'.kills = s.kills) :=
  ⟨fun h => checkTimeout_expired c now r pid ms h.1 h.2, run_id c envs s,
    fun env t timeout p s' hchild hrun =>
      ⟨run_id c envs s', Run_forked_kills c env t timeout p s s' hchild hrun⟩⟩

/-- The statement of C15 for the child 100 run at time 0 with timeout 2 and
never exiting: the iterations at seconds 3, 4 and 5 change nothing and no
signal has been sent, although the deadline is second 2.  The test of the
loop over the table, had it been reached at second 3, would have sent SIGTERM. -/
theorem run_never_signals_timed_out_process_witness :
    MythSystem.Run sampleCodes sampleForkEnv 0 2 0 sampleProc = .ok sampleTracking ∧
    (sampleTracking.heap 0).m_timeout = 2 ∧
    (sampleTracking.heap 0).m_status = sampleCodes.GENERIC_EXIT_RUNNING ∧
    MythSystemManager.run sampleCodes [sampleIter [] 3, sampleIter [] 4, sampleIter [] 5]
      sampleTracking = .ok sampleTracking ∧
    sampleTracking.kills = [] ∧
    (checkTimeout sampleCodes 3 { proc := sampleTracking, msList := [], pMap := [] }
      (100, 0)).proc.kills = [(100, Signal.SIGTERM)] :=
  ⟨rfl, rfl, rfl,
    (run_never_signals_timed_out_process sampleCodes 3
      { proc := sampleTracking, msList := [], pMap := [] } 100 0
      [sampleIter [] 3, sampleIter [] 4, sampleIter [] 5] sampleTracking).2.1,
    rfl, rfl⟩

theorem tracked_remove_nodup (pid : Int) (m : List (Int × Nat))
    (h : (m.map Prod.snd).Nodup) : ((QMap.remove pid m).map Prod.snd).Nodup := by
  unfold QMap.remove
  exact h.sublist ((List.filter_sublist m).map Prod.snd)

theorem not_mem_tracked_remove (pid : Int) (ms : Nat) (m : List (Int × Nat))
    (h : (m.map Prod.snd).Nodup) (hin : (pid, ms) ∈ m) :
    ms ∉ (QMap.remove pid m).map Prod.snd := by
  intro hmem
  obtain ⟨⟨k, v⟩, hkv, hv⟩ := List.mem_map.1 hmem
  unfold QMap.remove at hkv
  obtain ⟨hk1, hk2⟩ := List.mem_filter.1 hkv
  simp only at hv
  subst hv
  have := List.inj_on_of_nodup_map h hk1 hin rfl
  simp only [Prod.mk.injEq, and_true] at this
  simp [this] at hk2

theorem mem_tracked_remove (pid : Int) (x : Nat) (m : List (Int × Nat))
    (h : x ∈ (QMap.remove pid m).map Prod.snd) : x ∈ m.map Prod.snd := by
  unfold QMap.remove at h
  exact ((List.filter_sublist m).map Prod.snd).subset h

theorem reapChild_consistent (c : ExitCodes) (pid : Int) (status : Nat) (r : Reaper)
    (hcons : r.Consistent) : (reapChild c pid status r).Consistent := by
  cases hv : QMap.value pid r.proc.m_pMap with
  | none => rw [reapChild_untracked c pid status r hv]; exact hcons
  | some ms =>
    rw [reapChild_tracked c pid status r ms hv]
    obtain ⟨h1, h2, h3⟩ := hcons
    have hin := QMap_value_mem pid ms r.proc.m_pMap hv
    have hms : ms ∈ r.proc.tracked := List.mem_map.2 ⟨(pid, ms), hin, rfl⟩
    refine ⟨tracked_remove_nodup pid _ h1, ?_, ?_⟩
    · refine List.Nodup.append h2 (List.nodup_singleton ms) ?_
      intro x hx hx2
      simp only [List.mem_singleton] at hx2
      subst hx2
      exact h3 x hx hms
    · intro x hx
      simp only [List.mem_append, List.mem_singleton] at hx
      rcases hx with hx | hx
      · exact fun hmem => h3 x hx (mem_tracked_remove pid x _ hmem)
      · subst hx
        exact not_mem_tracked_remove pid x _ h1 hin

theorem drain_consistent (c : ExitCodes) (reports : List (Int × Nat)) (r : Reaper)
    (hcons : r.Consistent) : (drain c reports r).Consistent := by
  induction reports generalizing r with
  | nil => exact hcons
  | cons e rest ih =>
    unfold drain
    split
    · exact ih _ (reapChild_consistent c e.1 e.2 r hcons)
    · exact hcons

/-- Claim C16. Reaping is exactly-once and leaves unmanaged process ids alone.
When `waitpid` reports a process id that is not a key of the table, the table,
every object and the cleanup list are unchanged.  When it reports a tracked
process id, the entry is removed from the table in the step that appends the
object to the cleanup list, and only that object is written; the process id is
then no longer a key, the object is no longer in the table and was not in the
list before.  Over a whole `waitpid` loop no object is appended twice and none
that was appended remains in the table. -/
theorem reapChild_exactly_once (c : ExitCodes) (pid : Int) (status : Nat) (r : Reaper)
    (reports : List (Int × Nat)) (hcons : r.Consistent) :
    (QMap.value pid r.proc.m_pMap = none → reapChild c pid status r = r) ∧
    (∀ ms, QMap.value pid r.proc.m_pMap = some ms →
      (reapChild c pid status r).proc.m_pMap = QMap.remove pid r.proc.m_pMap ∧
      (reapChild c pid status r).msList = r.msList ++ [ms] ∧
      QMap.value pid (reapChild c pid status r).proc.m_pMap = none ∧
      ms ∉ (reapChild c pid status r).proc.tracked ∧ ms ∉ r.msList ∧
      (∀ q, q ≠ ms → (reapChild c pid status r).proc.heap q = r.proc.heap q) ∧
      ∀ status2, reapChild c pid status2 (reapChild c pid status r) =
        reapChild c pid status r) ∧
    (drain c reports r).msList.Nodup ∧
    (∀ ms ∈ (drain c reports r).msList, ms ∉ (drain c reports r).proc.tracked) := by
  refine ⟨reapChild_untracked c pid status r, fun ms hv => ?_,
    (drain_consistent c reports r hcons).2.1, (drain_consistent c reports r hcons).2.2⟩
  have hin := QMap_value_mem pid ms r.proc.m_pMap hv
  have hms : ms ∈ r.proc.tracked := List.mem_map.2 ⟨(pid, ms), hin, rfl⟩
  have hgone : QMap.value pid (reapChild c pid status r).proc.m_pMap = none := by
    rw [reapChild_tracked c pid status r ms hv]
    exact QMap_value_remove pid _
  refine ⟨?_, ?_, hgone, ?_, fun h => hcons.2.2 ms h hms, ?_,
    fun status2 => reapChild_untracked c pid status2 _ hgone⟩
  · rw [reapChild_tracked c pid status r ms hv]
  · rw [reapChild_tracked c pid status r ms hv]
  · rw [reapChild_tracked c pid status r ms hv]
    exact not_mem_tracked_remove pid ms _ hcons.1 hin
  · intro q hq
    rw [reapChild_tracked c pid status r ms hv]
    simp [Proc.store, hq]

/-- The statement of C16 at the table that holds the child 100: a report of the
unmanaged child 55 changes nothing, and after the reports 55, 100, 100 the
object at address 0 is in the cleanup list once and the table is empty. -/
theorem reapChild_exactly_once_witness :
    Reaper.Consistent { proc := sampleTracking, msList := [], pMap := [] } ∧
    QMap.value 55 sampleTracking.m_pMap = none ∧
    reapChild sampleCodes 55 0 { proc := sampleTracking, msList := [], pMap := [] } =
      { proc := sampleTracking, msList := [], pMap := [] } ∧
    (drain sampleCodes [(55, 0), (100, 0), (100, 0)]
      { proc := sampleTracking, msList := [], pMap := [] }).msList = [0] ∧
    (drain sampleCodes [(55, 0), (100, 0), (100, 0)]
      { proc := sampleTracking, msList := [], pMap := [] }).proc.m_pMap = [] ∧
    (drain sampleCodes [(55, 0), (100, 0), (100, 0)]
      { proc := sampleTracking, msList := [], pMap := [] }).msList.Nodup :=
  ⟨⟨by decide, by decide, by decide⟩, rfl,
    (reapChild_exactly_once sampleCodes 55 0 { proc := sampleTracking, msList := [], pMap := [] }
      [(55, 0), (100, 0), (100, 0)] ⟨by decide, by decide, by decide⟩).1 rfl,
    rfl, rfl,
    (reapChild_exactly_once sampleCodes 55 0 { proc := sampleTracking, msList := [], pMap := [] }
      [(55, 0), (100, 0), (100, 0)] ⟨by decide, by decide, by decide⟩).2.2.1⟩

/-! ## Launching a command -/

/-- Claim C17, the code.  `Run` and `Fork` do not look at the status they find:
whatever value the handle holds, terminal or not, a `Fork` whose `fork()`
succeeds stores `GENERIC_EXIT_RUNNING`, and `Run` returns with that status and
the handle registered. -/
theorem Run_overwrites_terminal_status (c : ExitCodes) (env : ForkEnv) (now timeout : Int)
    (p : Nat) (s : Proc) (hchild : 0 < env.child) (hlock : (s.heap p).m_pmutex = false) :
    (∃ h1 calls, (s.heap p).Fork c env = .ok (h1, calls) ∧
      h1.m_status = c.GENERIC_EXIT_RUNNING) ∧
    (∃ s', MythSystem.Run c env now timeout p s = .ok s' ∧
      (s'.heap p).m_status = c.GENERIC_EXIT_RUNNING ∧
      QMap.value env.child s'.m_pMap = some p) := by
  obtain ⟨h1, calls, hf, hst, -⟩ := Fork_succeeds c env (s.heap p) hchild
  obtain ⟨s', hrun, hs, -, -, -, hmap, -⟩ := Run_forked c env now timeout p s hchild hlock
  refine ⟨⟨h1, calls, hf, hst⟩, s', hrun, hs, ?_⟩
  rw [hmap]
  exact QMap_value_insert _ _ _

/-- The statement of C17 for the handle that the constructor left with
`GENERIC_EXIT_CMD_NOT_FOUND`: that status is neither Start nor Running, and
`Run` on the handle returns with status Running. -/
theorem Run_overwrites_terminal_status_witness :
    (sampleProcFound.heap 1).m_status = sampleCodes.GENERIC_EXIT_CMD_NOT_FOUND ∧
    sampleCodes.GENERIC_EXIT_CMD_NOT_FOUND ≠ sampleCodes.GENERIC_EXIT_START ∧
    sampleCodes.GENERIC_EXIT_CMD_NOT_FOUND ≠ sampleCodes.GENERIC_EXIT_RUNNING ∧
    0 < sampleForkEnv.child ∧ (sampleProcFound.heap 1).m_pmutex = false ∧
    (∃ s', MythSystem.Run sampleCodes sampleForkEnv 0 0 1 sampleProcFound = .ok s' ∧
      (s'.heap 1).m_status = sampleCodes.GENERIC_EXIT_RUNNING ∧
      QMap.value sampleForkEnv.child s'.m_pMap = some 1) :=
  ⟨rfl, by decide, by decide, by decide, rfl,
    (Run_overwrites_terminal_status sampleCodes sampleForkEnv 0 0 1 sampleProcFound
      (by decide) rfl).2⟩

/-- Claim C18, the code.  The constructor tests `!access(command, X_OK)`, and
`access` returns 0 when the caller may execute the file: the handle gets
`GENERIC_EXIT_CMD_NOT_FOUND` if and only if `access` returned 0, that is, if
and only if the path is executable, and then `m_command` and `m_args` stay
empty.  When `access` fails the status is `GENERIC_EXIT_START` and the command
is stored: with its arguments in `m_args`, or, for a handle that runs through
the shell, with the arguments appended to `m_command`. -/
theorem fromCommandArgs_status (c : ExitCodes) (inUI : Bool) (access : Int)
    (mem : Indeterminate) (command : String) (args : List String) (flags : Nat)
    (hne : c.GENERIC_EXIT_START ≠ c.GENERIC_EXIT_CMD_NOT_FOUND) :
    ((MythSystem.fromCommandArgs c inUI access mem command args flags).m_status =
        c.GENERIC_EXIT_CMD_NOT_FOUND ↔ access = 0) ∧
    (access = 0 →
      (MythSystem.fromCommandArgs c inUI access mem command args flags).m_command = "" ∧
      (MythSystem.fromCommandArgs c inUI access mem command args flags).m_args = []) ∧
    (access ≠ 0 →
      (MythSystem.fromCommandArgs c inUI access mem command args flags).m_status =
        c.GENERIC_EXIT_START ∧
      ((MythSystem.fromCommandArgs c inUI access mem command args flags).m_useshell = false →
        (MythSystem.fromCommandArgs c inUI access mem command args flags).m_command = command ∧
        (MythSystem.fromCommandArgs c inUI access mem command args flags).m_args = args) ∧
      ((MythSystem.fromCommandArgs c inUI access mem command args flags).m_useshell = true →
        (MythSystem.fromCommandArgs c inUI access mem command args flags).m_command =
          command ++ String.intercalate " " args ∧
        (MythSystem.fromCommandArgs c inUI access mem command args flags).m_args = [])) := by
  by_cases ha : access = 0
  · have e : MythSystem.fromCommandArgs c inUI access mem command args flags =
        ProcessFlags c inUI flags
          { MythSystem.initial c mem with m_status := c.GENERIC_EXIT_CMD_NOT_FOUND } := by
      unfold MythSystem.fromCommandArgs
      dsimp only
      rw [if_pos ha]
    obtain ⟨h1, h2, h3, -, -⟩ := ProcessFlags_status c inUI flags
      { MythSystem.initial c mem with m_status := c.GENERIC_EXIT_CMD_NOT_FOUND }
    rw [e]
    refine ⟨⟨fun _ => ha, fun _ => h1⟩, fun _ => ⟨h2, h3⟩, fun h => absurd ha h⟩
  · obtain ⟨h1, h2, h3, -, -⟩ := ProcessFlags_status c inUI flags
      { MythSystem.initial c mem with m_command := command }
    have hst : (MythSystem.fromCommandArgs c inUI access mem command args flags).m_status =
        c.GENERIC_EXIT_START := by
      unfold MythSystem.fromCommandArgs
      dsimp only
      rw [if_neg ha]
      split <;> exact h1
    refine ⟨⟨fun h => absurd (hst.symm.trans h) hne, fun h => absurd h ha⟩,
      fun h => absurd h ha, fun _ => ⟨hst, ?_, ?_⟩⟩
    · unfold MythSystem.fromCommandArgs
      dsimp only
      rw [if_neg ha]
      split
      · rename_i hs
        intro hf
        dsimp only at hf
        rw [hs] at hf
        cases hf
      · intro _
        exact ⟨h2, rfl⟩
    · unfold MythSystem.fromCommandArgs
      dsimp only
      rw [if_neg ha]
      split
      · intro _
        dsimp only
        rw [h2, h3]
        exact ⟨rfl, rfl⟩
      · rename_i hs
        intro hf
        dsimp only at hf
        exact absurd hf hs

/-- The statement of C18 for `/bin/sleep`: when `access` returns 0 (the file is
executable) the handle is marked command-not-found, and when `access` returns
-1 it is not. -/
theorem fromCommandArgs_status_witness :
    sampleCodes.GENERIC_EXIT_START ≠ sampleCodes.GENERIC_EXIT_CMD_NOT_FOUND ∧
    sampleHandleFound.m_status = sampleCodes.GENERIC_EXIT_CMD_NOT_FOUND ∧
    sampleHandleFound.m_command = "" ∧
    sampleHandle.m_status = sampleCodes.GENERIC_EXIT_START ∧
    sampleHandle.m_command = "/bin/sleep" ∧ sampleHandle.m_args = ["100"] :=
  ⟨by decide,
    (fromCommandArgs_status sampleCodes false 0 sampleMem "/bin/sleep" ["100"] kMSNone
      (by decide)).1.2 rfl,
    ((fromCommandArgs_status sampleCodes false 0 sampleMem "/bin/sleep" ["100"] kMSNone
      (by decide)).2.1 rfl).1,
    rfl, rfl, rfl⟩

theorem Fork_pipes_fds (c : ExitCodes) (env : ForkEnv) (h : MythSystem) :
    (∀ fds, h.m_usestdin = true → env.pipeStdin = some fds →
      (Fork_pipes c env h).1.p_stdin = fds) ∧
    (∀ fds, h.m_usestdout = true → env.pipeStdout = some fds →
      (Fork_pipes c env h).1.p_stdout = fds) ∧
    (∀ fds, h.m_usestderr = true → env.pipeStderr = some fds →
      (Fork_pipes c env h).1.p_stderr = fds) ∧
    (h.m_usestdin = true → env.pipeStdin = none →
      (Fork_pipes c env h).1.p_stdin = (-1, -1)) := by
  rcases h with ⟨st, pid, mx, tmo, cmd, args, p0, p1, p2, b0, b1, bg, ui, bi, dd, pe, uin, uout,
    uerr, bio, sh⟩
  rcases env with ⟨a, b, d, ch⟩
  cases uin <;> cases uout <;> cases uerr <;> cases a <;> cases b <;> cases d <;>
    simp [Fork_pipes, openPipe]

/-- Claim C19, the code.  A failed `pipe()` sets `GENERIC_EXIT_NOT_OK`, but `Fork`
goes on to call `fork()`, and when that succeeds the parent branch stores
`GENERIC_EXIT_RUNNING` over it: `Fork` returns with status Running and the
child's process id, whatever happened to the pipes, and the handle keeps the
parent's ends of the pipes that were opened. -/
theorem Fork_overwrites_pipe_failure (c : ExitCodes) (env : ForkEnv) (h : MythSystem)
    (hchild : 0 < env.child) :
    ∃ h1 calls, h.Fork c env = .ok (h1, calls) ∧
      h1.m_status = c.GENERIC_EXIT_RUNNING ∧ h1.m_pid = env.child ∧
      (∀ fds, h.m_usestdin = true → env.pipeStdin = some fds → h1.m_stdpipe0 = fds.2) ∧
      (∀ fds, h.m_usestdout = true → env.pipeStdout = some fds → h1.m_stdpipe1 = fds.1) ∧
      (∀ fds, h.m_usestderr = true → env.pipeStderr = some fds → h1.m_stdpipe2 = fds.1) := by
  obtain ⟨h1, calls, hf, hst, hpid, -, -, hp0, hp1, hp2, -⟩ := Fork_succeeds c env h hchild
  obtain ⟨f0, f1, f2, -⟩ := Fork_pipes_fds c env h
  refine ⟨h1, calls, hf, hst, hpid, fun fds hu he => ?_, fun fds hu he => ?_,
    fun fds hu he => ?_⟩
  · rw [hp0, f0 fds hu he]
  · rw [hp1, f1 fds hu he]
  · rw [hp2, f2 fds hu he]

/-- The statement of C19 for a handle that asks for pipes on standard input
and output, when `pipe()` fails for standard input and gives the descriptors 5
and 6 for standard output: `Fork` returns with status Running, not
`GENERIC_EXIT_NOT_OK`, and of the pipe that was opened only the write end 6 has
been closed. -/
theorem Fork_overwrites_pipe_failure_witness :
    samplePipedHandle.m_usestdin = true ∧ sampleForkEnvPipeFails.pipeStdin = none ∧
    0 < sampleForkEnvPipeFails.child ∧
    sampleCodes.GENERIC_EXIT_RUNNING ≠ sampleCodes.GENERIC_EXIT_NOT_OK ∧
    (∃ h1, samplePipedHandle.Fork sampleCodes sampleForkEnvPipeFails =
        .ok (h1, [SysCall.pipe 5 6, SysCall.fork 100, SysCall.close 6]) ∧
      h1.m_status = sampleCodes.GENERIC_EXIT_RUNNING ∧ h1.m_stdpipe0 = -1 ∧
      h1.m_stdpipe1 = 5) ∧
    (∃ h1 calls, samplePipedHandle.Fork sampleCodes sampleForkEnvPipeFails = .ok (h1, calls) ∧
      h1.m_status = sampleCodes.GENERIC_EXIT_RUNNING ∧
      h1.m_pid = sampleForkEnvPipeFails.child ∧
      (∀ fds, samplePipedHandle.m_usestdin = true →
        sampleForkEnvPipeFails.pipeStdin = some fds → h1.m_stdpipe0 = fds.2) ∧
      (∀ fds, samplePipedHandle.m_usestdout = true →
        sampleForkEnvPipeFails.pipeStdout = some fds → h1.m_stdpipe1 = fds.1) ∧
      (∀ fds, samplePipedHandle.m_usestderr = true →
        sampleForkEnvPipeFails.pipeStderr = some fds → h1.m_stdpipe2 = fds.1)) :=
  ⟨rfl, rfl, by decide, by decide, ⟨_, rfl, rfl, rfl, rfl⟩,
    Fork_overwrites_pipe_failure sampleCodes sampleForkEnvPipeFails samplePipedHandle
      (by decide)⟩

/-- Claim C20, the code.  `Run` does not look at the outcome of `Fork`: when
`fork()` fails, the handle, left with `GENERIC_EXIT_NOT_OK` and with the process
id it had before, is still put into the table under that process id, and its
launch lock is held when `Run` returns. -/
theorem Run_registers_failed_fork (c : ExitCodes) (env : ForkEnv) (now timeout : Int)
    (p : Nat) (s : Proc) (hchild : env.child < 0) (hlock : (s.heap p).m_pmutex = false) :
    ∃ s', MythSystem.Run c env now timeout p s = .ok s' ∧
      (s'.heap p).m_status = c.GENERIC_EXIT_NOT_OK ∧
      (s'.heap p).m_pid = (s.heap p).m_pid ∧
      QMap.value (s.heap p).m_pid s'.m_pMap = some p ∧
      (s'.heap p).m_pmutex = true := by
  obtain ⟨s', hrun, hst, hpid, hmx, hmap, -⟩ :=
    Run_fork_failed c env now timeout p s hchild hlock
  refine ⟨s', hrun, hst, hpid, ?_, hmx⟩
  rw [hmap]
  exact QMap_value_insert _ _ _

/-- The statement of C20 for a fresh handle whose `fork()` fails: after `Run` the
table holds the handle under the process id 7777 that was in its uninitialised
`m_pid`, the status is `GENERIC_EXIT_NOT_OK` (neither Running nor timed out),
and the launch lock is held. -/
theorem Run_registers_failed_fork_witness :
    sampleForkEnvFails.child < 0 ∧ (sampleProc.heap 0).m_pmutex = false ∧
    sampleProc.m_pMap = [] ∧
    sampleCodes.GENERIC_EXIT_NOT_OK ≠ sampleCodes.GENERIC_EXIT_RUNNING ∧
    sampleCodes.GENERIC_EXIT_NOT_OK ≠ sampleCodes.GENERIC_EXIT_TIMEOUT ∧
    (∃ s', MythSystem.Run sampleCodes sampleForkEnvFails 0 0 0 sampleProc = .ok s' ∧
      s'.m_pMap = [(7777, 0)] ∧ (s'.heap 0).m_pmutex = true) ∧
    (∃ s', MythSystem.Run sampleCodes sampleForkEnvFails 0 0 0 sampleProc = .ok s' ∧
      (s'.heap 0).m_status = sampleCodes.GENERIC_EXIT_NOT_OK ∧
      (s'.heap 0).m_pid = (sampleProc.heap 0).m_pid ∧
      QMap.value (sampleProc.heap 0).m_pid s'.m_pMap = some 0 ∧
      (s'.heap 0).m_pmutex = true) :=
  ⟨by decide, rfl, rfl, by decide, by decide, ⟨_, rfl, rfl, rfl⟩,
    Run_registers_failed_fork sampleCodes sampleForkEnvFails 0 0 0 sampleProc (by decide) rfl⟩

/-! ## The stored state is None, WatchingLiveTV or RecordingOnly -/

theorem HandleStateChange_stored (b : Build) (fuel : Nat) (env : Collab) (s s' : TVRec)
    (hinv : s.internalState = kState_None ∨ s.internalState = kState_WatchingLiveTV ∨
      s.internalState = kState_RecordingOnly)
    (h : HandleStateChange b fuel env s = .ok s') :
    s'.internalState = kState_None ∨ s'.internalState = kState_WatchingLiveTV ∨
      s'.internalState = kState_RecordingOnly := by
  by_cases hnull : s.desiredNextState = s.internalState
  · rw [HandleStateChange_null b fuel env s hnull] at h
    simp only [Except.ok.injEq] at h; subst h
    exact hinv
  by_cases herr : s.desiredNextState = kState_Error
  · rw [HandleStateChange_error b fuel env s hnull herr] at h
    simp only [Except.ok.injEq] at h; subst h
    exact hinv
  cases hsup : supportedTransition s.internalState s.desiredNextState
  · rw [HandleStateChange_unknown b fuel env s hnull herr hsup] at h
    simp only [Except.ok.injEq] at h; subst h
    exact hinv
  have fromNone : s.internalState = kState_None →
      (s.desiredNextState = kState_WatchingLiveTV ∨ s.desiredNextState = kState_RecordingOnly) →
      (s'.internalState = kState_None ∨ s'.internalState = kState_WatchingLiveTV ∨
        s'.internalState = kState_RecordingOnly) := by
    intro hi hd
    obtain ⟨rb, rc, ip, st, pm, er, cur, pn, a, ofn, rtl, rt, ev, heq, hor⟩ :=
      HandleStateChange_from_none_frame b fuel env s s' hi hd h
    subst heq
    show st = _ ∨ st = _ ∨ st = _
    rcases hor with ⟨h1, -⟩ | ⟨h1, -⟩
    · rw [h1]; exact Or.inr hd
    · exact Or.inl h1
  rcases supportedTransition_cases _ _ hsup with ⟨hi, hd⟩ | ⟨hi, hd⟩ | ⟨hi, hd⟩ | ⟨hi, hd⟩
  · exact fromNone hi (Or.inl hd)
  · rw [HandleStateChange_live_to_none b fuel env s hi hd] at h
    simp only [Except.ok.injEq] at h; subst h
    exact Or.inl rfl
  · exact fromNone hi (Or.inr hd)
  · rw [HandleStateChange_rec_to_none b fuel env s hi hd] at h
    simp only [Except.ok.injEq] at h; subst h
    exact Or.inl rfl

theorem eventThreadStep_stored (b : Build) (t : Tick) (s s' : TVRec)
    (hinv : s.internalState = kState_None ∨ s.internalState = kState_WatchingLiveTV ∨
      s.internalState = kState_RecordingOnly)
    (h : eventThreadStep b t s = .ok s') :
    s'.internalState = kState_None ∨ s'.internalState = kState_WatchingLiveTV ∨
      s'.internalState = kState_RecordingOnly := by
  unfold eventThreadStep at h
  split at h
  · split at h
    · cases h
    · rename_i s1 r hrun
      simp only [Except.ok.injEq] at h
      subst h
      obtain ⟨s2, hs2, hcase⟩ := RunTV_iteration_cases b t s s1 r hrun
      have hinv2 : s2.internalState = kState_None ∨ s2.internalState = kState_WatchingLiveTV ∨
          s2.internalState = kState_RecordingOnly := by
        split at hs2
        · exact HandleStateChange_stored b _ _ s s2 hinv hs2
        · simp only [Except.ok.injEq] at hs2
          rw [← hs2]; exact hinv
      rcases hcase with ⟨-, -, heq⟩ | ⟨-, -, s3, hask, heq⟩
      · rw [heq]; exact hinv2
      · have h3 := askPendingRecording_frame t s2 s3 hask
        rw [heq, checkExitPlayer_eq, checkRecordingEnd_eq, h3]
        exact hinv2
  · simp only [Except.ok.injEq] at h
    rw [← h]; exact hinv

theorem Reachable_stored (b : Build) (s : TVRec) (h : Reachable b s) :
    s.internalState = kState_None ∨ s.internalState = kState_WatchingLiveTV ∨
      s.internalState = kState_RecordingOnly := by
  induction h with
  | init n cfg =>
    exact Or.inl (Init_recorder_state b cfg n).2
  | request target fuel env _ hrun ih =>
    exact HandleStateChange_stored b fuel env (ChangeState target _) _ ih hrun
  | startRecording sched rest rcinfo r _ hrun ih =>
    refine StartRecording_preserves b
      (fun s => s.internalState = kState_None ∨ s.internalState = kState_WatchingLiveTV ∨
        s.internalState = kState_RecordingOnly)
      (fun t s s' hP hs => eventThreadStep_stored b t s s' hP hs)
      (fun s e hP => hP) (fun s hP => hP) (fun s hP => hP) (fun s hP => hP) ?_
      sched rcinfo _ _ r rest ih hrun
    intro rc s hP
    rw [beginRecording_eq]
    exact hP
  | setupRingBuffer path pip opens _ ih =>
    rw [(SetupRingBuffer_recorder_state path pip opens _).2]
    exact ih

/-- Claim C26. In every coordinator reachable from a freshly constructed one by
`ChangeState` requests and completed `HandleStateChange` calls (and by
`StartRecording` and `SetupRingBuffer`), `internalState` is None,
WatchingLiveTV or RecordingOnly, so it is neither ChangingState nor Error;
`GetState()` returns `kState_ChangingState` exactly when `changeState` is set
and returns `internalState` otherwise. -/
theorem ChangingState_and_Error_never_stored (b : Build) (s : TVRec) (h : Reachable b s) :
    (s.internalState = kState_None ∨ s.internalState = kState_WatchingLiveTV ∨
      s.internalState = kState_RecordingOnly) ∧
    s.internalState ≠ kState_ChangingState ∧ s.internalState ≠ kState_Error ∧
    (GetState s = kState_ChangingState ↔ s.changeState = true) ∧
    (s.changeState = false → GetState s = s.internalState) := by
  have hst := Reachable_stored b s h
  have hne : s.internalState ≠ kState_ChangingState := by
    rcases hst with h1 | h1 | h1 <;> rw [h1] <;> decide
  have hne2 : s.internalState ≠ kState_Error := by
    rcases hst with h1 | h1 | h1 <;> rw [h1] <;> decide
  refine ⟨hst, hne, hne2, ?_, ?_⟩
  · unfold GetState
    cases hc : s.changeState
    · simp [hne]
    · simp
  · intro hc
    unfold GetState
    rw [hc]
    rfl

/-- The statement of C26 at the coordinator that has been initialised, given
its live-TV ring buffer and brought to WatchingLiveTV. -/
theorem ChangingState_and_Error_never_stored_witness :
    Reachable sampleBuild sampleWatching ∧
    sampleWatching.internalState = kState_WatchingLiveTV ∧
    GetState sampleWatching = kState_WatchingLiveTV ∧
    GetState (ChangeState kState_None sampleWatching) = kState_ChangingState ∧
    ((sampleWatching.internalState = kState_None ∨
        sampleWatching.internalState = kState_WatchingLiveTV ∨
        sampleWatching.internalState = kState_RecordingOnly) ∧
      sampleWatching.internalState ≠ kState_ChangingState ∧
      sampleWatching.internalState ≠ kState_Error ∧
      (GetState sampleWatching = kState_ChangingState ↔ sampleWatching.changeState = true) ∧
      (sampleWatching.changeState = false →
        GetState sampleWatching = sampleWatching.internalState)) :=
  ⟨sampleWatching_reachable, by decide, by decide, by decide,
    ChangingState_and_Error_never_stored sampleBuild sampleWatching sampleWatching_reachable⟩

/-! ## Post-processing jobs at teardown -/

theorem prepareStart_live_mask (env : Collab) (s : TVRec) :
    (prepareStart env true s).autoRunJobs = JOB_NONE := by
  unfold prepareStart setupJobMask selectProfile
  cases hc : s.curRecording with
  | none => simp [hc]
  | some rec =>
    cases hp : rec.profileName <;> cases env.foundProf <;> simp [hc, hp]

theorem handleStartRecorder_live_mask (b : Build) (fuel : Nat) (env : Collab) (s s1 : TVRec)
    (l l1 : Locals) (hl : l.nextState = kState_WatchingLiveTV)
    (h : handleStartRecorder b fuel env s l = .ok (s1, l1)) :
    s1.autoRunJobs = JOB_NONE := by
  unfold handleStartRecorder at h
  dsimp only at h
  have hlive : (l.nextState == kState_WatchingLiveTV) = true := by rw [hl]; rfl
  rw [hlive] at h
  have hm := prepareStart_live_mask env s
  generalize prepareStart env true s = p at h hm
  simp only [SetupRecorder_eq] at h
  split at h
  · cases h
  · rename_i s2 hs2
    have h2 : s2.autoRunJobs = JOB_NONE := by
      split at hs2
      · split at hs2
        · cases hs2
        · simp only [Except.ok.injEq] at hs2
          subst hs2
          exact hm
      · split at hs2
        · cases hs2
        · simp only [Except.ok.injEq] at hs2
          subst hs2
          exact hm
    split at h
    · rw [recorderNotStarted_eq] at h
      simp only [Except.ok.injEq, Prod.mk.injEq] at h
      rw [← h.1]
      exact h2
    · split at h
      · cases h
      · rename_i s3 hs3
        obtain ⟨r3, -, hs3eq⟩ := launchRecorder_frame _ _ _ _ hs3
        subst hs3eq
        simp only at h
        split at h
        · have hrs : ∀ (x : TVRec) (y : Locals), recorderStarted true x y = (x, y) := by
            intro x y
            unfold recorderStarted
            simp
          rw [hrs] at h
          simp only [Except.ok.injEq, Prod.mk.injEq] at h
          rw [← h.1]
          exact h2
        · rw [recorderNotStarted_eq] at h
          simp only [Except.ok.injEq, Prod.mk.injEq] at h
          rw [← h.1]
          exact h2

theorem HandleStateChange_live_mask (b : Build) (fuel : Nat) (env : Collab) (s s' : TVRec)
    (hinv : s.internalState = kState_WatchingLiveTV → s.autoRunJobs = JOB_NONE)
    (h : HandleStateChange b fuel env s = .ok s') :
    s'.internalState = kState_WatchingLiveTV → s'.autoRunJobs = JOB_NONE := by
  by_cases hnull : s.desiredNextState = s.internalState
  · rw [HandleStateChange_null b fuel env s hnull] at h
    simp only [Except.ok.injEq] at h; subst h
    exact hinv
  by_cases herr : s.desiredNextState = kState_Error
  · rw [HandleStateChange_error b fuel env s hnull herr] at h
    simp only [Except.ok.injEq] at h; subst h
    exact hinv
  cases hsup : supportedTransition s.internalState s.desiredNextState
  · rw [HandleStateChange_unknown b fuel env s hnull herr hsup] at h
    simp only [Except.ok.injEq] at h; subst h
    exact hinv
  rcases supportedTransition_cases _ _ hsup with ⟨hi, hd⟩ | ⟨hi, hd⟩ | ⟨hi, hd⟩ | ⟨hi, hd⟩
  · rw [HandleStateChange_none_to_live b fuel env s hi hd] at h
    split at h
    · cases h
    · rename_i s1 l1 hs1
      simp only [Except.ok.injEq] at h
      subst h
      intro _
      have h1 := handleStartRecorder_live_mask b fuel env _ s1 _ l1 rfl hs1
      show (if l1.closeRecorder = true then TeardownRecorder l1.killRecordingFile s1
        else s1).autoRunJobs = JOB_NONE
      split
      · rw [TeardownRecorder_eq]
        exact h1
      · exact h1
  · rw [HandleStateChange_live_to_none b fuel env s hi hd] at h
    simp only [Except.ok.injEq] at h; subst h
    intro hx
    cases hx
  · obtain ⟨rb, rc, ip, st, pm, er, cur, pn, a, ofn, rtl, rt, ev, heq, hor⟩ :=
      HandleStateChange_from_none_frame b fuel env s s' hi (Or.inr hd) h
    subst heq
    intro hx
    have hx2 : st = kState_WatchingLiveTV := hx
    rcases hor with ⟨h1, -⟩ | ⟨h1, -⟩
    · rw [h1, hd] at hx2
      cases hx2
    · rw [h1] at hx2
      cases hx2
  · rw [HandleStateChange_rec_to_none b fuel env s hi hd] at h
    simp only [Except.ok.injEq] at h; subst h
    intro hx
    cases hx

theorem eventThreadStep_live_mask (b : Build) (t : Tick) (s s' : TVRec)
    (hinv : s.internalState = kState_WatchingLiveTV → s.autoRunJobs = JOB_NONE)
    (h : eventThreadStep b t s = .ok s') :
    s'.internalState = kState_WatchingLiveTV → s'.autoRunJobs = JOB_NONE := by
  unfold eventThreadStep at h
  split at h
  · split at h
    · cases h
    · rename_i s1 r hrun
      simp only [Except.ok.injEq] at h
      subst h
      obtain ⟨s2, hs2, hcase⟩ := RunTV_iteration_cases b t s s1 r hrun
      have hinv2 : s2.internalState = kState_WatchingLiveTV → s2.autoRunJobs = JOB_NONE := by
        split at hs2
        · exact HandleStateChange_live_mask b _ _ s s2 hinv hs2
        · simp only [Except.ok.injEq] at hs2
          rw [← hs2]; exact hinv
      rcases hcase with ⟨-, -, heq⟩ | ⟨-, -, s3, hask, heq⟩
      · rw [heq]; exact hinv2
      · have h3 := askPendingRecording_frame t s2 s3 hask
        rw [heq, checkExitPlayer_eq, checkRecordingEnd_eq, h3]
        exact hinv2
  · simp only [Except.ok.injEq] at h
    rw [← h]; exact hinv

theorem Reachable_live_mask (b : Build) (s : TVRec) (h : Reachable b s) :
    s.internalState = kState_WatchingLiveTV → s.autoRunJobs = JOB_NONE := by
  induction h with
  | init n cfg =>
    intro hx
    rw [(Init_recorder_state b cfg n).2] at hx
    cases hx
  | request target fuel env _ hrun ih =>
    exact HandleStateChange_live_mask b fuel env (ChangeState target _) _ ih hrun
  | startRecording sched rest rcinfo r _ hrun ih =>
    refine StartRecording_preserves b
      (fun s => s.internalState = kState_WatchingLiveTV → s.autoRunJobs = JOB_NONE)
      (fun t s s' hP hs => eventThreadStep_live_mask b t s s' hP hs)
      (fun s e hP => hP) (fun s hP => hP) (fun s hP => hP) (fun s hP => hP) ?_
      sched rcinfo _ _ r rest ih hrun
    intro rc s hP
    rw [beginRecording_eq]
    exact hP
  | @setupRingBuffer s0 path pip opens _ ih =>
    have e : (SetupRingBuffer path pip opens s0).1.autoRunJobs = s0.autoRunJobs := by
      unfold SetupRingBuffer
      (repeat' split) <;> rfl
    rw [(SetupRingBuffer_recorder_state path pip opens s0).2, e]
    exact ih

theorem queuedMasks_append (a b : List Event) :
    queuedMasks (a ++ b) = queuedMasks a ++ queuedMasks b := by
  induction a with
  | nil => rfl
  | cons e es ih => cases e <;> simp [queuedMasks, ih]

theorem jobsQueuedBetween_append (s s1 : TVRec) (added : List Event)
    (h : s1.events = s.events ++ added) : jobsQueuedBetween s s1 = queuedMasks added := by
  unfold jobsQueuedBetween
  rw [h, List.drop_left]

theorem TeardownRecorder_added (killFile : Bool) (s : TVRec) :
    ∃ added, (TeardownRecorder killFile s).events = s.events ++ added ∧
      queuedMasks added =
        (if s.curRecording.isSome = true ∧ s.autoRunJobs ≠ 0 ∧ killFile = false ∧
            s.prematurelystopped = false then [s.autoRunJobs] else []) := by
  unfold TeardownRecorder
  cases hr : s.recorder <;> cases hb : s.rbuffer <;> cases hc : s.curRecording <;>
    cases killFile <;> cases ht : s.recorder_thread <;> cases hp : s.prematurelystopped <;>
    by_cases ha : s.autoRunJobs = 0 <;>
    simp [hr, hb, hc, ht, hp, ha, TVRec.emit, queuedMasks]

theorem live_teardown_added (b : Build) (fuel : Nat) (env : Collab) (s : TVRec)
    (hi : s.internalState = kState_WatchingLiveTV) (hd : s.desiredNextState = kState_None) :
    ∃ s', HandleStateChange b fuel env s = .ok s' ∧ s'.internalState = kState_None ∧
      ∃ added, s'.events = s.events ++ added ∧ queuedMasks added = [] := by
  rw [HandleStateChange_live_to_none b fuel env s hi hd]
  refine ⟨_, rfl, rfl, ?_⟩
  obtain ⟨added, he, hq⟩ := TeardownRecorder_added true
    (if s.channel then (hscEntry s).emit .channel_StoreInputChannels else hscEntry s)
  have hq2 : queuedMasks added = [] := by
    rw [hq]
    simp
  show ∃ added, (TeardownRecorder true _).events = s.events ++ added ∧ _
  rw [he]
  cases hc : s.channel
  · exact ⟨added, rfl, hq2⟩
  · refine ⟨[Event.channel_StoreInputChannels] ++ added, ?_, ?_⟩
    · simp [TVRec.emit, hscEntry]
    · rw [queuedMasks_append, hq2]
      rfl

/-- Claim C27. `TeardownRecorder(killFile)` only adds to the trace of effects,
and the job masks it hands to `JobQueue::QueueJobs` are the single mask
`autoRunJobs` when a current recording exists, `autoRunJobs` is non-zero,
`killFile` is false and `prematurelystopped` is false, and none otherwise; in
every case it ends with `recorder`, `rbuffer` and `curRecording` null.  The
transition WatchingLiveTV → None always completes, ends in None and queues no
job, and in every reachable coordinator in WatchingLiveTV the job mask is
`JOB_NONE`. -/
theorem TeardownRecorder_queues_jobs_exactly_when (killFile : Bool) (s : TVRec) :
    s.events <+: (TeardownRecorder killFile s).events ∧
    jobsQueuedBetween s (TeardownRecorder killFile s) =
      (if s.curRecording.isSome = true ∧ s.autoRunJobs ≠ 0 ∧ killFile = false ∧
          s.prematurelystopped = false then [s.autoRunJobs] else []) ∧
    (TeardownRecorder killFile s).recorder = none ∧
    (TeardownRecorder killFile s).rbuffer = none ∧
    (TeardownRecorder killFile s).curRecording = none ∧
    (∀ (b : Build) (fuel : Nat) (env : Collab),
      s.internalState = kState_WatchingLiveTV → s.desiredNextState = kState_None →
      ∃ s', HandleStateChange b fuel env s = .ok s' ∧ s'.internalState = kState_None ∧
        s.events <+: s'.events ∧ jobsQueuedBetween s s' = []) ∧
    (∀ (b : Build), Reachable b s → s.internalState = kState_WatchingLiveTV →
      s.autoRunJobs = JOB_NONE) := by
  obtain ⟨added, he, hq⟩ := TeardownRecorder_added killFile s
  obtain ⟨h1, h2, h3, -⟩ := TeardownRecorder_fields killFile s
  refine ⟨⟨added, he.symm⟩, ?_, h1, h2, h3, ?_, ?_⟩
  · rw [jobsQueuedBetween_append s _ added he, hq]
  · intro b fuel env hi hd
    obtain ⟨s', hs', hn, add2, he2, hq2⟩ := live_teardown_added b fuel env s hi hd
    exact ⟨s', hs', hn, ⟨add2, he2.symm⟩, by rw [jobsQueuedBetween_append s s' add2 he2, hq2]⟩
  · intro b hr
    exact Reachable_live_mask b s hr

/-- The statement of C27 at a finished recording with job mask 3 (the mask is
queued), at the same recording when its file is deleted (nothing is queued),
and at the end of a live-TV session. -/
theorem TeardownRecorder_queues_jobs_exactly_when_witness :
    jobsQueuedBetween sampleRecordingJobs (TeardownRecorder false sampleRecordingJobs) = [3] ∧
    jobsQueuedBetween sampleRecordingJobs (TeardownRecorder true sampleRecordingJobs) = [] ∧
    (ChangeState kState_None sampleWatching).internalState = kState_WatchingLiveTV ∧
    (∃ s', HandleStateChange sampleBuild 5 sampleCollab (ChangeState kState_None sampleWatching)
        = .ok s' ∧ s'.internalState = kState_None ∧
      (ChangeState kState_None sampleWatching).events <+: s'.events ∧
      jobsQueuedBetween (ChangeState kState_None sampleWatching) s' = []) :=
  ⟨(TeardownRecorder_queues_jobs_exactly_when false sampleRecordingJobs).2.1.trans (by decide),
    (TeardownRecorder_queues_jobs_exactly_when true sampleRecordingJobs).2.1.trans (by decide),
    rfl,
    (TeardownRecorder_queues_jobs_exactly_when true
      (ChangeState kState_None sampleWatching)).2.2.2.2.2.1 sampleBuild 5 sampleCollab rfl rfl⟩

/-! ## A request for the current state is never completed -/

theorem null_iteration (b : Build) (t : Tick) (s : TVRec)
    (hnull : s.desiredNextState = s.internalState) (hc : s.changeState = true) :
    RunTV_iteration b t s =
      .ok (if s.errored then ({ hscEntry s with runMainLoop := false }, true)
           else (checkExitPlayer (checkRecordingEnd t (hscEntry s)), false)) := by
  unfold RunTV_iteration
  rw [if_pos hc, HandleStateChange_null b t.fuel t.collab s hnull]
  have ha : askPendingRecording t (hscEntry s) = .ok (hscEntry s) := by
    unfold askPendingRecording
    simp [hscEntry]
  have hE : IsErrored (hscEntry s) = s.errored := rfl
  dsimp only
  rw [hE]
  cases he : s.errored
  · simp only [Bool.false_eq_true, if_false, ha]
  · simp only [if_true]

theorem checkRecordingEnd_changeState (t : Tick) (s : TVRec) (hc : s.changeState = true) :
    (checkRecordingEnd t s).changeState = true := by
  unfold checkRecordingEnd
  split
  · split
    · split
      · exact hc
      · rfl
    · exact hc
  · exact hc

theorem checkExitPlayer_changeState (s : TVRec) (hc : s.changeState = true) :
    (checkExitPlayer s).changeState = true := by
  unfold checkExitPlayer
  split
  · split
    · rfl
    · split
      · rfl
      · exact hc
  · exact hc

theorem checkRecordingEnd_idle (t : Tick) (s : TVRec)
    (h : s.internalState ≠ kState_RecordingOnly) : checkRecordingEnd t s = s := by
  unfold checkRecordingEnd
  rw [if_neg]
  simpa [StateIsRecording] using h

theorem checkExitPlayer_idle (s : TVRec) (h : s.exitPlayer = false) : checkExitPlayer s = s := by
  unfold checkExitPlayer
  rw [if_neg]
  simp [h]

theorem null_step (b : Build) (t : Tick) (s : TVRec)
    (hnull : s.desiredNextState = s.internalState) (hc : s.changeState = true)
    (hr : s.internalState ≠ kState_RecordingOnly) (hx : s.exitPlayer = false) :
    ∃ s', eventThreadStep b t s = .ok s' ∧ s'.desiredNextState = s'.internalState ∧
      s'.changeState = true ∧ s'.internalState = s.internalState ∧ s'.exitPlayer = false := by
  unfold eventThreadStep
  split
  · rw [null_iteration b t s hnull hc]
    cases he : s.errored
    · rw [checkRecordingEnd_idle t (hscEntry s) hr, checkExitPlayer_idle (hscEntry s) hx]
      exact ⟨_, rfl, hnull, hc, rfl, hx⟩
    · exact ⟨_, rfl, hnull, hc, rfl, hx⟩
  · exact ⟨_, rfl, hnull, hc, rfl, hx⟩

theorem null_wait (b : Build) (sched : List Tick) :
    ∀ (s : TVRec), s.desiredNextState = s.internalState → s.changeState = true →
      s.internalState ≠ kState_RecordingOnly → s.exitPlayer = false →
      waitChangeState b sched s = .error .outOfFuel := by
  induction sched with
  | nil =>
    intro s _ hc _ _
    unfold waitChangeState
    rw [if_pos hc]
  | cons t rest ih =>
    intro s hnull hc hr hx
    obtain ⟨s', hs', h1, h2, h3, h4⟩ := null_step b t s hnull hc hr hx
    unfold waitChangeState
    rw [if_pos hc, hs']
    exact ih s' h1 h2 (by rw [h3]; exact hr) h4

/-- Claim C28. When `HandleStateChange` runs with `desiredNextState ==
internalState` it returns with `internalState`, `desiredNextState`, `recorder`,
`rbuffer`, `curRecording` and `changeState` unchanged and with no effect
recorded, having reset `frontendReady`, `askAllowRecording` and
`cancelNextRecording`; so with `changeState` set `GetState()` keeps returning
`kState_ChangingState`, every iteration of the event loop enters
`HandleStateChange` again and leaves `changeState` set (the target stays the
same unless the loop itself posts one: at the end of a recording or on
`exitPlayer`), and a caller waiting in `while (changeState)`, as `SpawnLiveTV`
does when live TV is already on, never gets out of the loop. -/
theorem null_transition_is_not_completed (b : Build) (fuel : Nat) (env : Collab) (s : TVRec)
    (hnull : s.desiredNextState = s.internalState) :
    (∃ s', HandleStateChange b fuel env s = .ok s' ∧
      s'.internalState = s.internalState ∧ s'.desiredNextState = s.desiredNextState ∧
      s'.recorder = s.recorder ∧ s'.rbuffer = s.rbuffer ∧ s'.curRecording = s.curRecording ∧
      s'.changeState = s.changeState ∧ s'.events = s.events ∧
      (s.changeState = true → GetState s' = kState_ChangingState) ∧
      s'.frontendReady = false ∧ s'.askAllowRecording = true ∧
      s'.cancelNextRecording = false) ∧
    (s.changeState = true → ∀ t : Tick, ∃ s' r, RunTV_iteration b t s = .ok (s', r) ∧
      s'.internalState = s.internalState ∧ s'.changeState = true ∧
      GetState s' = kState_ChangingState ∧
      s'.frontendReady = false ∧ s'.askAllowRecording = true ∧
      s'.cancelNextRecording = false ∧
      (s.internalState ≠ kState_RecordingOnly → s.exitPlayer = false →
        s'.desiredNextState = s.desiredNextState)) ∧
    (s.changeState = true → s.internalState ≠ kState_RecordingOnly → s.exitPlayer = false →
      ∀ sched : List Tick, waitChangeState b sched s = .error .outOfFuel) ∧
    (s.internalState = kState_WatchingLiveTV → s.exitPlayer = false →
      ∀ sched : List Tick, SpawnLiveTV b sched s = .error .outOfFuel) := by
  refine ⟨?_, ?_, ?_, ?_⟩
  · refine ⟨hscEntry s, HandleStateChange_null b fuel env s hnull, rfl, rfl, rfl, rfl, rfl, rfl,
      rfl, ?_, rfl, rfl, rfl⟩
    intro hc
    show (if s.changeState = true then kState_ChangingState else s.internalState) = _
    rw [if_pos hc]
  · intro hc t
    rw [null_iteration b t s hnull hc]
    cases he : s.errored
    · have hcs : (checkExitPlayer (checkRecordingEnd t (hscEntry s))).changeState = true :=
        checkExitPlayer_changeState _ (checkRecordingEnd_changeState t _ hc)
      refine ⟨_, _, rfl, ?_, hcs, ?_, ?_, ?_, ?_, ?_⟩
      · rw [checkExitPlayer_eq, checkRecordingEnd_eq]
        rfl
      · unfold GetState
        rw [if_pos hcs]
      · rw [checkExitPlayer_eq, checkRecordingEnd_eq]
        rfl
      · rw [checkExitPlayer_eq, checkRecordingEnd_eq]
        rfl
      · rw [checkExitPlayer_eq, checkRecordingEnd_eq]
        rfl
      · intro hr hx
        rw [checkRecordingEnd_idle t (hscEntry s) hr, checkExitPlayer_idle (hscEntry s) hx]
        rfl
    · refine ⟨_, _, rfl, rfl, hc, ?_, rfl, rfl, rfl, fun _ _ => rfl⟩
      show (if s.changeState = true then kState_ChangingState else s.internalState) = _
      rw [if_pos hc]
  · intro hc hr hx sched
    exact null_wait b sched s hnull hc hr hx
  · intro hi hx sched
    unfold SpawnLiveTV
    refine null_wait b sched (ChangeState kState_WatchingLiveTV s) ?_ rfl ?_ hx
    · exact hi.symm
    · show s.internalState ≠ _
      rw [hi]
      decide

/-- The statement of C28 at a coordinator showing live TV that has been asked
for WatchingLiveTV again, and at `SpawnLiveTV` called on it with three
iterations of the event loop scheduled. -/
theorem null_transition_is_not_completed_witness :
    sampleNullRequest.desiredNextState = sampleNullRequest.internalState ∧
    sampleNullRequest.changeState = true ∧
    (∃ s', HandleStateChange sampleBuild 5 sampleCollab sampleNullRequest = .ok s' ∧
      s'.internalState = sampleNullRequest.internalState ∧
      s'.desiredNextState = sampleNullRequest.desiredNextState ∧
      s'.recorder = sampleNullRequest.recorder ∧ s'.rbuffer = sampleNullRequest.rbuffer ∧
      s'.curRecording = sampleNullRequest.curRecording ∧
      s'.changeState = sampleNullRequest.changeState ∧ s'.events = sampleNullRequest.events ∧
      (sampleNullRequest.changeState = true → GetState s' = kState_ChangingState) ∧
      s'.frontendReady = false ∧ s'.askAllowRecording = true ∧
      s'.cancelNextRecording = false) ∧
    SpawnLiveTV sampleBuild [sampleTick 0 10, sampleTick 1 10, sampleTick 2 10] sampleWatching
      = .error .outOfFuel :=
  ⟨rfl, rfl,
    (null_transition_is_not_completed sampleBuild 5 sampleCollab sampleNullRequest rfl).1,
    rfl⟩

/-! ## Control signals -/

theorem Wait_not_running (c : ExitCodes) (now timeout : Int) (sched : List IterEnv) (p : Nat)
    (s : Proc) (hs : (s.heap p).m_status ≠ c.GENERIC_EXIT_RUNNING) :
    MythSystem.Wait c now timeout sched p s = .ok ((s.heap p).m_status, s, sched) := by
  unfold MythSystem.Wait
  rw [if_pos (Or.inl hs)]

theorem Term_not_running (c : ExitCodes) (now : Int) (sched : List IterEnv) (force : Bool)
    (p : Nat) (s : Proc) (hs : (s.heap p).m_status ≠ c.GENERIC_EXIT_RUNNING)
    (hp : (s.heap p).m_pid ≤ 0) :
    MythSystem.Term c now sched force p s =
      .ok (s.call [SysCall.kill (s.heap p).m_pid Signal.SIGTERM], sched) := by
  unfold MythSystem.Term
  rw [if_neg (fun h => absurd h.2 (not_lt.mpr hp))]
  dsimp only
  cases force
  · rfl
  · have hw := Wait_not_running c now 1 sched p
      (s.call [SysCall.kill (s.heap p).m_pid Signal.SIGTERM]) hs
    rw [if_pos rfl, hw]
    exact if_neg hs

/-- Claim C21. For a handle whose status is not `GENERIC_EXIT_RUNNING`, the
operations `Term`, `Kill`, `Stop`, `Cont`, `HangUp`, `USR1` and `USR2` do nothing
when `m_pid > 0`; when `m_pid <= 0` each of them calls `kill(m_pid, sig)` once
with its signal, `Term` with SIGTERM only (with and without `force`). -/
theorem control_ops_signal_handle_without_pid (c : ExitCodes) (p : Nat) (s : Proc)
    (hs : (s.heap p).m_status ≠ c.GENERIC_EXIT_RUNNING) :
    ((s.heap p).m_pid > 0 →
      MythSystem.Kill c p s = s ∧ MythSystem.Stop c p s = s ∧ MythSystem.Cont c p s = s ∧
      MythSystem.HangUp c p s = s ∧ MythSystem.USR1 c p s = s ∧ MythSystem.USR2 c p s = s ∧
      ∀ (now : Int) (sched : List IterEnv) (force : Bool),
        MythSystem.Term c now sched force p s = .ok (s, sched)) ∧
    ((s.heap p).m_pid ≤ 0 →
      MythSystem.Kill c p s = s.call [SysCall.kill (s.heap p).m_pid Signal.SIGKILL] ∧
      MythSystem.Stop c p s = s.call [SysCall.kill (s.heap p).m_pid Signal.SIGSTOP] ∧
      MythSystem.Cont c p s = s.call [SysCall.kill (s.heap p).m_pid Signal.SIGCONT] ∧
      MythSystem.HangUp c p s = s.call [SysCall.kill (s.heap p).m_pid Signal.SIGHUP] ∧
      MythSystem.USR1 c p s = s.call [SysCall.kill (s.heap p).m_pid Signal.SIGUSR1] ∧
      MythSystem.USR2 c p s = s.call [SysCall.kill (s.heap p).m_pid Signal.SIGUSR2] ∧
      ∀ (now : Int) (sched : List IterEnv) (force : Bool),
        MythSystem.Term c now sched force p s =
          .ok (s.call [SysCall.kill (s.heap p).m_pid Signal.SIGTERM], sched)) := by
  constructor
  · intro hp
    have hg : (s.heap p).m_status ≠ c.GENERIC_EXIT_RUNNING ∧ (s.heap p).m_pid > 0 := ⟨hs, hp⟩
    refine ⟨?_, ?_, ?_, ?_, ?_, ?_, ?_⟩
    · unfold MythSystem.Kill; rw [if_pos hg]
    · unfold MythSystem.Stop; rw [if_pos hg]
    · unfold MythSystem.Cont; rw [if_pos hg]
    · unfold MythSystem.HangUp; rw [if_pos hg]
    · unfold MythSystem.USR1; rw [if_pos hg]
    · unfold MythSystem.USR2; rw [if_pos hg]
    · intro now sched force
      unfold MythSystem.Term; rw [if_pos hg]
  · intro hp
    have hg : ¬((s.heap p).m_status ≠ c.GENERIC_EXIT_RUNNING ∧ (s.heap p).m_pid > 0) :=
      fun h => absurd h.2 (not_lt.mpr hp)
    refine ⟨?_, ?_, ?_, ?_, ?_, ?_, ?_⟩
    · unfold MythSystem.Kill; rw [if_neg hg]
    · unfold MythSystem.Stop; rw [if_neg hg]
    · unfold MythSystem.Cont; rw [if_neg hg]
    · unfold MythSystem.HangUp; rw [if_neg hg]
    · unfold MythSystem.USR1; rw [if_neg hg]
    · unfold MythSystem.USR2; rw [if_neg hg]
    · intro now sched force
      exact Term_not_running c now sched force p s hs hp

/-- The statement of C21 at a handle that was constructed in zero-filled memory
and never run: its status is `GENERIC_EXIT_START`, its `m_pid` is 0, and `Kill()`
sends SIGKILL to process id 0. -/
theorem control_ops_signal_handle_without_pid_witness :
    (sampleProcNeverRun.heap 2).m_status = sampleCodes.GENERIC_EXIT_START ∧
    (sampleProcNeverRun.heap 2).m_status ≠ sampleCodes.GENERIC_EXIT_RUNNING ∧
    (sampleProcNeverRun.heap 2).m_pid = 0 ∧
    (MythSystem.Kill sampleCodes 2 sampleProcNeverRun).kills = [(0, Signal.SIGKILL)] ∧
    MythSystem.Kill sampleCodes 2 sampleProcNeverRun =
      sampleProcNeverRun.call [SysCall.kill 0 Signal.SIGKILL] :=
  ⟨by decide, by decide, by decide, by decide,
    ((control_ops_signal_handle_without_pid sampleCodes 2 sampleProcNeverRun (by decide)).2
      (by decide)).1⟩

/-! ## Waiting for a process -/

theorem tryLock_held (c : ExitCodes) (p : Nat) (s : Proc) (hl : (s.heap p).m_pmutex = true) :
    ∀ (n : Nat) (sched : List IterEnv),
      ∃ rest, m_pmutex_tryLock c p n sched s = .ok (false, s, rest) := by
  intro n
  induction n with
  | zero =>
    intro sched
    unfold m_pmutex_tryLock
    rw [if_pos hl]
    exact ⟨_, rfl⟩
  | succ n ih =>
    intro sched
    unfold m_pmutex_tryLock
    rw [if_pos hl]
    cases sched with
    | nil => exact ⟨_, rfl⟩
    | cons e rest =>
      dsimp only
      rw [run_iteration_id]
      exact ih rest

theorem lock_held (c : ExitCodes) (p : Nat) (s : Proc) (hl : (s.heap p).m_pmutex = true) :
    ∀ (sched : List IterEnv), m_pmutex_lock c p sched s = .error .blocked := by
  intro sched
  induction sched with
  | nil =>
    unfold m_pmutex_lock
    rw [if_pos hl]
  | cons e rest ih =>
    unfold m_pmutex_lock
    rw [if_pos hl, run_iteration_id]
    exact ih

theorem pumpEvents_held (c : ExitCodes) (p : Nat) (deadline : Int) (s : Proc)
    (hl : (s.heap p).m_pmutex = true) :
    ∀ (sched : List IterEnv) (nowMs : Int),
      ∃ rest, pumpEvents c p deadline nowMs sched s = .ok (s, rest) := by
  intro sched
  induction sched with
  | nil =>
    intro nowMs
    unfold pumpEvents
    by_cases hd : nowMs / 1000 < deadline
    · rw [if_pos hd, if_pos hl]
      exact ⟨_, rfl⟩
    · rw [if_neg hd]
      exact ⟨_, rfl⟩
  | cons e rest ih =>
    intro nowMs
    unfold pumpEvents
    by_cases hd : nowMs / 1000 < deadline
    · rw [if_pos hd, if_pos hl, run_iteration_id]
      dsimp only
      rw [if_pos hl]
      exact ih (nowMs + 100)
    · rw [if_neg hd]
      exact ⟨_, rfl⟩

/-- Claim C22. For a handle that is Running and not in the background: without
event pumping `Wait(0)` returns `GENERIC_EXIT_RUNNING` at once, whatever the
state of the launch lock and without the reaper making any iteration, and
`Wait(t)` with `t > 0` called while the launch lock is held does not return
after its timed attempt (it goes on to `m_pmutex.lock()`, and the reaper loop
of `mythsystem.cpp` never releases a launch lock); with event pumping `Wait` returns
`GENERIC_EXIT_RUNNING` for every timeout while the lock is held. -/
theorem Wait_without_event_pumping (c : ExitCodes) (now : Int) (sched : List IterEnv) (p : Nat)
    (s : Proc) (hrun : (s.heap p).m_status = c.GENERIC_EXIT_RUNNING)
    (hbg : (s.heap p).m_runinbackground = false) :
    ((s.heap p).m_processevents = false →
      MythSystem.Wait c now 0 sched p s = .ok (c.GENERIC_EXIT_RUNNING, s, sched) ∧
      ∀ timeout : Int, timeout > 0 → (s.heap p).m_pmutex = true →
        MythSystem.Wait c now timeout sched p s = .error .blocked) ∧
    ((s.heap p).m_processevents = true → (s.heap p).m_pmutex = true →
      ∀ timeout : Int, ∃ rest,
        MythSystem.Wait c now timeout sched p s = .ok (c.GENERIC_EXIT_RUNNING, s, rest)) := by
  have hg : ¬((s.heap p).m_status ≠ c.GENERIC_EXIT_RUNNING ∨
      (s.heap p).m_runinbackground = true) := by
    rw [hrun, hbg]
    simp
  constructor
  · intro hpe
    constructor
    · unfold MythSystem.Wait
      rw [if_neg hg, hpe]
      unfold Wait_blocking
      simp only [Bool.false_eq_true, if_false, gt_iff_lt, lt_self_iff_false]
      rw [hrun]
    · intro timeout ht hl
      unfold MythSystem.Wait
      rw [if_neg hg, hpe]
      unfold Wait_blocking
      obtain ⟨rest, hrest⟩ := tryLock_held c p s hl (timeout * 1000 / 100).toNat sched
      simp only [Bool.false_eq_true, if_false, if_pos ht, hrest, lock_held c p s hl rest]
  · intro hpe hl timeout
    unfold MythSystem.Wait
    rw [if_neg hg, hpe]
    obtain ⟨rest, hrest⟩ := pumpEvents_held c p
      (if timeout > 0 then timeout + now else 2147483648) s hl sched (now * 1000)
    refine ⟨rest, ?_⟩
    simp only [if_true, hrest]
    rw [hrun]

/-- The statement of C22 at the handle that `Run(2)` has just launched (Running,
not in the background, no event pumping, launch lock held) with one reaper
iteration scheduled in which `waitpid` reports the exit of the child: `Wait(0)`
returns `GENERIC_EXIT_RUNNING` at once, and `Wait(1)` does not return. -/
theorem Wait_without_event_pumping_witness :
    (sampleTracking.heap 0).m_status = sampleCodes.GENERIC_EXIT_RUNNING ∧
    (sampleTracking.heap 0).m_runinbackground = false ∧
    (sampleTracking.heap 0).m_processevents = false ∧
    (sampleTracking.heap 0).m_pmutex = true ∧
    MythSystem.Wait sampleCodes 0 0 [sampleIter [(100, 0)] 1] 0 sampleTracking =
      .ok (sampleCodes.GENERIC_EXIT_RUNNING, sampleTracking, [sampleIter [(100, 0)] 1]) ∧
    MythSystem.Wait sampleCodes 0 1 [sampleIter [(100, 0)] 1] 0 sampleTracking =
      .error .blocked :=
  ⟨by decide, by decide, by decide, by decide,
    ((Wait_without_event_pumping sampleCodes 0 [sampleIter [(100, 0)] 1] 0 sampleTracking
      (by decide) (by decide)).1 (by decide)).1,
    ((Wait_without_event_pumping sampleCodes 0 [sampleIter [(100, 0)] 1] 0 sampleTracking
      (by decide) (by decide)).1 (by decide)).2 1 (by decide) (by decide)⟩

/-! ## Configuration flags -/

theorem and_or_ne_zero (a r k : Nat) (h : a &&& k ≠ 0) : (a ||| r) &&& k ≠ 0 := by
  intro h2
  apply h
  apply Nat.eq_of_testBit_eq
  intro i
  have := congrArg (fun x => x.testBit i) h2
  simp only [Nat.testBit_and, Nat.testBit_or, Nat.zero_testBit] at this ⊢
  cases ha : a.testBit i <;> cases hk : k.testBit i <;> simp_all

theorem ProcessFlags_stdio (c : ExitCodes) (inUI : Bool) (flags : Nat) (h : MythSystem)
    (hs : h.m_status = c.GENERIC_EXIT_START) :
    (ProcessFlags c inUI flags h).m_usestdin = ((flags &&& kMSStdIn) != 0) ∧
    (ProcessFlags c inUI flags h).m_usestdout = ((flags &&& kMSStdOut) != 0) ∧
    (ProcessFlags c inUI flags h).m_usestderr = ((flags &&& kMSStdErr) != 0) ∧
    (ProcessFlags c inUI flags h).m_bufferedio = ((flags &&& kMSBuffered) != 0) := by
  unfold ProcessFlags
  dsimp only
  rw [if_neg (not_not.mpr hs)]
  unfold stdioFlags uiFlags backgroundFlags
  dsimp only
  split <;> split <;> (try split) <;> simp

/-- Claim C23. The constants `kMSStdIn`, `kMSStdOut`, `kMSStdErr` and
`kMSBuffered` share the bit `kMSInUi` with one another, and each of them shares
a bit with one of `kMSDontBlockInputDevs`, `kMSDontDisableDrawing`,
`kMSRunBackground` and `kMSProcessEvents`.  For a handle in
`GENERIC_EXIT_START`, `ProcessFlags` sets each of `m_usestdin`, `m_usestdout`,
`m_usestderr` and `m_bufferedio` exactly when the flags have some bit of the
constant in question; so flags that contain any one of the four constants
enable all four options, and each of the four low option bits alone enables
one of them. -/
theorem stdio_flag_constants_overlap (c : ExitCodes) (inUI : Bool) (h : MythSystem)
    (hs : h.m_status = c.GENERIC_EXIT_START) :
    (kMSStdIn &&& kMSStdOut ≠ 0 ∧ kMSStdIn &&& kMSStdErr ≠ 0 ∧ kMSStdIn &&& kMSBuffered ≠ 0 ∧
      kMSStdOut &&& kMSStdErr ≠ 0 ∧ kMSStdOut &&& kMSBuffered ≠ 0 ∧
      kMSStdErr &&& kMSBuffered ≠ 0 ∧
      kMSStdIn &&& kMSDontBlockInputDevs ≠ 0 ∧ kMSStdOut &&& kMSDontDisableDrawing ≠ 0 ∧
      kMSStdErr &&& kMSRunBackground ≠ 0 ∧ kMSBuffered &&& kMSProcessEvents ≠ 0) ∧
    (∀ flags : Nat,
      (ProcessFlags c inUI flags h).m_usestdin = ((flags &&& kMSStdIn) != 0) ∧
      (ProcessFlags c inUI flags h).m_usestdout = ((flags &&& kMSStdOut) != 0) ∧
      (ProcessFlags c inUI flags h).m_usestderr = ((flags &&& kMSStdErr) != 0) ∧
      (ProcessFlags c inUI flags h).m_bufferedio = ((flags &&& kMSBuffered) != 0)) ∧
    (∀ k rest : Nat, k = kMSStdIn ∨ k = kMSStdOut ∨ k = kMSStdErr ∨ k = kMSBuffered →
      (ProcessFlags c inUI (k ||| rest) h).m_usestdin = true ∧
      (ProcessFlags c inUI (k ||| rest) h).m_usestdout = true ∧
      (ProcessFlags c inUI (k ||| rest) h).m_usestderr = true ∧
      (ProcessFlags c inUI (k ||| rest) h).m_bufferedio = true) ∧
    (∀ rest : Nat,
      (ProcessFlags c inUI (kMSDontBlockInputDevs ||| rest) h).m_usestdin = true ∧
      (ProcessFlags c inUI (kMSDontDisableDrawing ||| rest) h).m_usestdout = true ∧
      (ProcessFlags c inUI (kMSRunBackground ||| rest) h).m_usestderr = true ∧
      (ProcessFlags c inUI (kMSProcessEvents ||| rest) h).m_bufferedio = true) := by
  refine ⟨by decide, fun flags => ProcessFlags_stdio c inUI flags h hs, ?_, ?_⟩
  · intro k rest hk
    obtain ⟨h1, h2, h3, h4⟩ := ProcessFlags_stdio c inUI (k ||| rest) h hs
    rw [h1, h2, h3, h4]
    have e1 : k &&& kMSStdIn ≠ 0 := by rcases hk with hk | hk | hk | hk <;> rw [hk] <;> decide
    have e2 : k &&& kMSStdOut ≠ 0 := by rcases hk with hk | hk | hk | hk <;> rw [hk] <;> decide
    have e3 : k &&& kMSStdErr ≠ 0 := by rcases hk with hk | hk | hk | hk <;> rw [hk] <;> decide
    have e4 : k &&& kMSBuffered ≠ 0 := by rcases hk with hk | hk | hk | hk <;> rw [hk] <;> decide
    exact ⟨bne_iff_ne.mpr (and_or_ne_zero k rest _ e1), bne_iff_ne.mpr (and_or_ne_zero k rest _ e2),
      bne_iff_ne.mpr (and_or_ne_zero k rest _ e3), bne_iff_ne.mpr (and_or_ne_zero k rest _ e4)⟩
  · intro rest
    rw [(ProcessFlags_stdio c inUI _ h hs).1, (ProcessFlags_stdio c inUI _ h hs).2.1,
      (ProcessFlags_stdio c inUI _ h hs).2.2.1, (ProcessFlags_stdio c inUI _ h hs).2.2.2]
    exact ⟨bne_iff_ne.mpr (and_or_ne_zero _ rest _ (by decide)),
      bne_iff_ne.mpr (and_or_ne_zero _ rest _ (by decide)),
      bne_iff_ne.mpr (and_or_ne_zero _ rest _ (by decide)),
      bne_iff_ne.mpr (and_or_ne_zero _ rest _ (by decide))⟩

/-- The statement of C23 at a freshly initialised handle and the flags
`kMSStdOut`: all four options are enabled. -/
theorem stdio_flag_constants_overlap_witness :
    (MythSystem.initial sampleCodes sampleMem).m_status = sampleCodes.GENERIC_EXIT_START ∧
    (ProcessFlags sampleCodes false kMSStdOut
      (MythSystem.initial sampleCodes sampleMem)).m_usestdin = true ∧
    (ProcessFlags sampleCodes false kMSStdOut
      (MythSystem.initial sampleCodes sampleMem)).m_usestdout = true ∧
    (ProcessFlags sampleCodes false kMSStdOut
      (MythSystem.initial sampleCodes sampleMem)).m_usestderr = true ∧
    (ProcessFlags sampleCodes false kMSStdOut
      (MythSystem.initial sampleCodes sampleMem)).m_bufferedio = true :=
  ⟨rfl, (stdio_flag_constants_overlap sampleCodes false
      (MythSystem.initial sampleCodes sampleMem) rfl).2.2.1 kMSStdOut 0 (Or.inr (Or.inl rfl))⟩

/-! ## Reading the output of a process -/

/-- Claim C24. Without buffering, `Read(size)` looks at the standard-input
descriptor `m_stdpipe[0]`: when that is closed it returns an empty array
without reading anything, whatever the state of the standard-output
descriptor, and when it is open it passes `m_stdpipe[1]` to `read()` with a
block of zero bytes, so that it returns an empty array or runs past the block;
`ReadErr(size)` does the same with `m_stdpipe[1]` as the test and `m_stdpipe[2]`
as the descriptor read; `ReadAll()` and `ReadAllErr()` return an empty array.
With buffering, `ReadAll()` and `ReadAllErr()` return the buffered output of
standard output and standard error, and `Read`/`ReadErr` return what the buffer
device gives to a read of at most `size` bytes. -/
theorem unbuffered_read_returns_no_output (env : ReadEnv) (size : Nat) (h : MythSystem) :
    (h.m_bufferedio = false →
      (h.m_stdpipe0 ≤ -1 → h.Read env size = .ok ([], none)) ∧
      (h.m_stdpipe0 > -1 →
        h.Read env size =
          if env.callocNull then .ok ([], some h.m_stdpipe1) else .error .overrun) ∧
      (h.m_stdpipe1 ≤ -1 → h.ReadErr env size = .ok ([], none)) ∧
      (h.m_stdpipe1 > -1 →
        h.ReadErr env size =
          if env.callocNull then .ok ([], some h.m_stdpipe2) else .error .overrun) ∧
      (∀ data fd, h.Read env size = .ok (data, fd) → data = []) ∧
      (∀ data fd, h.ReadErr env size = .ok (data, fd) → data = []) ∧
      h.ReadAll = [] ∧ h.ReadAllErr = []) ∧
    (h.m_bufferedio = true →
      h.Read env size = .ok (env.available.take size, none) ∧
      h.ReadErr env size = .ok (env.available.take size, none) ∧
      h.ReadAll = h.m_stdbuff0 ∧ h.ReadAllErr = h.m_stdbuff1) := by
  constructor
  · intro hb
    refine ⟨?_, ?_, ?_, ?_, ?_, ?_, ?_, ?_⟩
    · intro hp
      unfold MythSystem.Read MythSystem._read
      rw [hb]
      simp only [Bool.false_eq_true, if_false, MythSystem.m_stdpipe]
      rw [if_neg (not_lt.mpr hp)]
    · intro hp
      unfold MythSystem.Read MythSystem._read
      rw [hb]
      simp only [Bool.false_eq_true, if_false, MythSystem.m_stdpipe]
      rw [if_pos hp]
    · intro hp
      unfold MythSystem.ReadErr MythSystem._read
      rw [hb]
      simp only [Bool.false_eq_true, if_false, MythSystem.m_stdpipe]
      rw [if_neg (not_lt.mpr hp)]
    · intro hp
      unfold MythSystem.ReadErr MythSystem._read
      rw [hb]
      simp only [Bool.false_eq_true, if_false, MythSystem.m_stdpipe]
      rw [if_pos hp]
    · intro data fd hr
      unfold MythSystem.Read MythSystem._read at hr
      rw [hb] at hr
      simp only [Bool.false_eq_true, if_false] at hr
      split at hr
      · split at hr
        · simp only [Except.ok.injEq, Prod.mk.injEq] at hr
          exact hr.1.symm
        · cases hr
      · simp only [Except.ok.injEq, Prod.mk.injEq] at hr
        exact hr.1.symm
    · intro data fd hr
      unfold MythSystem.ReadErr MythSystem._read at hr
      rw [hb] at hr
      simp only [Bool.false_eq_true, if_false] at hr
      split at hr
      · split at hr
        · simp only [Except.ok.injEq, Prod.mk.injEq] at hr
          exact hr.1.symm
        · cases hr
      · simp only [Except.ok.injEq, Prod.mk.injEq] at hr
        exact hr.1.symm
    · unfold MythSystem.ReadAll MythSystem._readall
      rw [hb]
      rfl
    · unfold MythSystem.ReadAllErr MythSystem._readall
      rw [hb]
      rfl
  · intro hb
    refine ⟨?_, ?_, ?_, ?_⟩
    · unfold MythSystem.Read MythSystem._read
      rw [hb]
      rfl
    · unfold MythSystem.ReadErr MythSystem._read
      rw [hb]
      rfl
    · unfold MythSystem.ReadAll MythSystem._readall
      rw [hb]
      rfl
    · unfold MythSystem.ReadAllErr MythSystem._readall
      rw [hb]
      rfl

/-- The statement of C24 at a running handle without buffering whose
standard-output descriptor is open (5) and whose standard-input descriptor is
closed: `Read(16)` returns an empty array and reads no descriptor. -/
theorem unbuffered_read_returns_no_output_witness :
    sampleStdoutHandle.m_bufferedio = false ∧ sampleStdoutHandle.m_stdpipe1 = 5 ∧
    sampleStdoutHandle.m_stdpipe0 = -1 ∧
    sampleStdoutHandle.Read { available := [], callocNull := true } 16 = .ok ([], none) ∧
    sampleStdoutHandle.ReadAll = [] :=
  ⟨by decide, by decide, by decide,
    ((unbuffered_read_returns_no_output { available := [], callocNull := true } 16
      sampleStdoutHandle).1 (by decide)).1 (by decide),
    by decide⟩

/-! ## Buffering of output by the reaper -/

theorem takeWhile_ne_zero_eq (data : List Nat) :
    data.takeWhile (fun x => x ≠ 0) = data ↔ 0 ∉ data := by
  rw [List.takeWhile_eq_self_iff]
  constructor
  · intro h hz
    simpa using h 0 hz
  · intro h x hx
    simp only [ne_eq, decide_not, Bool.not_eq_true', decide_eq_false_iff_not]
    intro hx0
    exact h (hx0 ▸ hx)

/-- Claim C25. When the reaper reads a chunk `data` from a ready descriptor
registered for an output buffer: a chunk of 65536 bytes (or more) without a
zero byte makes `append(buf)` run past the array `buf`; otherwise the buffer
grows by the bytes of the chunk that come before its first zero byte.  So the
buffer grows by exactly the chunk if and only if the chunk holds no zero byte
and is shorter than 65536 bytes. -/
theorem readReady_appends_up_to_first_zero (io : IoEnv) (nfds : Nat) (s : Proc) (fd : Int)
    (ref : BufRef) (data : List Nat)
    (hready : 0 ≤ fd ∧ fd < nfds ∧ io.readable fd = true)
    (hread : io.read fd = some data) :
    ((65536 ≤ data.length ∧ 0 ∉ data) →
      readReady io nfds s (fd, ref) = .error .overrun) ∧
    (¬(65536 ≤ data.length ∧ 0 ∉ data) →
      ∃ s1, readReady io nfds s (fd, ref) = .ok s1 ∧
        ref.contents s1 = ref.contents s ++ data.takeWhile (fun x => x ≠ 0)) ∧
    ((∃ s1, readReady io nfds s (fd, ref) = .ok s1 ∧
        ref.contents s1 = ref.contents s ++ data) ↔
      (0 ∉ data ∧ data.length < 65536)) := by
  have hover : (65536 ≤ data.length ∧ 0 ∉ data) →
      readReady io nfds s (fd, ref) = .error .overrun := by
    intro hov
    unfold readReady
    rw [if_pos hready, hread]
    dsimp only
    rw [if_pos hov]
  have hok : ¬(65536 ≤ data.length ∧ 0 ∉ data) →
      ∃ s1, readReady io nfds s (fd, ref) = .ok s1 ∧
        ref.contents s1 = ref.contents s ++ data.takeWhile (fun x => x ≠ 0) := by
    intro hov
    unfold readReady
    rw [if_pos hready, hread]
    dsimp only
    rw [if_neg hov]
    cases ref with
    | stdbuff0 ms =>
      refine ⟨_, rfl, ?_⟩
      simp [BufRef.contents, Proc.store, appendCString]
    | stdbuff1 ms =>
      refine ⟨_, rfl, ?_⟩
      simp [BufRef.contents, Proc.store, appendCString]
  refine ⟨hover, hok, ?_⟩
  constructor
  · rintro ⟨s1, hs1, hbuf⟩
    by_cases hov : 65536 ≤ data.length ∧ 0 ∉ data
    · rw [hover hov] at hs1
      cases hs1
    · obtain ⟨s2, hs2, hbuf2⟩ := hok hov
      rw [hs1] at hs2
      simp only [Except.ok.injEq] at hs2
      subst hs2
      rw [hbuf] at hbuf2
      have hz : 0 ∉ data := (takeWhile_ne_zero_eq data).mp (List.append_cancel_left hbuf2).symm
      refine ⟨hz, ?_⟩
      by_contra hlen
      exact hov ⟨not_lt.mp hlen, hz⟩
  · rintro ⟨hz, hlen⟩
    obtain ⟨s1, hs1, hbuf⟩ := hok (fun h => absurd hlen (not_lt.mpr h.1))
    refine ⟨s1, hs1, ?_⟩
    rw [hbuf, (takeWhile_ne_zero_eq data).mpr hz]

/-- The statement of C25 at a chunk of the three bytes 65, 0, 66 read from the
ready descriptor 5 for a buffer that holds 1, 2: the buffer becomes 1, 2, 65. -/
theorem readReady_appends_up_to_first_zero_witness :
    (BufRef.stdbuff0 3).contents sampleProcBuffering = [1, 2] ∧
    (∃ s1, readReady (sampleReads [65, 0, 66]) 6 sampleProcBuffering (5, BufRef.stdbuff0 3)
        = .ok s1 ∧
      (BufRef.stdbuff0 3).contents s1 = [1, 2, 65]) :=
  ⟨by decide,
    (readReady_appends_up_to_first_zero (sampleReads [65, 0, 66]) 6 sampleProcBuffering 5
      (BufRef.stdbuff0 3) [65, 0, 66] (by decide) rfl).2.1 (by decide)⟩

/-! ## The helper `myth_system` and the command-string constructor -/

theorem and_RunShell (flags : Nat) :
    flags &&& kMSRunShell = 0 ∨ flags &&& kMSRunShell = kMSRunShell := by
  have h5 := Nat.and_two_pow flags 5
  unfold kMSRunShell
  cases h : flags.testBit 5 <;> simp [h] at h5 <;> omega

theorem fromCommand_eq (c : ExitCodes) (inUI : Bool) (mem : Indeterminate) (command : String)
    (flags : Nat) :
    MythSystem.fromCommand c inUI mem command flags =
      { MythSystem.initial c mem with
          m_runinbackground := decide (flags &&& kMSRunBackground ≠ 0),
          m_isinui := inUI,
          m_blockinputdevs := inUI && (flags &&& kMSDontBlockInputDevs) == 0,
          m_disabledrawing := inUI && (flags &&& kMSDontDisableDrawing) == 0,
          m_processevents := inUI && (flags &&& kMSProcessEvents) != 0,
          m_usestdin := (flags &&& kMSStdIn) != 0,
          m_usestdout := (flags &&& kMSStdOut) != 0,
          m_usestderr := (flags &&& kMSStdErr) != 0,
          m_bufferedio := (flags &&& kMSBuffered) != 0,
          m_useshell := true,
          m_command := command } := by
  unfold MythSystem.fromCommand ProcessFlags MythSystem.initial
  dsimp only
  rw [if_neg (not_not.mpr rfl)]
  unfold stdioFlags uiFlags backgroundFlags
  dsimp only
  have he : QString.endsWith "" "&" = false := by decide
  rw [he]
  by_cases hb : flags &&& kMSRunBackground ≠ 0
  · rw [if_pos hb]
    cases inUI <;> simp [hb]
  · rw [if_neg hb]
    cases inUI <;> simp [hb]

theorem fromCommand_fields (c : ExitCodes) (inUI : Bool) (mem : Indeterminate) (command : String)
    (flags : Nat) :
    (MythSystem.fromCommand c inUI mem command flags).m_runinbackground =
      decide (flags &&& kMSRunBackground ≠ 0) ∧
    (MythSystem.fromCommand c inUI mem command flags).m_useshell = true ∧
    (MythSystem.fromCommand c inUI mem command flags).m_command = command ∧
    (MythSystem.fromCommand c inUI mem command flags).m_status = c.GENERIC_EXIT_START := by
  rw [fromCommand_eq]
  exact ⟨rfl, rfl, rfl, rfl⟩

theorem myth_system_handle_eq (c : ExitCodes) (inUI : Bool) (mem : Indeterminate)
    (command : String) (flags : Nat) :
    myth_system_handle c inUI mem command flags =
      MythSystem.fromCommand c inUI mem command 0 := by
  unfold myth_system_handle
  dsimp only
  rw [fromCommand_eq, fromCommand_eq]
  rcases and_RunShell flags with h | h
  · rw [h]
    rfl
  · rw [h]
    cases inUI <;> rfl

/-- Claim C29. The handle `myth_system` constructs receives `flags &
kMSRunShell`: it is the handle the constructor builds for that value, which is
the same handle for every `flags` (run-shell is forced by the constructor): not
in the background, no stdio pipes, no buffering, no event pumping, input
devices blocked and drawing disabled exactly in the UI thread.  Two calls whose
flags agree on `kMSRunShell` build the same handle and behave alike. -/
theorem myth_system_forwards_only_run_shell (c : ExitCodes) (inUI : Bool) (mem : Indeterminate)
    (command : String) (flags : Nat) :
    myth_system_handle c inUI mem command flags =
      MythSystem.fromCommand c inUI mem command (flags &&& kMSRunShell) ∧
    (myth_system_handle c inUI mem command flags).m_runinbackground = false ∧
    (myth_system_handle c inUI mem command flags).m_blockinputdevs = inUI ∧
    (myth_system_handle c inUI mem command flags).m_disabledrawing = inUI ∧
    (myth_system_handle c inUI mem command flags).m_processevents = false ∧
    (myth_system_handle c inUI mem command flags).m_usestdin = false ∧
    (myth_system_handle c inUI mem command flags).m_usestdout = false ∧
    (myth_system_handle c inUI mem command flags).m_usestderr = false ∧
    (myth_system_handle c inUI mem command flags).m_bufferedio = false ∧
    (myth_system_handle c inUI mem command flags).m_useshell = true ∧
    (myth_system_handle c inUI mem command flags).m_command = command ∧
    (∀ flags2 : Nat, flags2 &&& kMSRunShell = flags &&& kMSRunShell →
      myth_system_handle c inUI mem command flags2 =
        myth_system_handle c inUI mem command flags ∧
      ∀ (env : ForkEnv) (now nowWait : Int) (sched : List IterEnv) (p timeout : Nat) (s : Proc),
        myth_system c inUI mem env now nowWait sched p command flags2 timeout s =
          myth_system c inUI mem env now nowWait sched p command flags timeout s) := by
  have h0 : myth_system_handle c inUI mem command flags =
      MythSystem.fromCommand c inUI mem command 0 :=
    myth_system_handle_eq c inUI mem command flags
  refine ⟨?_, ?_, ?_, ?_, ?_, ?_, ?_, ?_, ?_, ?_, ?_, ?_⟩
  · unfold myth_system_handle
    dsimp only
    rw [Nat.and_assoc, Nat.and_self]
  · rw [h0, fromCommand_eq]; rfl
  · rw [h0, fromCommand_eq]; cases inUI <;> rfl
  · rw [h0, fromCommand_eq]; cases inUI <;> rfl
  · rw [h0, fromCommand_eq]; cases inUI <;> rfl
  · rw [h0, fromCommand_eq]; rfl
  · rw [h0, fromCommand_eq]; rfl
  · rw [h0, fromCommand_eq]; rfl
  · rw [h0, fromCommand_eq]; rfl
  · rw [h0, fromCommand_eq]
  · rw [h0, fromCommand_eq]
  · intro flags2 _
    have h2 := myth_system_handle_eq c inUI mem command flags2
    refine ⟨by rw [h0, h2], ?_⟩
    intro env now nowWait sched p timeout s
    unfold myth_system
    rw [h0, h2]

/-- The statement of C29 at the flags `kMSRunBackground | kMSStdOut | kMSBuffered`
and at no flags: the same handle and the same run of `myth_system`. -/
theorem myth_system_forwards_only_run_shell_witness :
    (kMSRunBackground ||| kMSStdOut ||| kMSBuffered) &&& kMSRunShell = kMSNone &&& kMSRunShell ∧
    myth_system_handle sampleCodes false sampleMem "ls"
        (kMSRunBackground ||| kMSStdOut ||| kMSBuffered) =
      myth_system_handle sampleCodes false sampleMem "ls" kMSNone ∧
    myth_system sampleCodes false sampleMem sampleForkEnv 0 0 [] 5 "ls"
        (kMSRunBackground ||| kMSStdOut ||| kMSBuffered) 0 sampleProc =
      myth_system sampleCodes false sampleMem sampleForkEnv 0 0 [] 5 "ls" kMSNone 0 sampleProc :=
  ⟨by decide,
    ((myth_system_forwards_only_run_shell sampleCodes false sampleMem "ls" kMSNone).2.2.2.2.2.2.2.2.2.2.2
      (kMSRunBackground ||| kMSStdOut ||| kMSBuffered) (by decide)).1,
    ((myth_system_forwards_only_run_shell sampleCodes false sampleMem "ls" kMSNone).2.2.2.2.2.2.2.2.2.2.2
      (kMSRunBackground ||| kMSStdOut ||| kMSBuffered) (by decide)).2
      sampleForkEnv 0 0 [] 5 0 sampleProc⟩

/-- Claim C30. For every command string and flags the handle built by
`MythSystem(command, flags)` has `m_useshell == true` and `m_command ==
command`, and its `m_runinbackground` is set exactly when `kMSRunBackground` is
in `flags`: the test `m_command.endsWith("&")` is made by `ProcessFlags` before
`m_command` is assigned, on the empty string.  So a command that ends in `&`
built without `kMSRunBackground` is not in the background. -/
theorem fromCommand_background_only_by_flag (c : ExitCodes) (inUI : Bool) (mem : Indeterminate)
    (command : String) (flags : Nat) :
    (MythSystem.fromCommand c inUI mem command flags).m_runinbackground =
      decide (flags &&& kMSRunBackground ≠ 0) ∧
    (MythSystem.fromCommand c inUI mem command flags).m_useshell = true ∧
    (MythSystem.fromCommand c inUI mem command flags).m_command = command ∧
    (QString.endsWith command "&" = true → flags &&& kMSRunBackground = 0 →
      (MythSystem.fromCommand c inUI mem command flags).m_runinbackground = false) := by
  obtain ⟨h1, h2, h3, -⟩ := fromCommand_fields c inUI mem command flags
  refine ⟨h1, h2, h3, ?_⟩
  intro _ hf
  rw [h1, hf]
  rfl

/-- The statement of C30 at the command `sleep 10 &` built with no flags: the
command ends in `&` and the handle is not in the background. -/
theorem fromCommand_background_only_by_flag_witness :
    QString.endsWith "sleep 10 &" "&" = true ∧ kMSNone &&& kMSRunBackground = 0 ∧
    sampleNeverRun.m_command = "sleep 10 &" ∧ sampleNeverRun.m_useshell = true ∧
    sampleNeverRun.m_runinbackground = false :=
  ⟨by decide, by decide, by decide, by decide,
    (fromCommand_background_only_by_flag sampleCodes false sampleMemZero "sleep 10 &"
      kMSNone).2.2.2 (by decide) (by decide)⟩

end MythTV
